import Mathlib

/-! # ToledoArtGenerator: the colour pipeline and layer selection of `canvas.js`

A shallow embedding of the parts of `static/js/canvas.js` (class `ToledoArtCanvas`) and of
its caller in `static/js/main.js` that the specification speaks about.

Modelling conventions.

* A JavaScript Number is a rational number: finite values, with exact arithmetic in the
  place of binary64 rounding.  `NaN` arises in the embedded code only from `parseInt` on
  text that holds no hex digit and is modelled by `Option` (`none` is `NaN`).  Only the
  section on the hue in binary64 rounds the result of each operation.
* A JavaScript string that is inspected character by character (a colour such as
  `#2c3e50`) is a `List Char`.
* A parameter of `updatePreview` that the code uses as a number is a `JSVal`: either a
  Number, or a numeric string such as the `value` of an `<input type="range">`, which is
  what `main.js` passes.
* `Math.round x` is `⌊x + 1/2⌋`; `a % n` is the truncated remainder.
-/

namespace ToledoArt

/-! ## JavaScript values -/

/-- A value received for a numeric parameter: a Number, or a string holding a decimal
number (the `value` of a slider), identified with the number it denotes. -/
inductive JSVal where
  | num (q : ℚ)
  | str (q : ℚ)
  deriving DecidableEq, Repr

namespace JSVal

/-- The test `v === 0`: strict equality holds only between two Numbers. -/
def strictEqZero : JSVal → Bool
  | num q => decide (q = 0)
  | str _ => false

/-- The call `parseFloat(v)`: a Number is printed and read back, a numeric string is
read. -/
def parseFloat : JSVal → ℚ
  | num q => q
  | str q => q

/-- The conversion `ToNumber(v)` applied to the operand of an arithmetic operator. -/
def toNumber : JSVal → ℚ
  | num q => q
  | str q => q

end JSVal

/-- The function `Math.round`: the nearest integer, a tie going up. -/
def mathRound (x : ℚ) : ℤ := ⌊x + 1 / 2⌋

/-- The operator `a % n` on Numbers: the remainder has the sign of the dividend. -/
def jsMod (a n : ℚ) : ℚ :=
  if 0 ≤ a / n then a - n * ⌊a / n⌋ else a - n * ⌈a / n⌉

/-! ## Hexadecimal text -/

/-- The white space that `parseInt` skips at the start of its argument. -/
def isStrWhiteSpace (c : Char) : Bool :=
  let n := c.toNat
  n = 9 || n = 10 || n = 11 || n = 12 || n = 13 || n = 32 || n = 160 || n = 5760
    || (8192 ≤ n && n ≤ 8202) || n = 8232 || n = 8233 || n = 8239 || n = 8287
    || n = 12288 || n = 65279

/-- The value of one radix-16 digit, in either case. -/
def hexDigitValue (c : Char) : Option ℕ :=
  let n := c.toNat
  if 48 ≤ n ∧ n ≤ 57 then some (n - 48)
  else if 97 ≤ n ∧ n ≤ 102 then some (n - 87)
  else if 65 ≤ n ∧ n ≤ 70 then some (n - 55)
  else none

/-- The digits of the longest prefix made of radix-16 digits. -/
def takeHexDigits : List Char → List ℕ
  | [] => []
  | c :: cs =>
    match hexDigitValue c with
    | some d => d :: takeHexDigits cs
    | none => []

/-- The call `parseInt(s, 16)`; `none` is `NaN`. -/
def parseInt16 (s : List Char) : Option ℤ :=
  let s1 := s.dropWhile isStrWhiteSpace
  let signed : ℤ × List Char :=
    match s1 with
    | c :: t => if c = '-' then (-1, t) else if c = '+' then (1, t) else (1, s1)
    | [] => (1, s1)
  let s3 :=
    match signed.2 with
    | c :: d :: t => if c = '0' ∧ (d = 'x' ∨ d = 'X') then t else signed.2
    | other => other
  match takeHexDigits s3 with
  | [] => none
  | ds => some (signed.1 * (ds.foldl (fun acc d => 16 * acc + d) 0 : ℕ))

/-- The call `n.toString(16)` on an integer Number. -/
def toString16 (n : ℤ) : List Char :=
  if n < 0 then '-' :: Nat.toDigits 16 n.natAbs else Nat.toDigits 16 n.natAbs

/-- The call `s.padStart(2, '0')`. -/
def padStart2 (s : List Char) : List Char :=
  List.replicate (2 - s.length) '0' ++ s

/-- The call `s.substr(start, 2)`. -/
def substr2 (s : List Char) (start : ℕ) : List Char :=
  (s.drop start).take 2

/-- The call `color.replace('#', '')`: the first `#` is removed. -/
def stripHash (color : List Char) : List Char :=
  color.erase '#'

/-! ## `adjustColorIntensity` -/

/-- One channel of `adjustColorIntensity`:
`Math.min(255, Math.max(0, Math.round(r * factor)))`, `NaN` when `r` is. -/
def scaleChannel (r : Option ℤ) (factor : ℚ) : Option ℤ :=
  r.map fun v => min 255 (max 0 (mathRound (v * factor)))

/-- The text `newR.toString(16).padStart(2, '0')`; `NaN` prints as `NaN`. -/
def channelText : Option ℤ → List Char
  | some v => padStart2 (toString16 v)
  | none => padStart2 "NaN".data

/-- The method `adjustColorIntensity(color, intensity)`. -/
def adjustColorIntensity (color : List Char) (intensity : JSVal) : List Char :=
  let hex := stripHash color
  let r := parseInt16 (substr2 hex 0)
  let g := parseInt16 (substr2 hex 2)
  let b := parseInt16 (substr2 hex 4)
  let factor := intensity.toNumber
  let newR := scaleChannel r factor
  let newG := scaleChannel g factor
  let newB := scaleChannel b factor
  '#' :: (channelText newR ++ channelText newG ++ channelText newB)

/-! ## `adjustColorHue` -/

/-- The conversion at lines 393-410 of `canvas.js`: the hue (in turns), saturation and
lightness of a colour with channels `r`, `g`, `b` in the unit interval.  In the `switch`
on `max` the cases are tried in the order `r`, `g`, `b`; `max` is one of the three, so
the case `b` is the remaining one. -/
def rgbToHsl (r g b : ℚ) : ℚ × ℚ × ℚ :=
  let maxC := max r (max g b)
  let minC := min r (min g b)
  let l := (maxC + minC) / 2
  if maxC = minC then (0, 0, l)
  else
    let d := maxC - minC
    let s := if l > 1 / 2 then d / (2 - maxC - minC) else d / (maxC + minC)
    let h :=
      if maxC = r then (g - b) / d + (if g < b then 6 else 0)
      else if maxC = g then (b - r) / d + 2
      else (r - g) / d + 4
    (h / 6, s, l)

/-- The body of `rgbToHsl` with the largest channel `M` and the smallest channel `m`
named. -/
def hslOfExtremes (r g b M m : ℚ) : ℚ × ℚ × ℚ :=
  if M = m then (0, 0, (M + m) / 2)
  else
    ((if M = r then (g - b) / (M - m) + (if g < b then 6 else 0)
        else if M = g then (b - r) / (M - m) + 2
        else (r - g) / (M - m) + 4) / 6,
      if (M + m) / 2 > 1 / 2 then (M - m) / (2 - M - m) else (M - m) / (M + m),
      (M + m) / 2)

/-- The rotated hue in degrees, lines 412-413:
`h = (h * 360 + parseFloat(hueAdjust)) % 360; if (h < 0) h += 360`. -/
def rotatedHue (h hueAdjust : ℚ) : ℚ :=
  let h1 := jsMod (h * 360 + hueAdjust) 360
  if h1 < 0 then h1 + 360 else h1

/-- The local function `hue2rgb(p, q, t)`. -/
def hue2rgb (p q t : ℚ) : ℚ :=
  let t1 := if t < 0 then t + 1 else t
  let t2 := if t1 > 1 then t1 - 1 else t1
  if t2 < 1 / 6 then p + (q - p) * 6 * t2
  else if t2 < 1 / 2 then q
  else if t2 < 2 / 3 then p + (q - p) * (2 / 3 - t2) * 6
  else p

/-- The conversion at lines 416-434: the channels, in the unit interval, of the colour
with hue `h` (in turns), saturation `s` and lightness `l`. -/
def hslToRgb (h s l : ℚ) : ℚ × ℚ × ℚ :=
  if s = 0 then (l, l, l)
  else
    let q := if l < 1 / 2 then l * (1 + s) else l + s - l * s
    let p := 2 * l - q
    (hue2rgb p q (h + 1 / 3), hue2rgb p q h, hue2rgb p q (h - 1 / 3))

/-- The local function `toHex(x)`: `Math.round(x * 255)` in radix 16, a single digit
preceded by `0`. -/
def toHex (x : ℚ) : List Char :=
  let hex := toString16 (mathRound (x * 255))
  if hex.length = 1 then '0' :: hex else hex

/-- The body of `adjustColorHue` after its guard (lines 388-441), for a rotation of
`deg` degrees.  When a channel does not parse, `NaN` reaches every comparison and every
operation and the three channels print as `NaN`. -/
def hueConversionPath (color : List Char) (deg : ℚ) : List Char :=
  let hex := stripHash color
  match parseInt16 (substr2 hex 0), parseInt16 (substr2 hex 2), parseInt16 (substr2 hex 4) with
  | some r, some g, some b =>
    let hsl := rgbToHsl (r / 255) (g / 255) (b / 255)
    let h := rotatedHue hsl.1 deg / 360
    let rgb := hslToRgb h hsl.2.1 hsl.2.2
    '#' :: (toHex rgb.1 ++ toHex rgb.2.1 ++ toHex rgb.2.2)
  | _, _, _ => "#NaNNaNNaN".data

/-- The method `adjustColorHue(color, hueAdjust)`: `if (hueAdjust === 0) return color;`
and then the conversion with `parseFloat(hueAdjust)`. -/
def adjustColorHue (color : List Char) (hueAdjust : JSVal) : List Char :=
  if hueAdjust.strictEqZero then color
  else hueConversionPath color hueAdjust.parseFloat

/-! ## The hue of `adjustColorHue` in binary64

A Number of JavaScript is a binary64 value.  The definitions above compute with exact
rationals; the ones below round the result of every operation to the nearest binary64
value, a tie going to the even significand, as the language prescribes for `+`, `-`, `*`
and `/`.  Overflow is not modelled: the values met here are below 1000 in magnitude. -/

/-- The number of binary digits of `n`, for `n < 2 ^ fuel`. -/
def bitLength : ℕ → ℕ → ℕ
  | 0, _ => 0
  | fuel + 1, n => if n = 0 then 0 else bitLength fuel (n / 2) + 1

/-- The power `2 ^ z` for an integer `z`. -/
def twoPow (z : ℤ) : ℚ :=
  if 0 ≤ z then ((2 ^ z.toNat : ℕ) : ℚ) else 1 / ((2 ^ (-z).toNat : ℕ) : ℚ)

/-- The exponent `e` with `2 ^ e ≤ |x| < 2 ^ (e + 1)`, for `x ≠ 0`: the difference of the
numbers of digits of numerator and denominator, or one less. -/
def binade (x : ℚ) : ℤ :=
  let e0 : ℤ := (bitLength x.num.natAbs x.num.natAbs : ℤ) - (bitLength x.den x.den : ℤ)
  if twoPow e0 ≤ |x| then e0 else e0 - 1

/-- The integer nearest to `y`, a tie going to the even one. -/
def roundHalfEven (y : ℚ) : ℤ :=
  if y - ⌊y⌋ < 1 / 2 then ⌊y⌋
  else if 1 / 2 < y - ⌊y⌋ then ⌊y⌋ + 1
  else if ⌊y⌋ % 2 = 0 then ⌊y⌋
  else ⌊y⌋ + 1

/-- The binary64 value nearest to `x`, a tie going to the even significand: a multiple
of `2 ^ (e - 52)` where `e` is the exponent of `x`, and of `2 ^ (-1074)` for a subnormal
`x`. -/
def roundBinary64 (x : ℚ) : ℚ :=
  if x = 0 then 0
  else
    let quantum := twoPow (max (binade x) (-1022) - 52)
    roundHalfEven (x / quantum) * quantum

/-- Lines 389-413 of `adjustColorHue` in binary64: the hue in degrees after the rotation
by `deg = parseFloat(hueAdjust)`, for the channels `r`, `g`, `b` read by `parseInt`.  The
operator `%` is exact on binary64 values. -/
def rotatedHue64 (r g b : ℤ) (deg : ℚ) : ℚ :=
  let r1 := roundBinary64 (r / 255)
  let g1 := roundBinary64 (g / 255)
  let b1 := roundBinary64 (b / 255)
  let maxC := max r1 (max g1 b1)
  let minC := min r1 (min g1 b1)
  let h :=
    if maxC = minC then 0
    else
      let d := roundBinary64 (maxC - minC)
      let h0 :=
        if maxC = r1 then
          roundBinary64 (roundBinary64 (roundBinary64 (g1 - b1) / d)
            + (if g1 < b1 then 6 else 0))
        else if maxC = g1 then
          roundBinary64 (roundBinary64 (roundBinary64 (b1 - r1) / d) + 2)
        else roundBinary64 (roundBinary64 (roundBinary64 (r1 - g1) / d) + 4)
      roundBinary64 (h0 / 6)
  let h1 := jsMod (roundBinary64 (roundBinary64 (h * 360) + deg)) 360
  if h1 < 0 then roundBinary64 (h1 + 360) else h1

/-! ## `updatePreview`: the working palette -/

/-- The object literal `colors` of `updatePreview`: its five own properties. -/
def colors : List (String × List (List Char)) :=
  [("downtown", ["#2c3e50".data, "#34495e".data, "#ecf0f1".data, "#3498db".data,
      "#e74c3c".data, "#95a5a6".data]),
   ("sunset", ["#e67e22".data, "#d35400".data, "#f39c12".data, "#e74c3c".data,
      "#c0392b".data, "#95a5a6".data]),
   ("industrial", ["#7f8c8d".data, "#95a5a6".data, "#bdc3c7".data, "#34495e".data,
      "#2c3e50".data, "#ecf0f1".data]),
   ("riverfront", ["#27ae60".data, "#2ecc71".data, "#16a085".data, "#1abc9c".data,
      "#3498db".data, "#ecf0f1".data]),
   ("storm", ["#34495e".data, "#2c3e50".data, "#7f8c8d".data, "#95a5a6".data,
      "#bdc3c7".data, "#ecf0f1".data])]

/-- The property names that an object literal inherits from `Object.prototype`. -/
def objectPrototypeKeys : List String :=
  ["constructor", "__defineGetter__", "__defineSetter__", "hasOwnProperty",
   "__lookupGetter__", "__lookupSetter__", "isPrototypeOf", "propertyIsEnumerable",
   "toString", "valueOf", "__proto__", "toLocaleString"]

/-- The result of reading a property of `colors`: one of its arrays, a member inherited
from `Object.prototype` (a function, or the prototype object for `__proto__`), or
`undefined`. -/
inductive PropertyValue where
  | palette (cs : List (List Char))
  | inherited (key : String)
  | undefined
  deriving DecidableEq, Repr

/-- The property read `colors[colorTone]`: own properties first, then the prototype. -/
def colorsGet (colorTone : String) : PropertyValue :=
  match colors.lookup colorTone with
  | some cs => .palette cs
  | none => if colorTone ∈ objectPrototypeKeys then .inherited colorTone else .undefined

/-- The expression `colors[colorTone] || colors.downtown`: arrays, functions and objects
are truthy, `undefined` is not. -/
def selectedColors (colorTone : String) : PropertyValue :=
  match colorsGet colorTone with
  | .undefined => colorsGet "downtown"
  | v => v

/-- An exception raised inside `updatePreview`: a `TypeError` of its own code, or the
exception that the context raises in its call number `call`. -/
inductive RenderError where
  | typeError (message : String)
  | domException (call : ℕ)
  deriving DecidableEq, Repr

deriving instance DecidableEq for Except

/-- The constant `adjustedColors` of `updatePreview`:
`selectedColors.map(color => this.adjustColorHue(this.adjustColorIntensity(color,
colorIntensity), hueAdjust))`.  Only an array has a `map` method; calling the missing
method of any other value raises a `TypeError`. -/
def adjustedColors (colorTone : String) (colorIntensity hueAdjust : JSVal) :
    Except RenderError (List (List Char)) :=
  match selectedColors colorTone with
  | .palette cs =>
    .ok (cs.map fun color => adjustColorHue (adjustColorIntensity color colorIntensity) hueAdjust)
  | _ => .error (.typeError "selectedColors.map is not a function")

/-! ## `updatePreview`: the overlays -/

/-- The four landmark overlays. -/
inductive Overlay where
  | redSculpture
  | glassToledo
  | mudHens
  | toledoMuseum
  deriving DecidableEq, Repr

/-- The four overlay flags of the parameter object. -/
structure OverlayFlags where
  redSculpture : Bool
  glassToledo : Bool
  mudHens : Bool
  toledoMuseum : Bool
  deriving DecidableEq, Repr

/-- The overlay drawers that `updatePreview` calls after `drawToledoCityscape`, in call
order (lines 115-129): four `if` statements in sequence. -/
def overlayCalls (f : OverlayFlags) : List Overlay :=
  (if f.glassToledo then [Overlay.glassToledo] else [])
    ++ (if f.mudHens then [Overlay.mudHens] else [])
    ++ (if f.redSculpture then [Overlay.redSculpture] else [])
    ++ (if f.toledoMuseum then [Overlay.toledoMuseum] else [])

/-- Whether the flag of an overlay is set. -/
def OverlayFlags.enabled (f : OverlayFlags) : Overlay → Bool
  | .redSculpture => f.redSculpture
  | .glassToledo => f.glassToledo
  | .mudHens => f.mudHens
  | .toledoMuseum => f.toledoMuseum

/-- The draw order as the specification words it: `redSculpture`, `glassToledo`,
`mudHens`, `toledoMuseum`, restricted to the overlays whose flag is set. -/
def specOverlayOrder (f : OverlayFlags) : List Overlay :=
  [Overlay.redSculpture, Overlay.glassToledo, Overlay.mudHens, Overlay.toledoMuseum].filter
    f.enabled

/-! ## The parameter object and its caller -/

/-- The object destructured by `updatePreview(params)`, every property present. -/
structure PreviewParams where
  intensity : JSVal
  chaos : JSVal
  colorTone : String
  lineThickness : JSVal
  buildingDensity : JSVal
  skylineComplexity : JSVal
  textureGrain : JSVal
  colorIntensity : JSVal
  hueAdjust : JSVal
  overlays : OverlayFlags
  deriving DecidableEq, Repr

/-- The state of the controls of the page that `main.js` reads: the number shown by each
slider, the selected tone and the four checkboxes. -/
structure Controls where
  intensity : ℚ
  chaos : ℚ
  lineThickness : ℚ
  buildingDensity : ℚ
  skylineComplexity : ℚ
  textureGrain : ℚ
  colorIntensity : ℚ
  hueAdjust : ℚ
  colorTone : String
  overlays : OverlayFlags
  deriving DecidableEq, Repr

/-- The object literal that `updatePreview` of `main.js` (lines 169-184) passes to
`canvas.updatePreview`: each slider contributes its `value`, a string. -/
def paramsOfControls (c : Controls) : PreviewParams where
  intensity := .str c.intensity
  chaos := .str c.chaos
  lineThickness := .str c.lineThickness
  buildingDensity := .str c.buildingDensity
  skylineComplexity := .str c.skylineComplexity
  textureGrain := .str c.textureGrain
  colorIntensity := .str c.colorIntensity
  hueAdjust := .str c.hueAdjust
  colorTone := c.colorTone
  overlays := c.overlays

/-! ## `drawClouds` -/

/-- The drawing steps of `drawClouds`: the gradient fill of the sky and the calls of the
three cloud drawers, with their arguments. -/
inductive CloudCall where
  | skyGradient
  | drawCumulusClouds (colors : List (List Char)) (intensity : ℚ)
  | drawStratusClouds (colors : List (List Char)) (intensity chaos : ℚ)
  | drawStormClouds (colors : List (List Char)) (intensity chaos : ℚ)
  deriving DecidableEq, Repr

/-- The method `drawClouds(colors, intensity, chaos)`: its drawing steps in order. -/
def drawClouds (colors : List (List Char)) (intensity chaos : ℚ) : List CloudCall :=
  CloudCall.skyGradient ::
    (if chaos < 3 / 10 then
      [CloudCall.drawCumulusClouds colors intensity]
    else if chaos < 7 / 10 then
      [CloudCall.drawCumulusClouds colors intensity,
       CloudCall.drawStratusClouds colors intensity chaos]
    else
      [CloudCall.drawStormClouds colors intensity chaos])

/-- The three sky regimes of the specification. -/
inductive SkyRegime where
  | cumulusOnly
  | cumulusThenStratus
  | stormOnly
  deriving DecidableEq, Repr

/-- The regime that the specification assigns to a chaos value; `none` if no condition
of the specification applies. -/
def specSkyRegime (chaos : ℚ) : Option SkyRegime :=
  if chaos < 3 / 10 then some .cumulusOnly
  else if 3 / 10 ≤ chaos ∧ chaos < 7 / 10 then some .cumulusThenStratus
  else if 7 / 10 ≤ chaos then some .stormOnly
  else none

/-- The cloud drawers that make up a regime, in order. -/
def SkyRegime.calls (colors : List (List Char)) (intensity chaos : ℚ) :
    SkyRegime → List CloudCall
  | .cumulusOnly => [CloudCall.drawCumulusClouds colors intensity]
  | .cumulusThenStratus =>
    [CloudCall.drawCumulusClouds colors intensity,
     CloudCall.drawStratusClouds colors intensity chaos]
  | .stormOnly => [CloudCall.drawStormClouds colors intensity chaos]

/-! ## Vocabulary of the specification -/

/-- The value of a pair of radix-16 digits. -/
def hexPairValue (c d : Char) : Option ℕ :=
  match hexDigitValue c, hexDigitValue d with
  | some a, some b => some (16 * a + b)
  | _, _ => none

/-- The channels of a colour written `#rrggbb`: seven characters, a `#` and three pairs
of radix-16 digits, each pair a value in `0..255`; `none` for any other text. -/
def colorChannels : List Char → Option (ℕ × ℕ × ℕ)
  | [h, c1, c2, c3, c4, c5, c6] =>
    if h = '#' then
      match hexPairValue c1 c2, hexPairValue c3 c4, hexPairValue c5 c6 with
      | some r, some g, some b => some (r, g, b)
      | _, _, _ => none
    else none
  | _ => none

/-- The two lower-case radix-16 digits of a channel value. -/
def hexByte (n : ℕ) : List Char :=
  [Nat.digitChar (n / 16), Nat.digitChar (n % 16)]

/-- The text `#rrggbb` of the colour with channels `r`, `g`, `b`. -/
def hexColor (r g b : ℕ) : List Char :=
  '#' :: (hexByte r ++ hexByte g ++ hexByte b)

/-- The nearest integer to `x` clamped to `0..255`, as the specification words the
intensity step. -/
def clampedNearest (x : ℚ) : ℕ :=
  (min 255 (max 0 ⌊x + 1 / 2⌋)).toNat

/-! ## The drawing surface and the calls made on its context

The 2D context is a recorder: a drawing method of `ToledoArtCanvas` is embedded as the
list of the context calls and property assignments it makes, in order.  `Math.random`
is a stream of numbers in `[0, 1)` read at a running index; `Math.sin` and `Math.cos`
are functions from Numbers to Numbers supplied by the environment. -/

/-- The size of the hosting surface, `canvas.width` and `canvas.height`. -/
structure Surface where
  width : ℕ
  height : ℕ
  deriving DecidableEq, Repr

/-- The ambient functions of `Math` that the drawing code calls. -/
structure MathEnv where
  random : ℕ → ℚ
  sin : ℚ → ℚ
  cos : ℚ → ℚ

/-- The constant `Math.PI`, the binary64 number nearest to the circle constant. -/
def mathPI : ℚ := 884279719003555 / 281474976710656

/-- A value assigned to `fillStyle` or `strokeStyle`. -/
inductive Style where
  | css (text : List Char)
  | rgba (r g b alpha : ℚ)
  | linearGradient (x0 y0 x1 y1 : ℚ) (stops : List (ℚ × List Char))
  | radialGradient (x0 y0 r0 x1 y1 r1 : ℚ) (stops : List (ℚ × List Char))
  | undefined
  deriving DecidableEq, Repr

/-- A call or property assignment on the 2D context. -/
inductive Op where
  | clearRect (x y w h : ℚ)
  | fillRect (x y w h : ℚ)
  | setFillStyle (s : Style)
  | setStrokeStyle (s : Style)
  | setLineWidth (w : ℚ)
  | setFont (font : String)
  | setTextAlign (align : String)
  | beginPath
  | closePath
  | moveTo (x y : ℚ)
  | lineTo (x y : ℚ)
  | quadraticCurveTo (cpx cpy x y : ℚ)
  | arc (x y radius startAngle endAngle : ℚ)
  | ellipse (x y radiusX radiusY rotation startAngle endAngle : ℚ)
  | rect (x y w h : ℚ)
  | fill
  | stroke
  | fillText (text : String) (x y : ℚ)
  | save
  | restore
  | translate (x y : ℚ)
  | scale (x y : ℚ)
  deriving DecidableEq, Repr

/-- The element read `colors[i]` used as a style: `undefined` past the end. -/
def colorAt (colors : List (List Char)) (i : ℕ) : Style :=
  match colors[i]? with
  | some c => Style.css c
  | none => Style.undefined

/-- The number of rounds of `for (let i = 0; i < bound; i++)`. -/
def loopCount (bound : ℚ) : ℕ := ⌈bound⌉.toNat

/-- The number of rounds of `for (let x = 0; x <= bound; x += step)`, `step` positive. -/
def stepCount (bound step : ℚ) : ℕ :=
  if bound < 0 then 0 else ⌊bound / step⌋.toNat + 1

/-- A `for` loop whose round `i`, started with the random index `k`, makes the calls
`(body i k).1` and leaves the random index `(body i k).2`: the calls of each round, and
the random index after the last one. -/
def forBlocksFrom (body : ℕ → ℕ → List Op × ℕ) : ℕ → ℕ → ℕ → List (List Op) × ℕ
  | 0, _, k => ([], k)
  | n + 1, i, k =>
    let r := body i k
    let rest := forBlocksFrom body n (i + 1) r.2
    (r.1 :: rest.1, rest.2)

/-- A `for` loop of `n` rounds counted from 0. -/
def forBlocks (n : ℕ) (body : ℕ → ℕ → List Op × ℕ) (k : ℕ) : List (List Op) × ℕ :=
  forBlocksFrom body n 0 k

/-- The calls of a `for` loop, in order. -/
def forLoop (n : ℕ) (body : ℕ → ℕ → List Op × ℕ) (k : ℕ) : List Op × ℕ :=
  ((forBlocks n body k).1.flatten, (forBlocks n body k).2)

/-! ## `drawToledoBuildings` -/

/-- One cell of the window grid (lines 625-633): a random draw, and the window when the
draw exceeds 0.3. -/
def windowCell (env : MathEnv) (s : Surface) (colors : List (List Char))
    (x width height : ℚ) (windowRows windowCols : ℤ) (row col : ℕ) (k : ℕ) : List Op × ℕ :=
  if env.random k > 3 / 10 then
    let winX := x - width / 2 + (col + 1 / 2) * (width / windowCols)
    let winY := s.height - height + (row + 1 / 2) * (height / windowRows)
    ([Op.beginPath, Op.rect (winX - 3) (winY - 3) 6 6, Op.setFillStyle (colorAt colors 3),
      Op.fill], k + 1)
  else ([], k + 1)

/-- The two nested loops over the window grid of one building (lines 621-636). -/
def windowGrid (env : MathEnv) (s : Surface) (colors : List (List Char))
    (x width height : ℚ) (k : ℕ) : List Op × ℕ :=
  let windowRows : ℤ := ⌊height / 20⌋
  let windowCols : ℤ := ⌊width / 15⌋
  forLoop (loopCount windowRows)
    (fun row k1 => forLoop (loopCount windowCols)
      (fun col k2 => windowCell env s colors x width height windowRows windowCols row col k2)
      k1)
    k

/-- The two cracks of one building, drawn when `chaos > 0.3` (lines 638-647). -/
def buildingCracks (env : MathEnv) (s : Surface) (colors : List (List Char))
    (chaos x width height : ℚ) (k : ℕ) : List Op × ℕ :=
  if chaos > 3 / 10 then
    forLoop 2
      (fun _ k1 =>
        ([Op.beginPath,
          Op.moveTo (x - width / 2 + env.random k1 * width) (s.height - height),
          Op.lineTo (x - width / 2 + env.random (k1 + 1) * width) s.height,
          Op.setStrokeStyle (colorAt colors 1),
          Op.setLineWidth 1,
          Op.stroke], k1 + 2))
      k
  else ([], k)

/-- One round of the loop of `drawToledoBuildings`: the rectangle of building `i`, its
windows and its cracks. -/
def buildingRound (env : MathEnv) (s : Surface) (colors : List (List Char))
    (intensity chaos : ℚ) (buildingCount : ℤ) (i : ℕ) (k : ℕ) : List Op × ℕ :=
  let baseHeight : ℚ := s.height * (4 / 10)
  let x : ℚ := (s.width * (i + 1)) / (buildingCount + 1)
  let width : ℚ := 25 + env.random k * 30
  let height : ℚ := baseHeight * (3 / 10 + env.random (k + 1) * (8 / 10) * intensity)
  let windows := windowGrid env s colors x width height (k + 2)
  let cracks := buildingCracks env s colors chaos x width height windows.2
  ([Op.beginPath, Op.rect (x - width / 2) (s.height - height) width height,
     Op.setFillStyle (colorAt colors 0), Op.fill] ++ windows.1 ++ cracks.1, cracks.2)

/-- The count `Math.floor((5 + Math.floor(chaos * 8)) * buildingDensity)`. -/
def buildingCount (chaos buildingDensity : ℚ) : ℤ :=
  ⌊((5 + ⌊chaos * 8⌋ : ℤ) : ℚ) * buildingDensity⌋

/-- The method `drawToledoBuildings(colors, intensity, chaos, buildingDensity)`: the
calls of each round of its loop, and the random index after it. -/
def drawToledoBuildings (env : MathEnv) (s : Surface) (colors : List (List Char))
    (intensity chaos buildingDensity : ℚ) (k : ℕ) : List (List Op) × ℕ :=
  forBlocks (loopCount (buildingCount chaos buildingDensity))
    (buildingRound env s colors intensity chaos (buildingCount chaos buildingDensity)) k

/-! ## The sky -/

/-- A sequence of drawing steps, each started at the random index the previous one
leaves. -/
def seqOps : List (ℕ → List Op × ℕ) → ℕ → List Op × ℕ
  | [], k => ([], k)
  | f :: fs, k =>
    let r := f k
    let rest := seqOps fs r.2
    (r.1 ++ rest.1, rest.2)

/-- The call `list.forEach(body)`, with the random index threaded through. -/
def forEachOps {α : Type} (body : α → ℕ → List Op × ℕ) : List α → ℕ → List Op × ℕ
  | [], k => ([], k)
  | x :: xs, k =>
    let r := body x k
    let rest := forEachOps body xs r.2
    (r.1 ++ rest.1, rest.2)

/-- The gradient fill of the sky at the start of `drawClouds` (lines 459-467). -/
def skyGradientOps (s : Surface) : List Op :=
  let skyHeight : ℚ := s.height * (35 / 100)
  [Op.setFillStyle (Style.linearGradient 0 0 0 skyHeight
      [(0, "#87CEEB".data), (7 / 10, "#B0C4DE".data), (1, "#D3D3D3".data)]),
   Op.fillRect 0 0 s.width skyHeight]

/-- One puff of a cumulus cloud (lines 490-505). -/
def cumulusPuff (env : MathEnv) (x y baseWidth baseHeight : ℚ) (puffCount : ℤ) (j : ℕ)
    (k : ℕ) : List Op × ℕ :=
  let puffX := x + (j - (puffCount : ℚ) / 2) * (baseWidth / puffCount) * (8 / 10)
  let puffY := y + (env.random k - 1 / 2) * baseHeight * (1 / 2)
  let puffRadius := baseWidth / puffCount + env.random (k + 1) * 20
  ([Op.beginPath, Op.arc puffX puffY puffRadius 0 (mathPI * 2),
    Op.setFillStyle (Style.radialGradient (puffX - puffRadius * (3 / 10))
      (puffY - puffRadius * (3 / 10)) 0 puffX puffY puffRadius
      [(0, "#FFFFFF".data), (6 / 10, "#F0F0F0".data), (1, "#D0D0D0".data)]),
    Op.fill], k + 2)

/-- The method `drawCumulusClouds(colors, intensity)`. -/
def drawCumulusClouds (env : MathEnv) (s : Surface) (intensity : ℚ) (k : ℕ) :
    List Op × ℕ :=
  let cloudCount : ℤ := 3 + ⌊intensity * 4⌋
  forLoop (loopCount cloudCount)
    (fun i k1 =>
      let x := (s.width * (i + 1 / 2)) / (cloudCount : ℚ) + (env.random k1 - 1 / 2) * 60
      let y := s.height * (1 / 10 + env.random (k1 + 1) * (2 / 10))
      let baseWidth := 80 + env.random (k1 + 2) * 60
      let baseHeight := 40 + env.random (k1 + 3) * 30
      let puffCount : ℤ := 5 + ⌊env.random (k1 + 4) * 3⌋
      forLoop (loopCount puffCount) (cumulusPuff env x y baseWidth baseHeight puffCount)
        (k1 + 5))
    k

/-- The method `drawStratusClouds(colors, intensity, chaos)`; it reads no random
number. -/
def drawStratusClouds (env : MathEnv) (s : Surface) (chaos : ℚ) : List Op :=
  let layerCount : ℤ := 2 + ⌊chaos * 3⌋
  ((List.range (loopCount layerCount)).map fun layer =>
    let y : ℚ := s.height * (5 / 100 + layer * (8 / 100))
    let opacity : ℚ := 6 / 10 - layer * (1 / 10)
    [Op.setFillStyle (Style.rgba 200 200 200 opacity), Op.beginPath, Op.moveTo 0 y]
      ++ ((List.range (stepCount s.width 20)).map fun n =>
            let x : ℚ := 20 * n
            Op.lineTo x (y + 15 + env.sin (x * (1 / 100) + layer) * 10 * chaos))
      ++ [Op.lineTo s.width (y - 20), Op.lineTo 0 (y - 20), Op.closePath, Op.fill]).flatten

/-- One round of the billow loop of `drawStormClouds` (lines 551-564): two random
draws, then a line for `i = 0` and a quadratic curve for every other `i`. -/
def stormBillow (env : MathEnv) (s : Surface) (y cloudHeight : ℚ) (i : ℕ) (k : ℕ) :
    List Op × ℕ :=
  let segments : ℚ := 8
  let x := (s.width * i) / segments
  let billowHeight := y + env.random k * cloudHeight * (7 / 10)
  let billowBottom := y + cloudHeight - env.random (k + 1) * 30
  if i = 0 then ([Op.lineTo x billowBottom], k + 2)
  else
    let prevX := (s.width * ((i : ℚ) - 1)) / segments
    let controlX := prevX + (x - prevX) / 2
    let controlY := billowHeight
    ([Op.quadraticCurveTo controlX controlY x billowBottom], k + 2)

/-- The lightning of `drawStormClouds` (lines 571-580): when `chaos > 0.8` a random
number is drawn, and when it exceeds 0.7 the bolt is stroked. -/
def stormLightning (env : MathEnv) (s : Surface) (chaos y cloudHeight : ℚ) (k : ℕ) :
    List Op × ℕ :=
  if chaos > 8 / 10 then
    if env.random k > 7 / 10 then
      let lightningX := s.width * (3 / 10) + env.random (k + 1) * s.width * (4 / 10)
      ([Op.setStrokeStyle (Style.css "#FFFACD".data), Op.setLineWidth 2, Op.beginPath,
        Op.moveTo lightningX (y + cloudHeight * (3 / 10)),
        Op.lineTo (lightningX + (env.random (k + 2) - 1 / 2) * 20) (y + cloudHeight * (6 / 10)),
        Op.lineTo (lightningX + (env.random (k + 3) - 1 / 2) * 30) (y + cloudHeight),
        Op.stroke], k + 4)
    else ([], k + 1)
  else ([], k)

/-- The billow outline of `drawStormClouds`: the calls between `beginPath` and `fill`
(lines 548-569). -/
def stormOutline (env : MathEnv) (s : Surface) (k : ℕ) : List Op × ℕ :=
  let y : ℚ := s.height * (1 / 10)
  let cloudHeight : ℚ := s.height * (35 / 100)
  let billows := forLoop 9 (stormBillow env s y cloudHeight) k
  ([Op.moveTo 0 (y + cloudHeight)] ++ billows.1
    ++ [Op.lineTo s.width y, Op.lineTo 0 y, Op.closePath], billows.2)

/-- The method `drawStormClouds(colors, intensity, chaos)`. -/
def drawStormClouds (env : MathEnv) (s : Surface) (chaos : ℚ) (k : ℕ) : List Op × ℕ :=
  let y : ℚ := s.height * (1 / 10)
  let cloudHeight : ℚ := s.height * (35 / 100)
  let outline := stormOutline env s k
  let lightning := stormLightning env s chaos y cloudHeight outline.2
  ([Op.setFillStyle (Style.linearGradient 0 y 0 (y + cloudHeight)
      [(0, "#4A4A4A".data), (3 / 10, "#696969".data), (8 / 10, "#A9A9A9".data),
       (1, "#D3D3D3".data)]),
    Op.beginPath] ++ outline.1 ++ [Op.fill] ++ lightning.1, lightning.2)

/-- The calls made by one step of `drawClouds`. -/
def cloudCallOps (env : MathEnv) (s : Surface) : CloudCall → ℕ → List Op × ℕ
  | .skyGradient, k => (skyGradientOps s, k)
  | .drawCumulusClouds _ intensity, k => drawCumulusClouds env s intensity k
  | .drawStratusClouds _ _ chaos, k => (drawStratusClouds env s chaos, k)
  | .drawStormClouds _ _ chaos, k => drawStormClouds env s chaos k

/-- The calls made on the context by `drawClouds(colors, intensity, chaos)`. -/
def drawCloudsOps (env : MathEnv) (s : Surface) (colors : List (List Char))
    (intensity chaos : ℚ) (k : ℕ) : List Op × ℕ :=
  seqOps ((drawClouds colors intensity chaos).map (cloudCallOps env s)) k

/-! ## `drawSun` -/

/-- One splatter dot of `drawSun` (lines 595-604): its angle, its distance from the
centre of the disc, and the calls that draw it. -/
def sunSplat (env : MathEnv) (colors : List (List Char)) (centerX centerY radius chaos
    splatCount : ℚ) (i : ℕ) (k : ℕ) : List Op × ℕ :=
  let angle := (mathPI * 2 * i) / splatCount
  let distance := radius + env.random k * 30 * chaos
  let x := centerX + env.cos angle * distance
  let y := centerY + env.sin angle * distance
  ([Op.beginPath, Op.arc x y (env.random (k + 1) * 3) 0 (mathPI * 2),
    Op.setFillStyle (colorAt colors 2), Op.fill], k + 2)

/-- The disc of `drawSun` (lines 584-591). -/
def sunDisc (s : Surface) (colors : List (List Char)) (intensity : ℚ) : List Op :=
  [Op.beginPath,
   Op.arc (s.width * (8 / 10)) (s.height * (15 / 100)) (40 + intensity * 20) 0 (mathPI * 2),
   Op.setFillStyle (colorAt colors 2), Op.fill]

/-- The splatter dots of `drawSun`, the calls of each round of the loop. -/
def sunSplats (env : MathEnv) (s : Surface) (colors : List (List Char))
    (intensity chaos : ℚ) (k : ℕ) : List (List Op) × ℕ :=
  let splatCount : ℚ := 15 + chaos * 20
  forBlocks (loopCount splatCount)
    (sunSplat env colors (s.width * (8 / 10)) (s.height * (15 / 100)) (40 + intensity * 20)
      chaos splatCount) k

/-- The method `drawSun(colors, intensity, chaos)`. -/
def drawSun (env : MathEnv) (s : Surface) (colors : List (List Char))
    (intensity chaos : ℚ) (k : ℕ) : List Op × ℕ :=
  (sunDisc s colors intensity ++ (sunSplats env s colors intensity chaos k).1.flatten,
    (sunSplats env s colors intensity chaos k).2)

/-! ## The skyline silhouettes -/

/-- The element read `colors[i]` for a Number index that may be negative. -/
def colorAtInt (colors : List (List Char)) (i : ℤ) : Style :=
  if i < 0 then Style.undefined else colorAt colors i.toNat

/-- The array `points` of one silhouette (lines 695-703): `pointCount` points, each
made from two random draws, the first of them at the random index `k`. -/
def silhouettePoints (env : MathEnv) (s : Surface) (intensity chaos : ℚ) (k : ℕ) :
    List (ℚ × ℚ) :=
  let skyHeight : ℚ := s.height * (35 / 100)
  let pointCount : ℤ := 4 + ⌊chaos * 4⌋
  (List.range (loopCount pointCount)).map fun j =>
    ((s.width * j) / ((pointCount : ℚ) - 1) + (env.random (k + 2 * j) - 1 / 2) * 80 * chaos,
      skyHeight + env.random (k + 2 * j + 1) * (s.height - skyHeight) * (6 / 10) * intensity)

/-- The splatters that `addInkSplatters` draws around one point (lines 733-746). -/
def inkSplatsAt (env : MathEnv) (color : Style) (textureGrain : ℚ) (point : ℚ × ℚ)
    (k : ℕ) : List Op × ℕ :=
  let splatCount : ℤ := ⌊(env.random k * 5 + 3) * textureGrain⌋
  forLoop (loopCount splatCount)
    (fun _ k1 =>
      ([Op.beginPath,
        Op.arc (point.1 + (env.random k1 - 1 / 2) * 30)
          (point.2 + (env.random (k1 + 1) - 1 / 2) * 30)
          (env.random (k1 + 2) * 3 * textureGrain) 0 (mathPI * 2),
        Op.setFillStyle color, Op.fill], k1 + 3))
    (k + 1)

/-- The method `addInkSplatters(points, color, textureGrain)`. -/
def addInkSplatters (env : MathEnv) (points : List (ℚ × ℚ)) (color : Style)
    (textureGrain : ℚ) (k : ℕ) : List Op × ℕ :=
  forEachOps (inkSplatsAt env color textureGrain) points k

/-- The filled polygon of one silhouette (lines 691-692 and 705-714), for the points
made from the random index `k + 1` on: the random draw at `k` places the start of the
path and the draw after the points picks the fill colour. -/
def silhouettePolygon (env : MathEnv) (s : Surface) (colors : List (List Char))
    (points : List (ℚ × ℚ)) (k : ℕ) : List Op :=
  [Op.beginPath, Op.moveTo (env.random k * s.width) s.height]
    ++ points.map (fun p => Op.lineTo p.1 p.2)
    ++ [Op.lineTo s.width s.height, Op.closePath,
        Op.setFillStyle (colorAtInt colors ⌊env.random (k + 1 + 2 * points.length) * 2⌋),
        Op.fill]

/-- One round of the silhouette loop of `drawToledoCityscape` (lines 690-720), for a
point count that is positive: the polygon, and the ink splatters when `chaos > 0.3`. -/
def silhouetteRound (env : MathEnv) (s : Surface) (colors : List (List Char))
    (intensity chaos lineThickness textureGrain : ℚ) (k : ℕ) : List Op × ℕ :=
  let points := silhouettePoints env s intensity chaos (k + 1)
  let polygon := silhouettePolygon env s colors points k
  let k1 := k + 2 + 2 * points.length
  if chaos > 3 / 10 then
    let ink := addInkSplatters env points (colorAt colors 0) textureGrain k1
    (polygon ++ [Op.setLineWidth lineThickness] ++ ink.1, ink.2)
  else (polygon, k1)

/-! ## `drawMaumeeRiver` -/

/-- The text `colors[i]` as a template literal prints it. -/
def colorText (colors : List (List Char)) (i : ℕ) : List Char :=
  (colors[i]?).getD "undefined".data

/-- The method `drawMaumeeRiver(colors)`. -/
def drawMaumeeRiver (env : MathEnv) (s : Surface) (colors : List (List Char)) (k : ℕ) :
    List Op × ℕ :=
  let riverY : ℚ := s.height * (85 / 100)
  let riverHeight : ℚ := s.height * (15 / 100)
  let glints := forLoop 5
    (fun _ k1 =>
      ([Op.beginPath,
        Op.ellipse (env.random k1 * s.width) (riverY + env.random (k1 + 1) * riverHeight)
          20 3 0 0 (mathPI * 2),
        Op.fill], k1 + 2))
    k
  ([Op.setFillStyle (Style.linearGradient 0 riverY 0 s.height
      [(0, colorText colors 3), (1, colorText colors 0)]),
    Op.beginPath, Op.moveTo 0 riverY]
    ++ ((List.range (stepCount s.width 10)).map fun n =>
          let x : ℚ := 10 * n
          Op.lineTo x (riverY + env.sin (x * (2 / 100)) * 5))
    ++ [Op.lineTo s.width s.height, Op.lineTo 0 s.height, Op.closePath, Op.fill,
        Op.setFillStyle (Style.css (colorText colors 5 ++ "60".data))]
    ++ glints.1, glints.2)

/-! ## `drawToledoCityscape` -/

/-- The calls of one run of `drawToledoCityscape`, layer by layer in the order in which
they are made, and the exception that ended the run early, if any. -/
structure Scene where
  ground : List Op
  sky : List Op
  sun : List Op
  silhouettes : List (List Op)
  buildings : List (List Op)
  river : List Op
  thrown : Option RenderError
  deriving DecidableEq, Repr

/-- The calls of a scene in the order in which they were made. -/
def Scene.ops (sc : Scene) : List Op :=
  sc.ground ++ sc.sky ++ sc.sun ++ sc.silhouettes.flatten ++ sc.buildings.flatten ++ sc.river

/-- The ground fill at the start of `drawToledoCityscape` (lines 688-690). -/
def groundOps (s : Surface) (colors : List (List Char)) : List Op :=
  let skyHeight : ℚ := s.height * (35 / 100)
  [Op.setFillStyle (colorAt colors 5),
   Op.fillRect 0 skyHeight s.width (s.height - skyHeight)]

/-- The method `drawToledoCityscape(colors, intensity, chaos, lineThickness,
buildingDensity, skylineComplexity, textureGrain)`, from the random index `k`.  When the
silhouette loop runs with a point count that is not positive, `points[0]` is `undefined`
and the read of `points[0].x` in the first round raises a `TypeError` after the path has
been started. -/
def drawToledoCityscape (env : MathEnv) (s : Surface) (colors : List (List Char))
    (intensity chaos lineThickness buildingDensity : ℚ) (skylineComplexity : ℤ)
    (textureGrain : ℚ) (k : ℕ) : Scene × ℕ :=
  let sky := drawCloudsOps env s colors intensity chaos k
  let sun := drawSun env s colors intensity chaos sky.2
  if 0 < skylineComplexity ∧ (4 + ⌊chaos * 4⌋ : ℤ) ≤ 0 then
    ({ ground := groundOps s colors, sky := sky.1, sun := sun.1,
       silhouettes := [[Op.beginPath, Op.moveTo (env.random sun.2 * s.width) s.height]],
       buildings := [], river := [],
       thrown := some (RenderError.typeError
         "Cannot read properties of undefined (reading 'x')") }, sun.2 + 1)
  else
    let silhouettes := forBlocks skylineComplexity.toNat
      (fun _ k1 => silhouetteRound env s colors intensity chaos lineThickness textureGrain k1)
      sun.2
    let buildings := drawToledoBuildings env s colors intensity chaos buildingDensity
      silhouettes.2
    let river := drawMaumeeRiver env s colors buildings.2
    ({ ground := groundOps s colors, sky := sky.1, sun := sun.1,
       silhouettes := silhouettes.1, buildings := buildings.1, river := river.1,
       thrown := none }, river.2)

/-! ## The overlay drawers -/

/-- The two polygons of one spike of the red sculpture (lines 157-173). -/
def sculptureSpike (x y : ℚ) (color : List Char) : List Op :=
  [Op.setFillStyle (Style.css color), Op.beginPath, Op.moveTo x 20, Op.lineTo (x - 6) y,
   Op.lineTo (x + 6) y, Op.closePath, Op.fill,
   Op.beginPath, Op.moveTo (x - 6) y, Op.lineTo (x + 6) y, Op.lineTo (x + 4) 20,
   Op.lineTo (x - 4) 20, Op.closePath, Op.fill]

/-- The method `addRedSculptureOverlay()`. -/
def addRedSculptureOverlay (s : Surface) : List Op :=
  let centerX : ℚ := s.width * (25 / 100)
  let centerY : ℚ := s.height * (7 / 10)
  let sculptureRed := "#DC143C".data
  let sculptureShade := "#B71C1C".data
  let spikeData : List (ℚ × ℚ × List Char) :=
    [(0, -60, sculptureRed), (-18, -35, sculptureRed), (18, -35, sculptureRed),
     (-25, -25, sculptureShade), (25, -25, sculptureShade)]
  [Op.save, Op.translate centerX centerY,
   Op.setFillStyle (Style.css "rgba(0, 0, 0, 0.2)".data), Op.beginPath,
   Op.arc 0 25 50 0 (mathPI * 2), Op.fill]
    ++ (spikeData.map fun spike => sculptureSpike spike.1 spike.2.1 spike.2.2).flatten
    ++ [Op.restore]

/-- The method `addToledoMuseumOverlay()`. -/
def addToledoMuseumOverlay (s : Surface) : List Op :=
  let centerX : ℚ := s.width * (5 / 10)
  let centerY : ℚ := s.height * (8 / 10)
  let scale : ℚ := 12 / 10
  [Op.save, Op.translate centerX centerY, Op.scale scale scale,
   Op.setFillStyle (Style.css "#D3D3D3".data)]
    ++ ((List.range 3).map fun i =>
          let stepWidth : ℚ := 140 - i * 5
          let stepHeight : ℚ := 3
          [Op.beginPath, Op.rect (-stepWidth / 2) (15 + i * stepHeight) stepWidth stepHeight,
           Op.fill]).flatten
    ++ [Op.setFillStyle (Style.css "#F5F5DC".data), Op.beginPath, Op.rect (-120) (-15) 240 30,
        Op.fill,
        Op.beginPath, Op.moveTo (-120) (-15), Op.lineTo 0 (-35), Op.lineTo 120 (-15),
        Op.closePath, Op.fill,
        Op.setFillStyle (Style.css "#FFFFFF".data),
        Op.setStrokeStyle (Style.css "#D3D3D3".data), Op.setLineWidth 1]
    ++ ((List.range 6).map fun i =>
          let colX : ℚ := -100 + i * 40
          [Op.beginPath, Op.rect (colX - 4) (-15) 8 25, Op.fill, Op.stroke,
           Op.beginPath, Op.rect (colX - 6) (-18) 12 3, Op.fill, Op.stroke,
           Op.beginPath, Op.rect (colX - 5) 8 10 2, Op.fill, Op.stroke]).flatten
    ++ [Op.setFillStyle (Style.css "#2C3E50".data), Op.setFont "bold 8px Arial",
        Op.setTextAlign "center", Op.fillText "THE TOLEDO MUSEUM OF ART" 0 5,
        Op.setFillStyle (Style.css "rgba(0, 0, 0, 0.2)".data), Op.beginPath,
        Op.ellipse 0 25 120 8 0 0 (mathPI * 2), Op.fill,
        Op.restore]

/-- The method `addGlassToledoOverlay()`. -/
def addGlassToledoOverlay (s : Surface) : List Op :=
  let centerX : ℚ := s.width * (5 / 10)
  let centerY : ℚ := s.height * (75 / 100)
  let glassGradient := Style.linearGradient (-60) (-50) 60 15
    [(0, "rgba(173, 216, 230, 0.8)".data), (5 / 10, "rgba(135, 206, 235, 0.6)".data),
     (1, "rgba(176, 196, 222, 0.7)".data)]
  [Op.save, Op.translate centerX centerY,
   Op.setFillStyle (Style.css "#E0E0E0".data), Op.beginPath,
   Op.ellipse 0 20 80 10 0 0 (mathPI * 2), Op.fill,
   Op.beginPath, Op.moveTo (-60) 15, Op.quadraticCurveTo (-60) (-50) 0 (-55),
   Op.quadraticCurveTo 60 (-50) 60 15, Op.lineTo 60 20, Op.lineTo (-60) 20, Op.closePath,
   Op.setFillStyle glassGradient, Op.fill,
   Op.setStrokeStyle (Style.css "rgba(192, 192, 192, 0.8)".data), Op.setLineWidth 1]
    ++ ((List.range 5).map fun n =>
          let i : ℚ := -40 + 20 * n
          [Op.beginPath, Op.moveTo i 20,
           Op.quadraticCurveTo i (-35 + |i| * (3 / 10)) i (-25 + |i| * (4 / 10)),
           Op.stroke]).flatten
    ++ [Op.beginPath, Op.moveTo 0 20, Op.lineTo 0 (-55), Op.stroke,
        Op.setStrokeStyle (Style.css "#A0A0A0".data), Op.setLineWidth 3, Op.beginPath,
        Op.moveTo (-60) 15, Op.quadraticCurveTo (-60) (-50) 0 (-55),
        Op.quadraticCurveTo 60 (-50) 60 15, Op.stroke,
        Op.restore]

/-- The calls of `addMudHensOverlay()` between `scale` and `restore` (lines 307-380):
the glyph of the stadium, in the coordinates of the overlay. -/
def mudHensGlyph : List Op :=
  [Op.setFillStyle (Style.css "#8D6E63".data), Op.beginPath, Op.rect (-120) (-20) 240 40,
   Op.fill,
   Op.setFillStyle (Style.css "#607D8B".data), Op.beginPath, Op.moveTo (-125) (-20),
   Op.lineTo (-125) (-35), Op.lineTo 125 (-35), Op.lineTo 125 (-20), Op.closePath, Op.fill,
   Op.setFillStyle (Style.css "#2196F3".data)]
    ++ ((List.range 9).map fun n =>
          let i : ℚ := -100 + 25 * n
          [Op.beginPath, Op.rect (i - 8) (-15) 16 20, Op.fill]).flatten
    ++ [Op.setFillStyle (Style.css "#FFFFFF".data), Op.setFont "bold 12px Arial",
        Op.setTextAlign "center", Op.fillText "FIFTH THIRD FIELD" 0 (-25),
        Op.setStrokeStyle (Style.css "#8BC34A".data),
        Op.setFillStyle (Style.css "#8BC34A".data), Op.setLineWidth 2,
        Op.beginPath, Op.moveTo 0 20, Op.lineTo (-25) 35, Op.lineTo 0 50, Op.lineTo 25 35,
        Op.closePath, Op.fill,
        Op.setFillStyle (Style.css "#D2691E".data), Op.beginPath,
        Op.arc 0 35 3 0 (mathPI * 2), Op.fill,
        Op.setFillStyle (Style.css "#FFFFFF".data), Op.beginPath,
        Op.arc 0 47 2 0 (mathPI * 2), Op.fill,
        Op.setStrokeStyle (Style.css "#FFD700".data), Op.setLineWidth 3]
    ++ ((List.range 5).map fun n =>
          let i : ℚ := -100 + 50 * n
          [Op.beginPath, Op.moveTo i (-35), Op.lineTo i (-50), Op.stroke,
           Op.setFillStyle (Style.css "#FFD700".data), Op.beginPath,
           Op.arc i (-52) 3 0 (mathPI * 2), Op.fill]).flatten
    ++ [Op.setStrokeStyle (Style.css "#D32F2F".data),
        Op.setFillStyle (Style.css "#FFFFFF".data), Op.setLineWidth 2, Op.beginPath,
        Op.arc 80 (-5) 15 0 (mathPI * 2), Op.fill, Op.stroke,
        Op.setFillStyle (Style.css "#D32F2F".data), Op.setFont "bold 8px Arial",
        Op.fillText "HENS" 80 (-2), Op.fillText "VILLE" 80 6]

/-- The method `addMudHensOverlay()`. -/
def addMudHensOverlay (s : Surface) : List Op :=
  let centerX : ℚ := s.width * (5 / 10)
  let centerY : ℚ := s.height * (8 / 10)
  let scale : ℚ := 14 / 10
  [Op.save, Op.translate centerX centerY, Op.scale scale scale] ++ mudHensGlyph
    ++ [Op.restore]

/-- The calls of the drawer of an overlay. -/
def overlayOps (s : Surface) : Overlay → List Op
  | .redSculpture => addRedSculptureOverlay s
  | .glassToledo => addGlassToledoOverlay s
  | .mudHens => addMudHensOverlay s
  | .toledoMuseum => addToledoMuseumOverlay s

/-- The calls of the overlay part of `updatePreview` (lines 115-129). -/
def overlaysOps (s : Surface) (f : OverlayFlags) : List Op :=
  ((overlayCalls f).map (overlayOps s)).flatten

/-! ## The state of the 2D context -/

/-- The current transformation matrix: a point `(x, y)` of the current coordinates is
the point `(a x + c y + e, b x + d y + f)` of the surface. -/
structure Transform where
  a : ℚ
  b : ℚ
  c : ℚ
  d : ℚ
  e : ℚ
  f : ℚ
  deriving DecidableEq, Repr

/-- The transform after `translate(x, y)`. -/
def Transform.translate (t : Transform) (x y : ℚ) : Transform :=
  { t with e := t.a * x + t.c * y + t.e, f := t.b * x + t.d * y + t.f }

/-- The transform after `scale(x, y)`. -/
def Transform.scale (t : Transform) (x y : ℚ) : Transform :=
  { t with a := t.a * x, b := t.b * x, c := t.c * y, d := t.d * y }

/-- The drawing state that `save()` pushes and `restore()` pops. -/
structure DrawState where
  transform : Transform
  fillStyle : Style
  strokeStyle : Style
  lineWidth : ℚ
  font : String
  textAlign : String
  deriving DecidableEq, Repr

/-- The state of the context: the current drawing state and the stack of saved ones. -/
structure CtxState where
  current : DrawState
  stack : List DrawState
  deriving DecidableEq, Repr

/-- The effect of one call on the state of the context.  `restore()` on an empty stack
does nothing. -/
def CtxState.step (c : CtxState) : Op → CtxState
  | .save => { c with stack := c.current :: c.stack }
  | .restore =>
    match c.stack with
    | [] => c
    | top :: rest => { current := top, stack := rest }
  | .translate x y =>
    { c with current := { c.current with transform := c.current.transform.translate x y } }
  | .scale x y =>
    { c with current := { c.current with transform := c.current.transform.scale x y } }
  | .setFillStyle st => { c with current := { c.current with fillStyle := st } }
  | .setStrokeStyle st => { c with current := { c.current with strokeStyle := st } }
  | .setLineWidth w => { c with current := { c.current with lineWidth := w } }
  | .setFont font => { c with current := { c.current with font := font } }
  | .setTextAlign align => { c with current := { c.current with textAlign := align } }
  | _ => c

/-- The state of the context after a list of calls. -/
def CtxState.run (c : CtxState) (ops : List Op) : CtxState :=
  ops.foldl CtxState.step c

/-- Each call of a list paired with the transform in force when it is made. -/
def annotate : CtxState → List Op → List (Transform × Op)
  | _, [] => []
  | c, op :: ops => (c.current.transform, op) :: annotate (c.step op) ops

/-! ## The engine: acquisition of the surface -/

/-- The fields of a `ToledoArtCanvas` that its methods read and assign: `canvas` is the
element found (`none` for `null`), `ctx` tells whether a 2D context is held. -/
structure Engine where
  canvas : Option Surface
  ctx : Bool
  initialized : Bool
  initializationAttempts : ℕ
  maxAttempts : ℕ
  deriving DecidableEq, Repr

/-- What the page answers to one acquisition: the element that `getElementById` returns,
whether `getContext('2d')` returns a context, and the `clientWidth` of the parent of the
element, if it has one. -/
structure Dom where
  element : Option Surface
  context : Bool
  parentClientWidth : Option ℕ
  deriving DecidableEq, Repr

/-- The engine together with the timers set by `setTimeout` that have not fired yet and
the number of acquisitions made so far, which selects the answer of the page. -/
structure World where
  engine : Engine
  timers : ℕ
  acquisitions : ℕ
  deriving DecidableEq, Repr

/-- The fields set by the constructor, before it calls the acquisition method. -/
def Engine.fresh : Engine :=
  { canvas := none, ctx := false, initialized := false, initializationAttempts := 0,
    maxAttempts := 3 }

/-- The surface after `setupCanvas()` with no forced size: the width of the parent and
the height 400 when the element has a parent. -/
def setupCanvas (d : Dom) (s : Surface) : Surface :=
  match d.parentClientWidth with
  | some w => { width := w, height := 400 }
  | none => s

/-- The acquisition method of the engine (lines 16-49), called in a world whose page
answers `dom n` to the acquisition number `n`: the world it leaves and the calls it
makes on the context.  A failed acquisition sets one timer. -/
def World.acquire (dom : ℕ → Dom) (w : World) : World × List Op :=
  if w.engine.initializationAttempts ≥ w.engine.maxAttempts then (w, [])
  else
    let d := dom w.acquisitions
    match d.element with
    | none =>
      ({ engine := { w.engine with canvas := none }, timers := w.timers + 1,
         acquisitions := w.acquisitions + 1 }, [])
    | some el =>
      if d.context then
        let s := setupCanvas d el
        ({ engine := { w.engine with canvas := some s, ctx := true, initialized := true },
           timers := w.timers, acquisitions := w.acquisitions + 1 },
          [Op.clearRect 0 0 s.width s.height])
      else
        ({ engine := { w.engine with canvas := some el, ctx := false },
           timers := w.timers + 1, acquisitions := w.acquisitions + 1 }, [])

/-- The callback given to `setTimeout`: `this.initializationAttempts++` and a new call
of the acquisition method.  Without a pending timer nothing happens. -/
def World.fireTimer (dom : ℕ → Dom) (w : World) : World × List Op :=
  if w.timers = 0 then (w, [])
  else
    World.acquire dom
      { w with
        engine := { w.engine with
          initializationAttempts := w.engine.initializationAttempts + 1 },
        timers := w.timers - 1 }

/-- The world after `new ToledoArtCanvas(canvasId)`. -/
def World.construct (dom : ℕ → Dom) : World :=
  (World.acquire dom { engine := Engine.fresh, timers := 0, acquisitions := 0 }).1

/-- The world after the pending timers have fired, one after the other, at most `fuel`
of them. -/
def World.drain (dom : ℕ → Dom) : ℕ → World → World
  | 0, w => w
  | fuel + 1, w => if w.timers = 0 then w else World.drain dom fuel (World.fireTimer dom w).1

/-- What holds of the world between two timers when only the constructor and the timers
call the acquisition method: at most one timer is pending, and then the engine is not
initialized; the acquisitions made are one more than the retries counted, until the
bound of three is reached. -/
def World.Consistent (w : World) : Prop :=
  w.engine.maxAttempts = 3
    ∧ ((w.timers = 1 ∧ w.engine.initialized = false ∧ w.engine.initializationAttempts < 3
          ∧ w.acquisitions = w.engine.initializationAttempts + 1)
      ∨ (w.timers = 0 ∧ w.engine.initialized = true ∧ w.engine.initializationAttempts < 3
          ∧ w.acquisitions = w.engine.initializationAttempts + 1)
      ∨ (w.timers = 0 ∧ w.engine.initialized = false ∧ w.engine.initializationAttempts = 3
          ∧ w.acquisitions = 3))

/-! ## `updatePreview` -/

/-- The call `parseInt(v)` on a Number or numeric string written in decimal notation:
the integer part. -/
def JSVal.parseInt : JSVal → ℤ
  | .num q => if 0 ≤ q then ⌊q⌋ else ⌈q⌉
  | .str q => if 0 ≤ q then ⌊q⌋ else ⌈q⌉

/-- How a call of `updatePreview` ended: the engine was not ready (with the calls of the
acquisition it started), the render ran to its end, or an exception was caught by the
`catch` block after the calls made so far. -/
inductive Outcome where
  | notReady (ops : List Op)
  | rendered (ops : List Op)
  | caught (ops : List Op) (error : RenderError)
  deriving DecidableEq, Repr

/-- The body of the `try` block of `updatePreview` (lines 92-129) on the surface `s`:
the calls it makes when no call raises, and the exception that its own code raises
after them, if any. -/
def renderAttempt (env : MathEnv) (s : Surface) (p : PreviewParams) :
    List Op × Option RenderError :=
  match adjustedColors p.colorTone p.colorIntensity p.hueAdjust with
  | .error err => ([Op.clearRect 0 0 s.width s.height], some err)
  | .ok colors =>
    let scene := (drawToledoCityscape env s colors p.intensity.parseFloat p.chaos.parseFloat
      p.lineThickness.parseFloat p.buildingDensity.parseFloat p.skylineComplexity.parseInt
      p.textureGrain.parseFloat 0).1
    match scene.thrown with
    | some err => (Op.clearRect 0 0 s.width s.height :: scene.ops, some err)
    | none =>
      (Op.clearRect 0 0 s.width s.height :: (scene.ops ++ overlaysOps s p.overlays), none)

/-- The run of the `try` block when the call number `n` on the context raises an
exception (`fault = some n`): the calls before it are made, the rest is abandoned. -/
def withFault (fault : Option ℕ) (r : List Op × Option RenderError) :
    List Op × Option RenderError :=
  match fault with
  | some n =>
    if n < r.1.length then (r.1.take n, some (RenderError.domException n)) else r
  | none => r

/-- The method `updatePreview(params)` (lines 77-133); `params` is `none` for `null` or
`undefined`, whose destructuring raises a `TypeError` outside the `try` block.  The
result is the exception that leaves the method, or the world after it and its
outcome. -/
def updatePreview (env : MathEnv) (dom : ℕ → Dom) (fault : Option ℕ) (w : World)
    (params : Option PreviewParams) : Except RenderError (World × Outcome) :=
  match w.engine.initialized, w.engine.ctx, w.engine.canvas with
  | true, true, some s =>
    match params with
    | none => .error (RenderError.typeError "Cannot destructure 'params'")
    | some p =>
      match withFault fault (renderAttempt env s p) with
      | (ops, some err) => .ok (w, Outcome.caught ops err)
      | (ops, none) => .ok (w, Outcome.rendered ops)
  | _, _, _ =>
    if w.engine.initializationAttempts < w.engine.maxAttempts then
      .ok ((World.acquire dom w).1, Outcome.notReady (World.acquire dom w).2)
    else .ok (w, Outcome.notReady [])

/-! ## Hexadecimal text: reading and writing -/

theorem hexDigitValue_range {c : Char} {a : ℕ} (h : hexDigitValue c = some a) :
    (48 ≤ c.toNat ∧ c.toNat ≤ 57) ∨ (97 ≤ c.toNat ∧ c.toNat ≤ 102)
      ∨ (65 ≤ c.toNat ∧ c.toNat ≤ 70) := by
  unfold hexDigitValue at h
  by_cases h1 : 48 ≤ c.toNat ∧ c.toNat ≤ 57
  · exact Or.inl h1
  · by_cases h2 : 97 ≤ c.toNat ∧ c.toNat ≤ 102
    · exact Or.inr (Or.inl h2)
    · by_cases h3 : 65 ≤ c.toNat ∧ c.toNat ≤ 70
      · exact Or.inr (Or.inr h3)
      · simp [h1, h2, h3] at h

theorem hexDigitValue_lt {c : Char} {a : ℕ} (h : hexDigitValue c = some a) : a < 16 := by
  unfold hexDigitValue at h
  by_cases h1 : 48 ≤ c.toNat ∧ c.toNat ≤ 57
  · simp [h1] at h; omega
  · by_cases h2 : 97 ≤ c.toNat ∧ c.toNat ≤ 102
    · simp [h1, h2] at h; omega
    · by_cases h3 : 65 ≤ c.toNat ∧ c.toNat ≤ 70
      · simp [h1, h2, h3] at h; omega
      · simp [h1, h2, h3] at h

theorem hexDigit_not_whiteSpace {c : Char} {a : ℕ} (h : hexDigitValue c = some a) :
    isStrWhiteSpace c = false := by
  have hr := hexDigitValue_range h
  unfold isStrWhiteSpace
  simp only [Bool.or_eq_false_iff, Bool.and_eq_false_imp, decide_eq_false_iff_not,
    decide_eq_true_eq]
  omega

theorem hexDigit_ne_of_toNat {c e : Char} {a : ℕ} (h : hexDigitValue c = some a)
    (he : hexDigitValue e = none) : c ≠ e := by
  intro hce
  rw [hce, he] at h
  exact Option.noConfusion h

theorem parseInt16_pair {c d : Char} {a b : ℕ} (hc : hexDigitValue c = some a)
    (hd : hexDigitValue d = some b) : parseInt16 [c, d] = some ((16 * a + b : ℕ) : ℤ) := by
  have hws := hexDigit_not_whiteSpace hc
  have h1 : c ≠ '-' := hexDigit_ne_of_toNat hc (by decide)
  have h2 : c ≠ '+' := hexDigit_ne_of_toNat hc (by decide)
  have h3 : d ≠ 'x' := hexDigit_ne_of_toNat hd (by decide)
  have h4 : d ≠ 'X' := hexDigit_ne_of_toNat hd (by decide)
  simp [parseInt16, List.dropWhile, hws, h1, h2, h3, h4, takeHexDigits, hc, hd]

theorem parseInt16_pairValue {c d : Char} {n : ℕ} (h : hexPairValue c d = some n) :
    parseInt16 [c, d] = some (n : ℤ) ∧ n ≤ 255 := by
  unfold hexPairValue at h
  cases hc : hexDigitValue c with
  | none => simp [hc] at h
  | some a =>
    cases hd : hexDigitValue d with
    | none => simp [hc, hd] at h
    | some b =>
      simp only [hc, hd, Option.some.injEq] at h
      have ha := hexDigitValue_lt hc
      have hb := hexDigitValue_lt hd
      subst h
      exact ⟨parseInt16_pair hc hd, by omega⟩

/-- A well-formed colour is read by the three `parseInt(hex.substr(i, 2), 16)` calls as
its channel values, each at most 255. -/
theorem parse_of_colorChannels {color : List Char} {r g b : ℕ}
    (h : colorChannels color = some (r, g, b)) :
    parseInt16 (substr2 (stripHash color) 0) = some (r : ℤ)
      ∧ parseInt16 (substr2 (stripHash color) 2) = some (g : ℤ)
      ∧ parseInt16 (substr2 (stripHash color) 4) = some (b : ℤ)
      ∧ r ≤ 255 ∧ g ≤ 255 ∧ b ≤ 255 := by
  match color, h with
  | [c0, c1, c2, c3, c4, c5, c6], h =>
    simp only [colorChannels] at h
    by_cases h0 : c0 = '#'
    · simp only [h0, if_true] at h
      cases hr : hexPairValue c1 c2 with
      | none => simp [hr] at h
      | some r0 =>
        cases hg : hexPairValue c3 c4 with
        | none => simp [hr, hg] at h
        | some g0 =>
          cases hb : hexPairValue c5 c6 with
          | none => simp [hr, hg, hb] at h
          | some b0 =>
            simp only [hr, hg, hb, Option.some.injEq, Prod.mk.injEq] at h
            obtain ⟨rfl, rfl, rfl⟩ := h
            have pr := parseInt16_pairValue hr
            have pg := parseInt16_pairValue hg
            have pb := parseInt16_pairValue hb
            subst h0
            simp [stripHash, substr2, pr.1, pg.1, pb.1, pr.2, pg.2, pb.2]
    · simp [h0] at h

set_option maxRecDepth 100000 in
theorem padStart2_toString16_fin :
    ∀ n : Fin 256, padStart2 (toString16 ((n : ℕ) : ℤ)) = hexByte n := by
  decide

set_option maxRecDepth 100000 in
theorem toHex_text_fin :
    ∀ n : Fin 256,
      (if (toString16 ((n : ℕ) : ℤ)).length = 1 then '0' :: toString16 ((n : ℕ) : ℤ)
        else toString16 ((n : ℕ) : ℤ)) = hexByte n := by
  decide

set_option maxRecDepth 100000 in
theorem hexPairValue_hexByte_fin :
    ∀ n : Fin 256,
      hexPairValue (Nat.digitChar ((n : ℕ) / 16)) (Nat.digitChar ((n : ℕ) % 16))
        = some (n : ℕ) := by
  decide

/-- The text `#rrggbb` written from channel values in `0..255` is a well-formed colour
with these channels. -/
theorem colorChannels_hexColor {r g b : ℕ} (hr : r ≤ 255) (hg : g ≤ 255) (hb : b ≤ 255) :
    colorChannels (hexColor r g b) = some (r, g, b) := by
  have er := hexPairValue_hexByte_fin ⟨r, by omega⟩
  have eg := hexPairValue_hexByte_fin ⟨g, by omega⟩
  have eb := hexPairValue_hexByte_fin ⟨b, by omega⟩
  simp only [] at er eg eb
  simp [hexColor, hexByte, colorChannels, er, eg, eb]

/-! ## The intensity step -/

theorem clampedNearest_le (x : ℚ) : clampedNearest x ≤ 255 := by
  unfold clampedNearest
  omega

theorem clampedNearest_cast (x : ℚ) :
    ((clampedNearest x : ℕ) : ℤ) = min 255 (max 0 (mathRound x)) := by
  unfold clampedNearest mathRound
  omega

theorem channelText_scaleChannel (v : ℕ) (factor : ℚ) :
    channelText (scaleChannel (some (v : ℤ)) factor) = hexByte (clampedNearest (v * factor)) := by
  have h := padStart2_toString16_fin ⟨clampedNearest (v * factor), by
    have := clampedNearest_le (v * factor); omega⟩
  simp only [] at h
  rw [clampedNearest_cast] at h
  simpa [scaleChannel, channelText] using h

/-- The result of `adjustColorIntensity` on a well-formed colour, for any factor. -/
theorem adjustColorIntensity_eq {color : List Char} {r g b : ℕ}
    (hc : colorChannels color = some (r, g, b)) (intensity : JSVal) :
    adjustColorIntensity color intensity
      = hexColor (clampedNearest (r * intensity.toNumber))
          (clampedNearest (g * intensity.toNumber))
          (clampedNearest (b * intensity.toNumber)) := by
  obtain ⟨pr, pg, pb, -, -, -⟩ := parse_of_colorChannels hc
  unfold adjustColorIntensity hexColor
  simp only [pr, pg, pb, channelText_scaleChannel]

theorem nearest_of_floor (x : ℚ) : |x - (⌊x + 1 / 2⌋ : ℤ)| ≤ 1 / 2 := by
  have h1 := Int.floor_le (x + 1 / 2)
  have h2 := Int.lt_floor_add_one (x + 1 / 2)
  rw [abs_le]
  constructor <;> linarith

/-! ## The palette lookup -/

/-- A tone name that is neither a property of `colors` nor a property inherited from
`Object.prototype` gets the working palette of `downtown`. -/
theorem adjustedColors_fallback (colorTone : String) (colorIntensity hueAdjust : JSVal)
    (hown : colorTone ∉ colors.map Prod.fst) (hproto : colorTone ∉ objectPrototypeKeys) :
    adjustedColors colorTone colorIntensity hueAdjust
      = adjustedColors "downtown" colorIntensity hueAdjust := by
  have hl : colors.lookup colorTone = none := by
    simp only [colors, List.map, List.mem_cons, List.mem_singleton, not_or, List.not_mem_nil,
      or_false] at hown
    obtain ⟨h1, h2, h3, h4, h5⟩ := hown
    have e1 : (colorTone == "downtown") = false := by simpa using h1
    have e2 : (colorTone == "sunset") = false := by simpa using h2
    have e3 : (colorTone == "industrial") = false := by simpa using h3
    have e4 : (colorTone == "riverfront") = false := by simpa using h4
    have e5 : (colorTone == "storm") = false := by simpa using h5
    simp only [colors, List.lookup, e1, e2, e3, e4, e5]
  have hs : selectedColors colorTone = selectedColors "downtown" := by
    have hd : selectedColors "downtown" = colorsGet "downtown" := by decide
    rw [hd]
    simp [selectedColors, colorsGet, hl, hproto]
  unfold adjustedColors
  rw [hs]

/-- C1: evaluation at the tone name `constructor`, which is none of the five palette
names.  The read `colors[colorTone]` finds the member inherited from `Object.prototype`,
a truthy value, so the fallback to `colors.downtown` is not taken and the call of `map`
raises a `TypeError`: no working palette is computed, whereas `downtown` has one. -/
theorem adjustedColors_constructor_throws :
    "constructor" ∉ colors.map Prod.fst
      ∧ selectedColors "constructor" = PropertyValue.inherited "constructor"
      ∧ adjustedColors "constructor" (JSVal.num 1) (JSVal.num 0)
          = Except.error (RenderError.typeError "selectedColors.map is not a function")
      ∧ adjustedColors "downtown" (JSVal.num 1) (JSVal.num 0)
          = Except.ok ["#2c3e50".data, "#34495e".data, "#ecf0f1".data, "#3498db".data,
              "#e74c3c".data, "#95a5a6".data] := by
  refine ⟨by decide, by decide, by decide, ?_⟩
  decide!

/-- C2: for each of the five tones, the palette mapped through `adjustColorIntensity`
with factor 1 and then `adjustColorHue` with adjustment 0 is the base palette itself,
and it is the working palette that `updatePreview` computes for that tone. -/
theorem base_palette_unchanged :
    colors.map Prod.fst = ["downtown", "sunset", "industrial", "riverfront", "storm"]
      ∧ colors.map (fun p => p.2.length) = [6, 6, 6, 6, 6]
      ∧ colors.map (fun p =>
            p.2.map fun c => adjustColorHue (adjustColorIntensity c (JSVal.num 1)) (JSVal.num 0))
          = colors.map Prod.snd
      ∧ colors.map (fun p => adjustedColors p.1 (JSVal.num 1) (JSVal.num 0))
          = colors.map fun p => Except.ok p.2 := by
  refine ⟨by decide, by decide, ?_, ?_⟩ <;> decide!

/-! ## The intensity step: the claim -/

/-- C3: for a well-formed colour `#rrggbb` and a factor in `[0, 10]`, each channel of the
result of `adjustColorIntensity` is the input channel times the factor, rounded to the
nearest integer (`clampedNearest`, within one half of the product before clamping) and
clamped to `0..255`; the result is a well-formed seven-character colour whose channels,
each at most 255, are written with two digits. -/
theorem adjustColorIntensity_channels (color : List Char) (r g b : ℕ) (intensity : JSVal)
    (hc : colorChannels color = some (r, g, b))
    (_h0 : 0 ≤ intensity.toNumber) (_h10 : intensity.toNumber ≤ 10) :
    adjustColorIntensity color intensity
        = '#' :: (hexByte (clampedNearest (r * intensity.toNumber))
            ++ hexByte (clampedNearest (g * intensity.toNumber))
            ++ hexByte (clampedNearest (b * intensity.toNumber)))
      ∧ colorChannels (adjustColorIntensity color intensity)
          = some (clampedNearest (r * intensity.toNumber),
              clampedNearest (g * intensity.toNumber),
              clampedNearest (b * intensity.toNumber))
      ∧ (adjustColorIntensity color intensity).length = 7
      ∧ (∀ c : ℕ, clampedNearest (c * intensity.toNumber) ≤ 255
          ∧ ∃ n : ℤ, |(c : ℚ) * intensity.toNumber - n| ≤ 1 / 2
              ∧ ((clampedNearest (c * intensity.toNumber) : ℕ) : ℤ) = min 255 (max 0 n)) := by
  have he := adjustColorIntensity_eq hc intensity
  refine ⟨he, ?_, ?_, ?_⟩
  · rw [he]
    exact colorChannels_hexColor (clampedNearest_le _) (clampedNearest_le _)
      (clampedNearest_le _)
  · rw [he]
    simp [hexColor, hexByte]
  · intro c
    exact ⟨clampedNearest_le _, ⌊(c : ℚ) * intensity.toNumber + 1 / 2⌋, nearest_of_floor _,
      clampedNearest_cast _⟩

/-- C3, at the colour `#e74c3c` and the factor 3/2. -/
theorem adjustColorIntensity_channels_witness :
    adjustColorIntensity "#e74c3c".data (JSVal.num (3 / 2))
        = '#' :: (hexByte (clampedNearest ((231 : ℕ) * (JSVal.num (3 / 2)).toNumber))
            ++ hexByte (clampedNearest ((76 : ℕ) * (JSVal.num (3 / 2)).toNumber))
            ++ hexByte (clampedNearest ((60 : ℕ) * (JSVal.num (3 / 2)).toNumber))) :=
  (adjustColorIntensity_channels "#e74c3c".data 231 76 60 (JSVal.num (3 / 2)) (by decide)
    (by norm_num [JSVal.toNumber]) (by norm_num [JSVal.toNumber])).1

/-! ## The overlays -/

/-- C4, as stated, fails: with the red sculpture and the glass pavilion both enabled,
`updatePreview` draws the glass pavilion first and the red sculpture after it. -/
theorem overlayCalls_not_specOrder :
    overlayCalls ⟨true, true, false, false⟩ = [Overlay.glassToledo, Overlay.redSculpture]
      ∧ specOverlayOrder ⟨true, true, false, false⟩
          = [Overlay.redSculpture, Overlay.glassToledo]
      ∧ overlayCalls ⟨true, true, false, false⟩ ≠ specOverlayOrder ⟨true, true, false, false⟩ := by
  decide

/-- C4, amended: for every flag assignment the overlays whose flags are set are drawn in
the fixed order `glassToledo`, `mudHens`, `redSculpture`, `toledoMuseum`; so the red
sculpture comes after the glass pavilion and the stadium, and the museum comes last. -/
theorem overlayCalls_order (f : OverlayFlags) :
    overlayCalls f
      = [Overlay.glassToledo, Overlay.mudHens, Overlay.redSculpture,
          Overlay.toledoMuseum].filter f.enabled := by
  obtain ⟨a, b, c, d⟩ := f
  cases a <;> cases b <;> cases c <;> cases d <;> decide

/-! ## The guard of `adjustColorHue` -/

/-- With the Number 0 as adjustment, `adjustColorHue` returns its argument. -/
theorem adjustColorHue_num_zero (color : List Char) :
    adjustColorHue color (JSVal.num 0) = color := by
  simp [adjustColorHue, JSVal.strictEqZero]

/-- C5: evaluation at the value that `main.js` passes when the hue slider shows 0.  The
value is a string, the guard `hueAdjust === 0` is false, and `adjustColorHue` runs the
conversion path; on a colour written with upper-case digits the returned text differs
from the argument. -/
theorem adjustColorHue_slider_zero (c : Controls) (h : c.hueAdjust = 0) :
    (paramsOfControls c).hueAdjust = JSVal.str 0
      ∧ (paramsOfControls c).hueAdjust.strictEqZero = false
      ∧ (∀ color, adjustColorHue color (paramsOfControls c).hueAdjust
          = hueConversionPath color 0)
      ∧ adjustColorHue "#ECF0F1".data (paramsOfControls c).hueAdjust = "#ecf0f1".data
      ∧ adjustColorHue "#ECF0F1".data (paramsOfControls c).hueAdjust ≠ "#ECF0F1".data := by
  have hp : (paramsOfControls c).hueAdjust = JSVal.str 0 := by
    simp [paramsOfControls, h]
  rw [hp]
  refine ⟨rfl, rfl, fun color => rfl, ?_, ?_⟩
  · decide!
  · decide!

/-- C5, at the controls of a page whose hue slider shows 0. -/
theorem adjustColorHue_slider_zero_witness :
    adjustColorHue "#ECF0F1".data
        (paramsOfControls ⟨1 / 2, 1 / 2, 1, 1, 5, 1, 1, 0, "downtown",
          ⟨false, false, false, false⟩⟩).hueAdjust ≠ "#ECF0F1".data :=
  (adjustColorHue_slider_zero ⟨1 / 2, 1 / 2, 1, 1, 5, 1, 1, 0, "downtown",
    ⟨false, false, false, false⟩⟩ rfl).2.2.2.2

/-! ## The order of the two colour steps -/

/-- C7: every working colour is `adjustColorHue(adjustColorIntensity(colour,
colorIntensity), hueAdjust)`, intensity first and hue second; and for the colour
`#e74c3c`, whose red channel 231 doubled exceeds 255, the factor 2 and a rotation of 180
degrees, the two steps in the reverse order give another colour. -/
theorem intensity_then_hue :
    (∀ (colorTone : String) (colorIntensity hueAdjust : JSVal) (cs : List (List Char)),
        selectedColors colorTone = PropertyValue.palette cs →
        ∃ out, adjustedColors colorTone colorIntensity hueAdjust = Except.ok out
          ∧ out.length = cs.length
          ∧ ∀ (i : ℕ) (colour : List Char), cs[i]? = some colour →
              out[i]? = some (adjustColorHue (adjustColorIntensity colour colorIntensity)
                hueAdjust))
      ∧ (∃ (colour : List Char) (r g b : ℕ) (factor deg : ℚ),
          colorChannels colour = some (r, g, b) ∧ 255 < mathRound (r * factor)
            ∧ 1 < factor ∧ deg ≠ 0
            ∧ adjustColorHue (adjustColorIntensity colour (JSVal.num factor)) (JSVal.num deg)
                = "#78dfff".data
            ∧ adjustColorIntensity (adjustColorHue colour (JSVal.num deg)) (JSVal.num factor)
                = "#78ffff".data
            ∧ adjustColorHue (adjustColorIntensity colour (JSVal.num factor)) (JSVal.num deg)
                ≠ adjustColorIntensity (adjustColorHue colour (JSVal.num deg))
                    (JSVal.num factor)) := by
  constructor
  · intro colorTone colorIntensity hueAdjust cs hs
    refine ⟨cs.map fun color =>
      adjustColorHue (adjustColorIntensity color colorIntensity) hueAdjust,
      by simp only [adjustedColors, hs], by simp, ?_⟩
    intro i colour hi
    simp [hi]
  · refine ⟨"#e74c3c".data, 231, 76, 60, 2, 180, by decide, ?_, by norm_num, by norm_num,
      ?_, ?_, ?_⟩
    · decide!
    · decide!
    · decide!
    · decide!

/-- C7, at the tone `downtown`, the factor 2 and a rotation of 180 degrees. -/
theorem intensity_then_hue_witness :
    ∃ out, adjustedColors "downtown" (JSVal.num 2) (JSVal.num 180) = Except.ok out
      ∧ out.length
          = ["#2c3e50".data, "#34495e".data, "#ecf0f1".data, "#3498db".data, "#e74c3c".data,
              "#95a5a6".data].length
      ∧ ∀ (i : ℕ) (colour : List Char),
          ["#2c3e50".data, "#34495e".data, "#ecf0f1".data, "#3498db".data, "#e74c3c".data,
            "#95a5a6".data][i]? = some colour →
          out[i]? = some (adjustColorHue (adjustColorIntensity colour (JSVal.num 2))
            (JSVal.num 180)) :=
  intensity_then_hue.1 "downtown" (JSVal.num 2) (JSVal.num 180)
    ["#2c3e50".data, "#34495e".data, "#ecf0f1".data, "#3498db".data, "#e74c3c".data,
      "#95a5a6".data] (by decide)

/-! ## The sky regimes -/

/-- C10: for every chaos value `drawClouds` fills the sky gradient and then draws exactly
the regime that the specification assigns: cumulus only below 0.3, cumulus then stratus
from 0.3 up to 0.7, storm clouds only from 0.7 on; one of the three conditions always
applies, and at chaos 0.9 the regime is the storm one for every palette. -/
theorem drawClouds_regime (colors : List (List Char)) (intensity chaos : ℚ) :
    (∃ regime, specSkyRegime chaos = some regime
        ∧ drawClouds colors intensity chaos
            = CloudCall.skyGradient :: regime.calls colors intensity chaos)
      ∧ drawClouds colors intensity (9 / 10)
          = [CloudCall.skyGradient, CloudCall.drawStormClouds colors intensity (9 / 10)] := by
  constructor
  · unfold specSkyRegime drawClouds
    by_cases h1 : chaos < 3 / 10
    · exact ⟨.cumulusOnly, by simp [h1], by simp [h1, SkyRegime.calls]⟩
    · by_cases h2 : chaos < 7 / 10
      · exact ⟨.cumulusThenStratus, by simp [h1, h2, not_lt.mp h1],
          by simp [h1, h2, SkyRegime.calls]⟩
      · exact ⟨.stormOnly, by simp [h1, h2, not_lt.mp h2], by simp [h1, h2, SkyRegime.calls]⟩
  · have h1 : ¬ ((9 : ℚ) / 10 < 3 / 10) := by norm_num
    have h2 : ¬ ((9 : ℚ) / 10 < 7 / 10) := by norm_num
    simp [drawClouds, h1, h2]

/-! ## The hue arithmetic -/

theorem jsMod_360_bounds (a : ℚ) :
    -360 < jsMod a 360 ∧ jsMod a 360 < 360 ∧ (0 ≤ a → 0 ≤ jsMod a 360)
      ∧ (a < 0 → jsMod a 360 ≤ 0) := by
  unfold jsMod
  have hf1 := Int.floor_le (a / 360)
  have hf2 := Int.lt_floor_add_one (a / 360)
  have hc1 := Int.le_ceil (a / 360)
  have hc2 := Int.ceil_lt_add_one (a / 360)
  have ha : a = 360 * (a / 360) := by ring
  by_cases h : 0 ≤ a / 360
  · simp only [h, if_true]
    refine ⟨by linarith, by linarith, fun _ => by linarith, fun hneg => ?_⟩
    exfalso
    have : a / 360 < 0 := by linarith
    linarith
  · simp only [h, if_false]
    have hlt : a / 360 < 0 := not_le.mp h
    refine ⟨by linarith, by linarith, fun hpos => ?_, fun _ => by linarith⟩
    exfalso
    linarith

theorem jsMod_360_of_mem {a : ℚ} (h0 : 0 ≤ a) (h1 : a < 360) : jsMod a 360 = a := by
  unfold jsMod
  have hq0 : 0 ≤ a / 360 := by positivity
  have hq1 : a / 360 < 1 := by
    rw [div_lt_one (by norm_num)]; exact h1
  have hfl : ⌊a / 360⌋ = 0 := by
    rw [Int.floor_eq_iff]; constructor <;> simp <;> assumption
  simp [hq0, hfl]

/-- In exact arithmetic the rotated hue lies in `[0, 360)`. -/
theorem rotatedHue_mem (h hueAdjust : ℚ) :
    0 ≤ rotatedHue h hueAdjust ∧ rotatedHue h hueAdjust < 360 := by
  obtain ⟨h1, h2, _, _⟩ := jsMod_360_bounds (h * 360 + hueAdjust)
  unfold rotatedHue
  by_cases hneg : jsMod (h * 360 + hueAdjust) 360 < 0
  · simp only [hneg, if_true]
    constructor <;> linarith
  · simp only [hneg, if_false]
    exact ⟨not_lt.mp hneg, h2⟩

theorem rotatedHue_zero {h : ℚ} (h0 : 0 ≤ h) (h1 : h < 1) : rotatedHue h 0 / 360 = h := by
  have e : jsMod (h * 360 + 0) 360 = h * 360 := by
    rw [add_zero]
    exact jsMod_360_of_mem (by linarith) (by linarith)
  unfold rotatedHue
  have hn : ¬ (h * 360 < 0) := by linarith
  simp only [e, hn, if_false]
  field_simp

/-! The pieces of `hue2rgb`, with closed ends: the function is continuous. -/

theorem hue2rgb_rise {p q t : ℚ} (h0 : 0 ≤ t) (h1 : t ≤ 1 / 6) :
    hue2rgb p q t = p + (q - p) * 6 * t := by
  have a : ¬ t < 0 := by linarith
  have b : ¬ t > 1 := by linarith
  by_cases c : t < 1 / 6
  · simp only [hue2rgb, a, b, c, if_true, if_false]
  · have c2 : t < 1 / 2 := by linarith
    have e : t = 1 / 6 := by linarith
    simp only [hue2rgb, a, b, c, c2, if_true, if_false]
    rw [e]; ring

theorem hue2rgb_top {p q t : ℚ} (h0 : 1 / 6 ≤ t) (h1 : t ≤ 1 / 2) : hue2rgb p q t = q := by
  have a : ¬ t < 0 := by linarith
  have b : ¬ t > 1 := by linarith
  have c : ¬ t < 1 / 6 := by linarith
  by_cases c2 : t < 1 / 2
  · simp only [hue2rgb, a, b, c, c2, if_true, if_false]
  · have c3 : t < 2 / 3 := by linarith
    have e : t = 1 / 2 := by linarith
    simp only [hue2rgb, a, b, c, c2, c3, if_true, if_false]
    rw [e]; ring

theorem hue2rgb_fall {p q t : ℚ} (h0 : 1 / 2 ≤ t) (h1 : t ≤ 2 / 3) :
    hue2rgb p q t = p + (q - p) * (2 / 3 - t) * 6 := by
  have a : ¬ t < 0 := by linarith
  have b : ¬ t > 1 := by linarith
  have c : ¬ t < 1 / 6 := by linarith
  have c2 : ¬ t < 1 / 2 := by linarith
  by_cases c3 : t < 2 / 3
  · simp only [hue2rgb, a, b, c, c2, c3, if_true, if_false]
  · have e : t = 2 / 3 := by linarith
    simp only [hue2rgb, a, b, c, c2, c3, if_false]
    rw [e]; ring

theorem hue2rgb_bottom {p q t : ℚ} (h0 : 2 / 3 ≤ t) (h1 : t ≤ 1) : hue2rgb p q t = p := by
  have a : ¬ t < 0 := by linarith
  have b : ¬ t > 1 := by linarith
  have c : ¬ t < 1 / 6 := by linarith
  have c2 : ¬ t < 1 / 2 := by linarith
  have c3 : ¬ t < 2 / 3 := by linarith
  simp only [hue2rgb, a, b, c, c2, c3, if_false]

theorem hue2rgb_bottom_neg {p q t : ℚ} (h0 : -(1 / 3) ≤ t) (h1 : t < 0) :
    hue2rgb p q t = p := by
  have b : ¬ t + 1 > 1 := by linarith
  have c : ¬ t + 1 < 1 / 6 := by linarith
  have c2 : ¬ t + 1 < 1 / 2 := by linarith
  have c3 : ¬ t + 1 < 2 / 3 := by linarith
  simp only [hue2rgb, h1, b, c, c2, c3, if_true, if_false]

theorem hue2rgb_rise_wrap {p q t : ℚ} (h0 : 1 < t) (h1 : t ≤ 7 / 6) :
    hue2rgb p q t = p + (q - p) * 6 * (t - 1) := by
  have a : ¬ t < 0 := by linarith
  have b : t > 1 := h0
  by_cases c : t - 1 < 1 / 6
  · simp only [hue2rgb, a, b, c, if_true, if_false]
  · have c2 : t - 1 < 1 / 2 := by linarith
    have e : t = 7 / 6 := by linarith
    simp only [hue2rgb, a, b, c, c2, if_true, if_false]
    rw [e]; ring

theorem hue2rgb_top_wrap {p q t : ℚ} (h0 : 7 / 6 ≤ t) (h1 : t < 4 / 3) :
    hue2rgb p q t = q := by
  have a : ¬ t < 0 := by linarith
  have b : t > 1 := by linarith
  have c : ¬ t - 1 < 1 / 6 := by linarith
  have c2 : t - 1 < 1 / 2 := by linarith
  simp only [hue2rgb, a, b, c, c2, if_true, if_false]

theorem hue2rgb_piece_mem {p q t : ℚ} (hpq : p ≤ q) (h0 : 0 ≤ t) :
    p ≤ (if t < 1 / 6 then p + (q - p) * 6 * t
          else if t < 1 / 2 then q
          else if t < 2 / 3 then p + (q - p) * (2 / 3 - t) * 6
          else p)
      ∧ (if t < 1 / 6 then p + (q - p) * 6 * t
          else if t < 1 / 2 then q
          else if t < 2 / 3 then p + (q - p) * (2 / 3 - t) * 6
          else p) ≤ q := by
  have hd : 0 ≤ q - p := by linarith
  split_ifs with h1 h2 h3
  · have e1 := mul_nonneg hd h0
    have e2 : 0 ≤ (q - p) * (1 / 6 - t) := mul_nonneg hd (by linarith)
    constructor <;> linarith
  · exact ⟨hpq, le_refl q⟩
  · have e1 : 0 ≤ (q - p) * (2 / 3 - t) := mul_nonneg hd (by linarith)
    have e2 : 0 ≤ (q - p) * (t - 1 / 2) := mul_nonneg hd (by linarith)
    constructor <;> linarith
  · exact ⟨le_refl p, hpq⟩

theorem hue2rgb_mem {p q t : ℚ} (hpq : p ≤ q) (h0 : -1 ≤ t) :
    p ≤ hue2rgb p q t ∧ hue2rgb p q t ≤ q := by
  simp only [hue2rgb]
  by_cases ht : t < 0
  · have h1 : ¬ t + 1 > 1 := by linarith
    simp only [ht, h1, if_true, if_false]
    exact hue2rgb_piece_mem hpq (by linarith)
  · by_cases h1 : t > 1
    · simp only [ht, h1, if_true, if_false]
      exact hue2rgb_piece_mem hpq (by linarith)
    · simp only [ht, h1, if_false]
      exact hue2rgb_piece_mem hpq (by linarith)

/-- For a colour that is not grey, the values `q` and `p` of the conversion back are the
largest and the smallest channel. -/
theorem hslToRgb_of_extremes {M m : ℚ} (hm0 : 0 ≤ m) (hmM : m < M) (hM1 : M ≤ 1) (h : ℚ) :
    hslToRgb h (if (M + m) / 2 > 1 / 2 then (M - m) / (2 - M - m) else (M - m) / (M + m))
        ((M + m) / 2)
      = (hue2rgb m M (h + 1 / 3), hue2rgb m M h, hue2rgb m M (h - 1 / 3)) := by
  have hd : 0 < M - m := by linarith
  by_cases hl : (M + m) / 2 > 1 / 2
  · have hden : 0 < 2 - M - m := by linarith
    have hs : (M - m) / (2 - M - m) ≠ 0 := by positivity
    have hl2 : ¬ ((M + m) / 2 < 1 / 2) := by linarith
    have hq : (M + m) / 2 + (M - m) / (2 - M - m) - (M + m) / 2 * ((M - m) / (2 - M - m)) = M := by
      field_simp
      ring
    have hp : 2 * ((M + m) / 2) - M = m := by ring
    simp only [hslToRgb, hl, if_true, hs, if_false, hl2, hq, hp]
  · have hden : 0 < M + m := by linarith
    have hs : (M - m) / (M + m) ≠ 0 := by positivity
    have hp : 2 * ((M + m) / 2) - M = m := by ring
    by_cases hl2 : (M + m) / 2 < 1 / 2
    · have hq : (M + m) / 2 * (1 + (M - m) / (M + m)) = M := by
        field_simp
        ring
      simp only [hslToRgb, hl, if_false, hs, hl2, if_true, hq, hp]
    · have hsum : M + m = 1 := by linarith [not_lt.mp hl2, not_lt.mp hl]
      have hq : (M + m) / 2 + (M - m) / (M + m) - (M + m) / 2 * ((M - m) / (M + m)) = M := by
        rw [hsum]
        linarith
      simp only [hslToRgb, hl, if_false, hs, hl2, hq, hp]

/-- The channels of the conversion back lie between the smallest and the largest channel
of the colour that was converted, whatever the hue in `[0, 1)`. -/
theorem hslToRgb_rgbToHsl_mem {r g b : ℚ} (hr0 : 0 ≤ r) (hr1 : r ≤ 1) (hg0 : 0 ≤ g)
    (hg1 : g ≤ 1) (hb0 : 0 ≤ b) (hb1 : b ≤ 1) {h : ℚ} (hh0 : 0 ≤ h) :
    (0 ≤ (hslToRgb h (rgbToHsl r g b).2.1 (rgbToHsl r g b).2.2).1
        ∧ (hslToRgb h (rgbToHsl r g b).2.1 (rgbToHsl r g b).2.2).1 ≤ 1)
      ∧ (0 ≤ (hslToRgb h (rgbToHsl r g b).2.1 (rgbToHsl r g b).2.2).2.1
        ∧ (hslToRgb h (rgbToHsl r g b).2.1 (rgbToHsl r g b).2.2).2.1 ≤ 1)
      ∧ (0 ≤ (hslToRgb h (rgbToHsl r g b).2.1 (rgbToHsl r g b).2.2).2.2
        ∧ (hslToRgb h (rgbToHsl r g b).2.1 (rgbToHsl r g b).2.2).2.2 ≤ 1) := by
  have hM1 : max r (max g b) ≤ 1 := max_le hr1 (max_le hg1 hb1)
  have hm0 : 0 ≤ min r (min g b) := le_min hr0 (le_min hg0 hb0)
  have hmM : min r (min g b) ≤ max r (max g b) := le_trans (min_le_left _ _) (le_max_left _ _)
  by_cases hgrey : max r (max g b) = min r (min g b)
  · have e : rgbToHsl r g b = (0, 0, (max r (max g b) + min r (min g b)) / 2) := by
      simp only [rgbToHsl, hgrey, if_true]
    rw [e]
    simp only [hslToRgb, if_true]
    refine ⟨⟨?_, ?_⟩, ⟨?_, ?_⟩, ⟨?_, ?_⟩⟩ <;> linarith
  · have hlt : min r (min g b) < max r (max g b) := lt_of_le_of_ne hmM (Ne.symm hgrey)
    have e1 : (rgbToHsl r g b).2.1
        = (if (max r (max g b) + min r (min g b)) / 2 > 1 / 2
            then (max r (max g b) - min r (min g b)) / (2 - max r (max g b) - min r (min g b))
            else (max r (max g b) - min r (min g b)) / (max r (max g b) + min r (min g b))) := by
      simp only [rgbToHsl, hgrey, if_false]
    have e2 : (rgbToHsl r g b).2.2 = (max r (max g b) + min r (min g b)) / 2 := by
      simp only [rgbToHsl, hgrey, if_false]
    rw [e1, e2, hslToRgb_of_extremes hm0 hlt hM1]
    have t1 := hue2rgb_mem (le_of_lt hlt) (t := h + 1 / 3) (by linarith)
    have t2 := hue2rgb_mem (le_of_lt hlt) (t := h) (by linarith)
    have t3 := hue2rgb_mem (le_of_lt hlt) (t := h - 1 / 3) (by linarith)
    refine ⟨⟨?_, ?_⟩, ⟨?_, ?_⟩, ⟨?_, ?_⟩⟩ <;> simp only [] <;> linarith [t1.1, t1.2, t2.1, t2.2, t3.1, t3.2]



/-! The sector formula of `rgbToHsl` is inverted by `hue2rgb`: with `M` the largest and
`m` the smallest channel of a colour that is not grey, the hue lies in `[0, 1)` and the
three calls of `hue2rgb` give back the three channels. -/

theorem hue2rgb_sector_red {r g b M m : ℚ} (hMg : g ≤ M) (hMb : b ≤ M)
    (hmg : m ≤ g) (hmb : m ≤ b) (c1 : M = r) (hm : m = r ∨ m = g ∨ m = b) (hlt : m < M)
    (h : ℚ) (hh : h = ((g - b) / (M - m) + (if g < b then 6 else 0)) / 6) :
    0 ≤ h ∧ h < 1 ∧ hue2rgb m M (h + 1 / 3) = r ∧ hue2rgb m M h = g
      ∧ hue2rgb m M (h - 1 / 3) = b := by
  have hd : 0 < M - m := by linarith
  obtain ⟨u, hu⟩ : ∃ u, (g - b) / (M - m) = u := ⟨_, rfl⟩
  have hud : u * (M - m) = g - b := by rw [← hu]; field_simp
  rw [hu] at hh
  by_cases c2 : g < b
  · have em : m = g := by
      rcases hm with e | e | e
      · linarith
      · exact e
      · linarith
    have hu0 : u < 0 := by rw [← hu]; exact div_neg_of_neg_of_pos (by linarith) hd
    have hu1 : -1 ≤ u := by rw [← hu, le_div_iff₀ hd]; linarith
    simp only [c2, if_true] at hh
    refine ⟨by linarith, by linarith, ?_, ?_, ?_⟩
    · rw [hue2rgb_top_wrap (by linarith) (by linarith)]; exact c1
    · rw [hue2rgb_bottom (by linarith) (by linarith)]; exact em
    · rw [hue2rgb_fall (by linarith) (by linarith), hh]; linarith
  · have em : m = b := by
      rcases hm with e | e | e
      · linarith
      · linarith
      · exact e
    have hu0 : 0 ≤ u := by rw [← hu]; exact div_nonneg (by linarith) (le_of_lt hd)
    have hu1 : u ≤ 1 := by rw [← hu, div_le_one hd]; linarith
    simp only [c2, if_false, add_zero] at hh
    refine ⟨by linarith, by linarith, ?_, ?_, ?_⟩
    · rw [hue2rgb_top (by linarith) (by linarith)]; exact c1
    · rw [hue2rgb_rise (by linarith) (by linarith), hh]; linarith
    · rw [hue2rgb_bottom_neg (by linarith) (by linarith)]; exact em

theorem hue2rgb_sector_green {r g b M m : ℚ} (hMr : r < M) (hMb : b ≤ M)
    (hmr : m ≤ r) (hmb : m ≤ b) (c3 : M = g) (hm : m = r ∨ m = g ∨ m = b)
    (h : ℚ) (hh : h = ((b - r) / (M - m) + 2) / 6) :
    0 ≤ h ∧ h < 1 ∧ hue2rgb m M (h + 1 / 3) = r ∧ hue2rgb m M h = g
      ∧ hue2rgb m M (h - 1 / 3) = b := by
  have hd : 0 < M - m := by linarith
  obtain ⟨u, hu⟩ : ∃ u, (b - r) / (M - m) = u := ⟨_, rfl⟩
  have hud : u * (M - m) = b - r := by rw [← hu]; field_simp
  rw [hu] at hh
  have hu0 : -1 < u := by rw [← hu, lt_div_iff₀ hd]; linarith
  have hu1 : u ≤ 1 := by rw [← hu, div_le_one hd]; linarith
  by_cases c4 : b < r
  · have em : m = b := by
      rcases hm with e | e | e
      · linarith
      · linarith
      · exact e
    have hu2 : u < 0 := by rw [← hu]; exact div_neg_of_neg_of_pos (by linarith) hd
    refine ⟨by linarith, by linarith, ?_, ?_, ?_⟩
    · rw [hue2rgb_fall (by linarith) (by linarith), hh]; linarith
    · rw [hue2rgb_top (by linarith) (by linarith)]; exact c3
    · rw [hue2rgb_bottom_neg (by linarith) (by linarith)]; exact em
  · have em : m = r := by
      rcases hm with e | e | e
      · exact e
      · linarith
      · linarith
    have hu2 : 0 ≤ u := by rw [← hu]; exact div_nonneg (by linarith) (le_of_lt hd)
    refine ⟨by linarith, by linarith, ?_, ?_, ?_⟩
    · rw [hue2rgb_bottom (by linarith) (by linarith)]; exact em
    · rw [hue2rgb_top (by linarith) (by linarith)]; exact c3
    · rw [hue2rgb_rise (by linarith) (by linarith), hh]; linarith

theorem hue2rgb_sector_blue {r g b M m : ℚ} (hMr : r < M) (hMg : g < M)
    (hmr : m ≤ r) (hmg : m ≤ g) (eM : M = b) (hm : m = r ∨ m = g ∨ m = b)
    (h : ℚ) (hh : h = ((r - g) / (M - m) + 4) / 6) :
    0 ≤ h ∧ h < 1 ∧ hue2rgb m M (h + 1 / 3) = r ∧ hue2rgb m M h = g
      ∧ hue2rgb m M (h - 1 / 3) = b := by
  have hd : 0 < M - m := by linarith
  obtain ⟨u, hu⟩ : ∃ u, (r - g) / (M - m) = u := ⟨_, rfl⟩
  have hud : u * (M - m) = r - g := by rw [← hu]; field_simp
  rw [hu] at hh
  have hu0 : -1 < u := by rw [← hu, lt_div_iff₀ hd]; linarith
  have hu1 : u < 1 := by rw [← hu, div_lt_one hd]; linarith
  by_cases c4 : r < g
  · have em : m = r := by
      rcases hm with e | e | e
      · exact e
      · linarith
      · linarith
    have hu2 : u < 0 := by rw [← hu]; exact div_neg_of_neg_of_pos (by linarith) hd
    refine ⟨by linarith, by linarith, ?_, ?_, ?_⟩
    · rw [hue2rgb_bottom (by linarith) (by linarith)]; exact em
    · rw [hue2rgb_fall (by linarith) (by linarith), hh]; linarith
    · rw [hue2rgb_top (by linarith) (by linarith)]; exact eM
  · have em : m = g := by
      rcases hm with e | e | e
      · linarith
      · exact e
      · linarith
    have hu2 : 0 ≤ u := by rw [← hu]; exact div_nonneg (by linarith) (le_of_lt hd)
    refine ⟨by linarith, by linarith, ?_, ?_, ?_⟩
    · by_cases hz : u = 0
      · have hr : r = g := by rw [hz] at hud; linarith
        rw [hue2rgb_bottom (by linarith) (by linarith)]; linarith
      · have hpos : 0 < u := lt_of_le_of_ne hu2 (Ne.symm hz)
        rw [hue2rgb_rise_wrap (by linarith) (by linarith), hh]; linarith
    · rw [hue2rgb_bottom (by linarith) (by linarith)]; exact em
    · rw [hue2rgb_top (by linarith) (by linarith)]; exact eM

theorem rgbToHsl_eq (r g b : ℚ) :
    rgbToHsl r g b = hslOfExtremes r g b (max r (max g b)) (min r (min g b)) := by
  simp only [rgbToHsl, hslOfExtremes]

theorem round_trip_extremes {r g b M m : ℚ} (hm0 : 0 ≤ m) (hM1 : M ≤ 1) (hMr : r ≤ M)
    (hMg : g ≤ M) (hMb : b ≤ M) (hmr : m ≤ r) (hmg : m ≤ g) (hmb : m ≤ b)
    (hM : M = r ∨ M = g ∨ M = b) (hm : m = r ∨ m = g ∨ m = b) :
    hslToRgb (rotatedHue (hslOfExtremes r g b M m).1 0 / 360) (hslOfExtremes r g b M m).2.1
        (hslOfExtremes r g b M m).2.2
      = (r, g, b) := by
  by_cases hgrey : M = m
  · have er : r = M := le_antisymm hMr (by linarith)
    have eg : g = M := le_antisymm hMg (by linarith)
    have eb : b = M := le_antisymm hMb (by linarith)
    have el : (M + M) / 2 = M := by ring
    subst hgrey
    simp only [hslOfExtremes, if_true, hslToRgb, el, er, eg, eb]
  · have hlt : m < M := lt_of_le_of_ne (le_trans hmr hMr) (Ne.symm hgrey)
    have key : ∃ h, h = (if M = r then (g - b) / (M - m) + (if g < b then 6 else 0)
        else if M = g then (b - r) / (M - m) + 2
        else (r - g) / (M - m) + 4) / 6 := ⟨_, rfl⟩
    obtain ⟨h, hh⟩ := key
    have e0 : hslOfExtremes r g b M m
        = (h, if (M + m) / 2 > 1 / 2 then (M - m) / (2 - M - m) else (M - m) / (M + m),
            (M + m) / 2) := by
      simp only [hslOfExtremes, hgrey, if_false, hh]
    have sect : 0 ≤ h ∧ h < 1 ∧ hue2rgb m M (h + 1 / 3) = r ∧ hue2rgb m M h = g
        ∧ hue2rgb m M (h - 1 / 3) = b := by
      by_cases c1 : M = r
      · rw [if_pos c1] at hh
        exact hue2rgb_sector_red hMg hMb hmg hmb c1 hm hlt h hh
      · by_cases c3 : M = g
        · rw [if_neg c1, if_pos c3] at hh
          exact hue2rgb_sector_green (lt_of_le_of_ne hMr (Ne.symm c1)) hMb hmr hmb c3 hm h hh
        · have eM : M = b := by
            rcases hM with e | e | e
            · exact absurd e c1
            · exact absurd e c3
            · exact e
          rw [if_neg c1, if_neg c3] at hh
          exact hue2rgb_sector_blue (lt_of_le_of_ne hMr (Ne.symm c1))
            (lt_of_le_of_ne hMg (Ne.symm c3)) hmr hmg eM hm h hh
    obtain ⟨h0, h1, e1, e2, e3⟩ := sect
    rw [e0]
    simp only []
    rw [rotatedHue_zero h0 h1, hslToRgb_of_extremes hm0 hlt hM1, e1, e2, e3]

/-- Converting a colour to hue, saturation and lightness, rotating the hue by 0 degrees
and converting back gives the channels of the colour, in exact arithmetic. -/
theorem hslToRgb_rgbToHsl {r g b : ℚ} (hr0 : 0 ≤ r) (hr1 : r ≤ 1) (hg0 : 0 ≤ g)
    (hg1 : g ≤ 1) (hb0 : 0 ≤ b) (hb1 : b ≤ 1) :
    hslToRgb (rotatedHue (rgbToHsl r g b).1 0 / 360) (rgbToHsl r g b).2.1 (rgbToHsl r g b).2.2
      = (r, g, b) := by
  have hM1 : max r (max g b) ≤ 1 := max_le hr1 (max_le hg1 hb1)
  have hm0 : 0 ≤ min r (min g b) := le_min hr0 (le_min hg0 hb0)
  have hMr : r ≤ max r (max g b) := le_max_left _ _
  have hMg : g ≤ max r (max g b) := le_trans (le_max_left _ _) (le_max_right _ _)
  have hMb : b ≤ max r (max g b) := le_trans (le_max_right _ _) (le_max_right _ _)
  have hmr : min r (min g b) ≤ r := min_le_left _ _
  have hmg : min r (min g b) ≤ g := le_trans (min_le_right _ _) (min_le_left _ _)
  have hmb : min r (min g b) ≤ b := le_trans (min_le_right _ _) (min_le_right _ _)
  have hM : max r (max g b) = r ∨ max r (max g b) = g ∨ max r (max g b) = b := by
    rcases max_choice r (max g b) with e | e
    · exact Or.inl e
    · rcases max_choice g b with e2 | e2
      · exact Or.inr (Or.inl (e.trans e2))
      · exact Or.inr (Or.inr (e.trans e2))
  have hm : min r (min g b) = r ∨ min r (min g b) = g ∨ min r (min g b) = b := by
    rcases min_choice r (min g b) with e | e
    · exact Or.inl e
    · rcases min_choice g b with e2 | e2
      · exact Or.inr (Or.inl (e.trans e2))
      · exact Or.inr (Or.inr (e.trans e2))
  rw [rgbToHsl_eq]
  exact round_trip_extremes hm0 hM1 hMr hMg hMb hmr hmg hmb hM hm

/-! ## The conversion path on text -/

theorem toHex_of_unit {x : ℚ} (h0 : 0 ≤ x) (h1 : x ≤ 1) :
    ∃ n : ℕ, n ≤ 255 ∧ (n : ℤ) = mathRound (x * 255) ∧ toHex x = hexByte n := by
  have hlo : 0 ≤ mathRound (x * 255) := by
    unfold mathRound
    exact Int.floor_nonneg.mpr (by linarith)
  have hhi : mathRound (x * 255) < 256 := by
    unfold mathRound
    rw [Int.floor_lt]
    push_cast
    linarith
  have hn : ((mathRound (x * 255)).toNat : ℤ) = mathRound (x * 255) := Int.toNat_of_nonneg hlo
  have hle : (mathRound (x * 255)).toNat ≤ 255 := by omega
  refine ⟨(mathRound (x * 255)).toNat, hle, hn, ?_⟩
  have ht := toHex_text_fin ⟨(mathRound (x * 255)).toNat, by omega⟩
  simp only [] at ht
  rw [hn] at ht
  simpa only [toHex] using ht

theorem toHex_channel (n : ℕ) (hn : n ≤ 255) : toHex ((n : ℚ) / 255) = hexByte n := by
  have e : mathRound ((n : ℚ) / 255 * 255) = (n : ℤ) := by
    unfold mathRound
    rw [Int.floor_eq_iff]
    have : (n : ℚ) / 255 * 255 = n := by field_simp
    rw [this]
    push_cast
    constructor <;> linarith
  have ht := toHex_text_fin ⟨n, by omega⟩
  simp only [] at ht
  simpa only [toHex, e] using ht

theorem unit_of_channel (n : ℕ) (hn : n ≤ 255) :
    0 ≤ (n : ℚ) / 255 ∧ (n : ℚ) / 255 ≤ 1 := by
  have h : (n : ℚ) ≤ 255 := by exact_mod_cast hn
  constructor
  · positivity
  · rw [div_le_one (by norm_num)]; exact h

/-- The conversion path on a well-formed colour, unfolded. -/
theorem hueConversionPath_eq {color : List Char} {r g b : ℕ}
    (hc : colorChannels color = some (r, g, b)) (deg : ℚ) :
    hueConversionPath color deg
      = '#' :: (toHex (hslToRgb (rotatedHue (rgbToHsl (r / 255) (g / 255) (b / 255)).1 deg / 360)
            (rgbToHsl (r / 255) (g / 255) (b / 255)).2.1
            (rgbToHsl (r / 255) (g / 255) (b / 255)).2.2).1
          ++ toHex (hslToRgb (rotatedHue (rgbToHsl (r / 255) (g / 255) (b / 255)).1 deg / 360)
            (rgbToHsl (r / 255) (g / 255) (b / 255)).2.1
            (rgbToHsl (r / 255) (g / 255) (b / 255)).2.2).2.1
          ++ toHex (hslToRgb (rotatedHue (rgbToHsl (r / 255) (g / 255) (b / 255)).1 deg / 360)
            (rgbToHsl (r / 255) (g / 255) (b / 255)).2.1
            (rgbToHsl (r / 255) (g / 255) (b / 255)).2.2).2.2) := by
  obtain ⟨pr, pg, pb, -, -, -⟩ := parse_of_colorChannels hc
  simp only [hueConversionPath, pr, pg, pb, Int.cast_natCast]

/-- With a rotation of 0 degrees the conversion path writes the channels it read. -/
theorem hueConversionPath_zero {color : List Char} {r g b : ℕ}
    (hc : colorChannels color = some (r, g, b)) :
    hueConversionPath color 0 = hexColor r g b := by
  obtain ⟨-, -, -, hr, hg, hb⟩ := parse_of_colorChannels hc
  have ur := unit_of_channel r hr
  have ug := unit_of_channel g hg
  have ub := unit_of_channel b hb
  rw [hueConversionPath_eq hc, hslToRgb_rgbToHsl ur.1 ur.2 ug.1 ug.2 ub.1 ub.2]
  simp only [toHex_channel r hr, toHex_channel g hg, toHex_channel b hb, hexColor]

/-- For every rotation the conversion path writes a well-formed colour. -/
theorem hueConversionPath_wellFormed {color : List Char} {r g b : ℕ}
    (hc : colorChannels color = some (r, g, b)) (deg : ℚ) :
    ∃ r1 g1 b1 : ℕ, r1 ≤ 255 ∧ g1 ≤ 255 ∧ b1 ≤ 255
      ∧ hueConversionPath color deg = hexColor r1 g1 b1 := by
  obtain ⟨-, -, -, hr, hg, hb⟩ := parse_of_colorChannels hc
  have ur := unit_of_channel r hr
  have ug := unit_of_channel g hg
  have ub := unit_of_channel b hb
  have hrot := rotatedHue_mem (rgbToHsl (r / 255) (g / 255) (b / 255)).1 deg
  have hh0 : 0 ≤ rotatedHue (rgbToHsl (r / 255) (g / 255) (b / 255)).1 deg / 360 :=
    div_nonneg hrot.1 (by norm_num)
  obtain ⟨⟨a1, a2⟩, ⟨b1, b2⟩, ⟨c1, c2⟩⟩ :=
    hslToRgb_rgbToHsl_mem ur.1 ur.2 ug.1 ug.2 ub.1 ub.2 hh0
  obtain ⟨n1, hn1, -, e1⟩ := toHex_of_unit a1 a2
  obtain ⟨n2, hn2, -, e2⟩ := toHex_of_unit b1 b2
  obtain ⟨n3, hn3, -, e3⟩ := toHex_of_unit c1 c2
  refine ⟨n1, n2, n3, hn1, hn2, hn3, ?_⟩
  rw [hueConversionPath_eq hc, e1, e2, e3]
  rfl

/-! ## The conversion path: the claims -/

/-- C6: hue round trip.  For a well-formed colour the conversion path of `adjustColorHue`
with a rotation of 0 degrees (the path that the slider value `"0"` takes) writes a
well-formed colour each of whose channels differs from the original channel by at
most 1. -/
theorem hue_round_trip (color : List Char) (r g b : ℕ)
    (hc : colorChannels color = some (r, g, b)) :
    adjustColorHue color (JSVal.str 0) = hueConversionPath color 0
      ∧ ∃ r1 g1 b1 : ℕ, colorChannels (hueConversionPath color 0) = some (r1, g1, b1)
          ∧ ((r1 : ℤ) - r).natAbs ≤ 1 ∧ ((g1 : ℤ) - g).natAbs ≤ 1
          ∧ ((b1 : ℤ) - b).natAbs ≤ 1 := by
  obtain ⟨-, -, -, hr, hg, hb⟩ := parse_of_colorChannels hc
  refine ⟨rfl, r, g, b, ?_, by simp, by simp, by simp⟩
  rw [hueConversionPath_zero hc]
  exact colorChannels_hexColor hr hg hb

/-- C6, at the colour `#3498db`. -/
theorem hue_round_trip_witness :
    ∃ r1 g1 b1 : ℕ, colorChannels (hueConversionPath "#3498db".data 0) = some (r1, g1, b1)
      ∧ ((r1 : ℤ) - (52 : ℕ)).natAbs ≤ 1 ∧ ((g1 : ℤ) - (152 : ℕ)).natAbs ≤ 1
      ∧ ((b1 : ℤ) - (219 : ℕ)).natAbs ≤ 1 :=
  (hue_round_trip "#3498db".data 52 152 219 (by decide)).2

/-- C9: for a well-formed colour and a non-zero adjustment in `(-360, 360]`, the result
of `adjustColorHue` is `#` followed by three channels, each an integer in `0..255`
written with two radix-16 digits: a well-formed colour of seven characters. -/
theorem adjustColorHue_wellFormed (color : List Char) (r g b : ℕ) (hueAdjust : JSVal)
    (hc : colorChannels color = some (r, g, b)) (hne : hueAdjust.parseFloat ≠ 0)
    (_hlo : -360 < hueAdjust.parseFloat) (_hhi : hueAdjust.parseFloat ≤ 360) :
    ∃ r1 g1 b1 : ℕ, r1 ≤ 255 ∧ g1 ≤ 255 ∧ b1 ≤ 255
      ∧ adjustColorHue color hueAdjust = '#' :: (hexByte r1 ++ hexByte g1 ++ hexByte b1)
      ∧ (adjustColorHue color hueAdjust).length = 7
      ∧ colorChannels (adjustColorHue color hueAdjust) = some (r1, g1, b1) := by
  have hguard : hueAdjust.strictEqZero = false := by
    cases hueAdjust with
    | num q => simpa [JSVal.strictEqZero, JSVal.parseFloat] using hne
    | str q => rfl
  obtain ⟨r1, g1, b1, h1, h2, h3, he⟩ := hueConversionPath_wellFormed hc hueAdjust.parseFloat
  have ha : adjustColorHue color hueAdjust = hexColor r1 g1 b1 := by
    simp only [adjustColorHue, hguard, he]
    rfl
  refine ⟨r1, g1, b1, h1, h2, h3, ?_, ?_, ?_⟩
  · rw [ha]; rfl
  · rw [ha]; simp [hexColor, hexByte]
  · rw [ha]; exact colorChannels_hexColor h1 h2 h3

/-- C9, at the colour `#3498db` and an adjustment of 90 degrees. -/
theorem adjustColorHue_wellFormed_witness :
    ∃ r1 g1 b1 : ℕ, r1 ≤ 255 ∧ g1 ≤ 255 ∧ b1 ≤ 255
      ∧ adjustColorHue "#3498db".data (JSVal.num 90)
          = '#' :: (hexByte r1 ++ hexByte g1 ++ hexByte b1)
      ∧ (adjustColorHue "#3498db".data (JSVal.num 90)).length = 7
      ∧ colorChannels (adjustColorHue "#3498db".data (JSVal.num 90)) = some (r1, g1, b1) :=
  adjustColorHue_wellFormed "#3498db".data 52 152 219 (JSVal.num 90) (by decide)
    (by norm_num [JSVal.parseFloat]) (by norm_num [JSVal.parseFloat])
    (by norm_num [JSVal.parseFloat])

/-! ## The rotated hue in binary64 -/

/-- The rounding on known values: `0.1` and `35 / 255` round to their binary64
neighbours, `-198` and `360` are binary64 values, and the midpoint `360 - 2 ^ (-45)` of
two neighbours goes to the even one, `360`. -/
theorem roundBinary64_examples :
    roundBinary64 (1 / 10) = 3602879701896397 / 36028797018963968
      ∧ roundBinary64 (35 / 255) = 2472564501301449 / 18014398509481984
      ∧ roundBinary64 (-198) = -198
      ∧ roundBinary64 360 = 360
      ∧ roundBinary64 (360 - 1 / 2 ^ 45) = 360
      ∧ roundBinary64 (360 - 3 / 2 ^ 46) = 360 - 1 / 2 ^ 44 := by
  refine ⟨?_, ?_, ?_, ?_, ?_, ?_⟩ <;> decide!

/-- C8: evaluation of lines 389-413 in binary64 at the colour `#002332` (channels 0, 35,
50) and `hueAdjust = -198`, inside the stated ranges.  The hue before the rotation is
`197.99999999999997`, the sum with `-198` is `-2 ^ (-45)`, which is negative, and
`h += 360` rounds to exactly `360`: the rotated hue is not below 360.  The same happens
at `#ff0000` with `hueAdjust = -1e-20`.  In exact arithmetic the rotated hue of the same
colour and adjustment lies in `[0, 360)`. -/
theorem rotatedHue64_reaches_360 :
    colorChannels "#002332".data = some (0, 35, 50)
      ∧ ((-360 : ℚ) < -198 ∧ (-198 : ℚ) ≤ 360)
      ∧ roundBinary64 (-198) = -198
      ∧ rotatedHue64 0 35 50 (-198) = 360
      ∧ ¬ rotatedHue64 0 35 50 (-198) < 360
      ∧ rotatedHue64 255 0 0 (roundBinary64 (-1 / 10 ^ 20)) = 360
      ∧ (0 ≤ rotatedHue (rgbToHsl (0 / 255) (35 / 255) (50 / 255)).1 (-198)
          ∧ rotatedHue (rgbToHsl (0 / 255) (35 / 255) (50 / 255)).1 (-198) < 360) := by
  have h1 : rotatedHue64 0 35 50 (-198) = 360 := by decide!
  refine ⟨by decide, ⟨by norm_num, by norm_num⟩, by decide!, h1, ?_, by decide!,
    rotatedHue_mem _ _⟩
  rw [h1]
  norm_num

/-! ## Loops -/

theorem forBlocksFrom_length (body : ℕ → ℕ → List Op × ℕ) :
    ∀ n i k, (forBlocksFrom body n i k).1.length = n := by
  intro n
  induction n with
  | zero => intro i k; rfl
  | succ n ih => intro i k; simp [forBlocksFrom, ih]

/-- Round `j` of a loop makes the calls of its body, started at some random index. -/
theorem forBlocksFrom_get (body : ℕ → ℕ → List Op × ℕ) :
    ∀ n i k j, j < n → ∃ k1, (forBlocksFrom body n i k).1[j]? = some (body (i + j) k1).1 := by
  intro n
  induction n with
  | zero => intro i k j hj; omega
  | succ n ih =>
    intro i k j hj
    cases j with
    | zero => exact ⟨k, by simp [forBlocksFrom]⟩
    | succ j =>
      obtain ⟨k1, h1⟩ := ih (i + 1) (body i k).2 j (by omega)
      refine ⟨k1, ?_⟩
      simp only [forBlocksFrom, List.getElem?_cons_succ, h1]
      congr 3
      omega

/-- A loop whose body reads `c` random numbers in every round. -/
theorem forBlocksFrom_step (body : ℕ → ℕ → List Op × ℕ) (c : ℕ)
    (hstep : ∀ i k, (body i k).2 = k + c) :
    ∀ n i k, forBlocksFrom body n i k
      = ((List.range n).map (fun j => (body (i + j) (k + c * j)).1), k + c * n) := by
  intro n
  induction n with
  | zero => intro i k; rfl
  | succ n ih =>
    intro i k
    simp only [forBlocksFrom, ih, hstep, List.range_succ_eq_map, List.map_cons, List.map_map]
    refine Prod.ext ?_ ?_
    · simp only [Nat.add_zero, Nat.mul_zero, List.cons.injEq, true_and]
      apply List.map_congr_left
      intro j _
      simp only [Function.comp, Nat.succ_eq_add_one]
      congr 2 <;> ring
    · simp only []
      ring

theorem forLoop_step (body : ℕ → ℕ → List Op × ℕ) (c : ℕ)
    (hstep : ∀ i k, (body i k).2 = k + c) (n k : ℕ) :
    forLoop n body k
      = (((List.range n).map (fun j => (body j (k + c * j)).1)).flatten, k + c * n) := by
  have h := forBlocksFrom_step body c hstep n 0 k
  simp only [Nat.zero_add] at h
  simp only [forLoop, forBlocks, h]

theorem loopCount_intCast (z : ℤ) : loopCount (z : ℚ) = z.toNat := by
  simp [loopCount]

/-! ## The buildings -/

theorem buildingCount_nonneg {chaos buildingDensity : ℚ} (hc0 : 0 ≤ chaos)
    (hd : 0 ≤ buildingDensity) : 0 ≤ buildingCount chaos buildingDensity := by
  unfold buildingCount
  apply Int.floor_nonneg.mpr
  have h8 : (0 : ℤ) ≤ ⌊chaos * 8⌋ := Int.floor_nonneg.mpr (by positivity)
  have h5 : (0 : ℚ) ≤ ((5 + ⌊chaos * 8⌋ : ℤ) : ℚ) := by
    have : (0 : ℤ) ≤ 5 + ⌊chaos * 8⌋ := by omega
    exact_mod_cast this
  exact mul_nonneg h5 hd

/-- C11: for `chaos` in `[0, 1]` and a `buildingDensity` that is not negative,
`drawToledoBuildings` draws exactly `floor((5 + floor(chaos * 8)) * buildingDensity)`
building rectangles, one per round of its loop; the rectangle of round `i` is filled in
`colors[0]` and centred at `x = width * (i + 1) / (count + 1)`; with `buildingDensity = 0`
the loop does not run: no call is made and no random number is read, so that neither a
window nor a crack is drawn and no quotient is formed.  In round `i` the width and the
height of the building come from the random numbers at some index `k1` and `k1 + 1`. -/
theorem drawToledoBuildings_count (env : MathEnv) (s : Surface) (colors : List (List Char))
    (intensity chaos buildingDensity : ℚ) (k : ℕ)
    (hc0 : 0 ≤ chaos) (_hc1 : chaos ≤ 1) (hd : 0 ≤ buildingDensity) :
    buildingCount chaos buildingDensity = ⌊((5 + ⌊chaos * 8⌋ : ℤ) : ℚ) * buildingDensity⌋
      ∧ ((drawToledoBuildings env s colors intensity chaos buildingDensity k).1.length : ℤ)
          = buildingCount chaos buildingDensity
      ∧ (∀ i : ℕ, (i : ℤ) < buildingCount chaos buildingDensity →
          ∃ (k1 : ℕ) (rest : List Op),
            (drawToledoBuildings env s colors intensity chaos buildingDensity k).1[i]?
              = some (Op.beginPath
                  :: Op.rect
                      ((s.width * (i + 1)) / (buildingCount chaos buildingDensity + 1)
                        - (25 + env.random k1 * 30) / 2)
                      (s.height - s.height * (4 / 10)
                        * (3 / 10 + env.random (k1 + 1) * (8 / 10) * intensity))
                      (25 + env.random k1 * 30)
                      (s.height * (4 / 10)
                        * (3 / 10 + env.random (k1 + 1) * (8 / 10) * intensity))
                  :: Op.setFillStyle (colorAt colors 0) :: Op.fill :: rest))
      ∧ (buildingDensity = 0 →
          drawToledoBuildings env s colors intensity chaos buildingDensity k = ([], k)) := by
  have hn := buildingCount_nonneg hc0 hd
  refine ⟨rfl, ?_, ?_, ?_⟩
  · simp only [drawToledoBuildings, forBlocks, forBlocksFrom_length, loopCount_intCast]
    exact Int.toNat_of_nonneg hn
  · intro i hi
    have hi2 : i < loopCount (buildingCount chaos buildingDensity) := by
      rw [loopCount_intCast]; omega
    obtain ⟨k1, h1⟩ := forBlocksFrom_get
      (buildingRound env s colors intensity chaos (buildingCount chaos buildingDensity))
      _ 0 k i hi2
    refine ⟨k1, (windowGrid env s colors
        ((s.width * (i + 1)) / (buildingCount chaos buildingDensity + 1))
        (25 + env.random k1 * 30)
        (s.height * (4 / 10) * (3 / 10 + env.random (k1 + 1) * (8 / 10) * intensity))
        (k1 + 2)).1
      ++ (buildingCracks env s colors chaos
        ((s.width * (i + 1)) / (buildingCount chaos buildingDensity + 1))
        (25 + env.random k1 * 30)
        (s.height * (4 / 10) * (3 / 10 + env.random (k1 + 1) * (8 / 10) * intensity))
        (windowGrid env s colors
          ((s.width * (i + 1)) / (buildingCount chaos buildingDensity + 1))
          (25 + env.random k1 * 30)
          (s.height * (4 / 10) * (3 / 10 + env.random (k1 + 1) * (8 / 10) * intensity))
          (k1 + 2)).2).1, ?_⟩
    simp only [drawToledoBuildings, forBlocks, h1, buildingRound, Nat.zero_add,
      List.cons_append, List.nil_append, List.append_assoc]
  · intro h0
    have hz : buildingCount chaos buildingDensity = 0 := by
      simp [buildingCount, h0]
    simp [drawToledoBuildings, hz, loopCount, forBlocks, forBlocksFrom]

/-- C11, for an 800 by 400 surface, `chaos = 1/2` and `buildingDensity = 1/4`: two
buildings. -/
theorem drawToledoBuildings_count_witness :
    ((drawToledoBuildings ⟨fun _ => 1 / 2, fun _ => 0, fun _ => 1⟩ ⟨800, 400⟩
        ["#2c3e50".data] (1 / 2) (1 / 2) (1 / 4) 0).1.length : ℤ)
      = buildingCount (1 / 2) (1 / 4) :=
  (drawToledoBuildings_count ⟨fun _ => 1 / 2, fun _ => 0, fun _ => 1⟩ ⟨800, 400⟩
    ["#2c3e50".data] (1 / 2) (1 / 2) (1 / 4) 0 (by norm_num) (by norm_num) (by norm_num)).2.1

theorem windowCell_step (env : MathEnv) (s : Surface) (colors : List (List Char))
    (x width height : ℚ) (windowRows windowCols : ℤ) (row col k : ℕ) :
    (windowCell env s colors x width height windowRows windowCols row col k).2 = k + 1 := by
  unfold windowCell
  split <;> rfl

theorem sum_map_range_le (f : ℕ → ℕ) (b n : ℕ) (h : ∀ j, f j ≤ b) :
    ((List.range n).map f).sum ≤ n * b := by
  have := List.sum_le_card_nsmul ((List.range n).map f) b (by
    intro x hx
    obtain ⟨j, -, rfl⟩ := List.mem_map.mp hx
    exact h j)
  simpa using this

/-- C18: the window grid of a building of width `w` and height `h` has `floor(h / 20)`
rows and `floor(w / 15)` columns; the cells are visited row by row, each reads one
random number of its own, and a cell is drawn, as one 6 by 6 square filled in
`colors[3]`, exactly when its number exceeds 0.3; so the grid reads `rows * columns`
random numbers and shows at most `rows * columns` windows. -/
theorem windowGrid_cells (env : MathEnv) (s : Surface) (colors : List (List Char))
    (x width height : ℚ) (k : ℕ) :
    (windowGrid env s colors x width height k).1
        = ((List.range ⌊height / 20⌋.toNat).map fun row =>
            ((List.range ⌊width / 15⌋.toNat).map fun col =>
              if env.random (k + ⌊width / 15⌋.toNat * row + col) > 3 / 10 then
                [Op.beginPath,
                 Op.rect (x - width / 2 + (col + 1 / 2) * (width / ⌊width / 15⌋) - 3)
                   (s.height - height + (row + 1 / 2) * (height / ⌊height / 20⌋) - 3) 6 6,
                 Op.setFillStyle (colorAt colors 3), Op.fill]
              else []).flatten).flatten
      ∧ (windowGrid env s colors x width height k).2
          = k + ⌊width / 15⌋.toNat * ⌊height / 20⌋.toNat
      ∧ (windowGrid env s colors x width height k).1.countP
            (fun op => match op with | Op.rect _ _ _ _ => true | _ => false)
          ≤ ⌊height / 20⌋.toNat * ⌊width / 15⌋.toNat := by
  have inner : ∀ row k1,
      forLoop ⌊width / 15⌋.toNat
          (fun col k2 => windowCell env s colors x width height ⌊height / 20⌋ ⌊width / 15⌋
            row col k2) k1
        = (((List.range ⌊width / 15⌋.toNat).map fun col =>
              (windowCell env s colors x width height ⌊height / 20⌋ ⌊width / 15⌋ row col
                (k1 + col)).1).flatten, k1 + ⌊width / 15⌋.toNat) := by
    intro row k1
    have h := forLoop_step
      (fun col k2 => windowCell env s colors x width height ⌊height / 20⌋ ⌊width / 15⌋
        row col k2) 1 (fun i k => windowCell_step _ _ _ _ _ _ _ _ _ _ _) ⌊width / 15⌋.toNat k1
    simpa only [one_mul] using h
  have outer : windowGrid env s colors x width height k
      = (((List.range ⌊height / 20⌋.toNat).map fun row =>
            ((List.range ⌊width / 15⌋.toNat).map fun col =>
              (windowCell env s colors x width height ⌊height / 20⌋ ⌊width / 15⌋ row col
                (k + ⌊width / 15⌋.toNat * row + col)).1).flatten).flatten,
          k + ⌊width / 15⌋.toNat * ⌊height / 20⌋.toNat) := by
    unfold windowGrid
    simp only [loopCount_intCast, inner]
    rw [forLoop_step _ ⌊width / 15⌋.toNat (fun i k => rfl)]
  have cell : ∀ row col k1,
      (windowCell env s colors x width height ⌊height / 20⌋ ⌊width / 15⌋ row col k1).1
        = if env.random k1 > 3 / 10 then
            [Op.beginPath,
             Op.rect (x - width / 2 + (col + 1 / 2) * (width / ⌊width / 15⌋) - 3)
               (s.height - height + (row + 1 / 2) * (height / ⌊height / 20⌋) - 3) 6 6,
             Op.setFillStyle (colorAt colors 3), Op.fill]
          else [] := by
    intro row col k1
    unfold windowCell
    split <;> rfl
  refine ⟨?_, ?_, ?_⟩
  · rw [outer]
    simp only [cell]
  · rw [outer]
  · rw [outer]
    simp only [cell, List.countP_flatten, List.map_map]
    apply sum_map_range_le
    intro row
    simp only [Function.comp]
    have := sum_map_range_le
      (fun col => List.countP (fun op => match op with | Op.rect _ _ _ _ => true | _ => false)
        (if env.random (k + ⌊width / 15⌋.toNat * row + col) > 3 / 10 then
            [Op.beginPath,
             Op.rect (x - width / 2 + (col + 1 / 2) * (width / ⌊width / 15⌋) - 3)
               (s.height - height + (row + 1 / 2) * (height / ⌊height / 20⌋) - 3) 6 6,
             Op.setFillStyle (colorAt colors 3), Op.fill]
          else []))
      1 ⌊width / 15⌋.toNat (by
        intro col
        dsimp only
        split <;> simp [List.countP_cons])
    simpa using this

/-! ## The sun -/

theorem sunSplats_eq (env : MathEnv) (s : Surface) (colors : List (List Char))
    (intensity chaos : ℚ) (k : ℕ) :
    sunSplats env s colors intensity chaos k
      = ((List.range ⌈15 + chaos * 20⌉.toNat).map (fun (i : ℕ) =>
          [Op.beginPath,
           Op.arc
             (s.width * (8 / 10)
               + env.cos ((mathPI * 2 * i) / (15 + chaos * 20))
                 * (40 + intensity * 20 + env.random (k + 2 * i) * 30 * chaos))
             (s.height * (15 / 100)
               + env.sin ((mathPI * 2 * i) / (15 + chaos * 20))
                 * (40 + intensity * 20 + env.random (k + 2 * i) * 30 * chaos))
             (env.random (k + 2 * i + 1) * 3) 0 (mathPI * 2),
           Op.setFillStyle (colorAt colors 2), Op.fill]),
        k + 2 * ⌈15 + chaos * 20⌉.toNat) := by
  unfold sunSplats forBlocks
  rw [forBlocksFrom_step _ 2 (fun i k => rfl)]
  simp only [sunSplat, loopCount, Nat.zero_add]

/-- C16, as stated, fails: at `chaos = 0.51` the bound of the loop is 25.2 and the loop
runs 26 times, so that 26 dots are drawn. -/
theorem sunSplats_count_not_linear :
    (sunSplats ⟨fun _ => 1 / 2, fun _ => 0, fun _ => 1⟩ ⟨800, 400⟩
        ["#2c3e50".data, "#34495e".data, "#ecf0f1".data] (1 / 2) (51 / 100) 0).1.length = 26
      ∧ ((26 : ℕ) : ℚ) ≠ 15 + (51 / 100) * 20 := by
  constructor
  · rw [sunSplats_eq]
    simp only [List.length_map, List.length_range]
    decide!
  · norm_num

/-- C16, amended: for `intensity` and `chaos` in `[0, 1]` and random numbers in
`[0, 1)`, `drawSun` fills one disc centred at `(0.8 * width, 0.15 * height)` with radius
`40 + 20 * intensity` in `colors[2]` and then draws `ceil(15 + chaos * 20)` splatter
dots in the same colour, which is `15 + chaos * 20` dots when that number is whole; dot
`i` is centred at the offset `distance * (cos angle, sin angle)` from the centre of the
disc, with `radius <= distance <= radius + 30 * chaos`. -/
theorem drawSun_disc_and_splats (env : MathEnv) (s : Surface) (colors : List (List Char))
    (intensity chaos : ℚ) (k : ℕ)
    (_hi0 : 0 ≤ intensity) (_hi1 : intensity ≤ 1) (hc0 : 0 ≤ chaos) (_hc1 : chaos ≤ 1)
    (hr : ∀ n, 0 ≤ env.random n ∧ env.random n < 1) :
    (drawSun env s colors intensity chaos k).1
        = [Op.beginPath,
           Op.arc (s.width * (8 / 10)) (s.height * (15 / 100)) (40 + intensity * 20) 0
             (mathPI * 2),
           Op.setFillStyle (colorAt colors 2), Op.fill]
          ++ (sunSplats env s colors intensity chaos k).1.flatten
      ∧ ((sunSplats env s colors intensity chaos k).1.length : ℤ) = ⌈15 + chaos * 20⌉
      ∧ (∀ m : ℕ, chaos * 20 = m →
          (sunSplats env s colors intensity chaos k).1.length = 15 + m)
      ∧ (∀ i : ℕ, (i : ℤ) < ⌈15 + chaos * 20⌉ →
          ∃ angle distance dotRadius : ℚ,
            (sunSplats env s colors intensity chaos k).1[i]?
              = some [Op.beginPath,
                  Op.arc (s.width * (8 / 10) + env.cos angle * distance)
                    (s.height * (15 / 100) + env.sin angle * distance) dotRadius 0
                    (mathPI * 2),
                  Op.setFillStyle (colorAt colors 2), Op.fill]
            ∧ 40 + intensity * 20 ≤ distance
            ∧ distance ≤ 40 + intensity * 20 + 30 * chaos) := by
  have hceil : (0 : ℤ) ≤ ⌈15 + chaos * 20⌉ := by
    apply Int.ceil_nonneg
    positivity
  refine ⟨rfl, ?_, ?_, ?_⟩
  · rw [sunSplats_eq]
    simp only [List.length_map, List.length_range]
    exact Int.toNat_of_nonneg hceil
  · intro m hm
    rw [sunSplats_eq]
    simp only [List.length_map, List.length_range, hm]
    have : (15 : ℚ) + (m : ℚ) = ((15 + m : ℕ) : ℚ) := by push_cast; ring
    rw [this, Int.ceil_natCast]
    omega
  · intro i hi
    have hi2 : i < ⌈15 + chaos * 20⌉.toNat := by omega
    refine ⟨(mathPI * 2 * i) / (15 + chaos * 20),
      40 + intensity * 20 + env.random (k + 2 * i) * 30 * chaos,
      env.random (k + 2 * i + 1) * 3, ?_, ?_, ?_⟩
    · rw [sunSplats_eq]
      simp only [List.getElem?_map, List.getElem?_range hi2, Option.map_some']
    · have h1 := (hr (k + 2 * i)).1
      have : 0 ≤ env.random (k + 2 * i) * 30 * chaos := by positivity
      linarith
    · have h1 := (hr (k + 2 * i)).1
      have h2 := (hr (k + 2 * i)).2
      have : env.random (k + 2 * i) * 30 * chaos ≤ 1 * 30 * chaos := by
        apply mul_le_mul_of_nonneg_right _ hc0
        linarith
      linarith

/-- C16 amended, for an 800 by 400 surface, `intensity = 1/2` and `chaos = 1/2`: the
disc and 25 dots. -/
theorem drawSun_disc_and_splats_witness :
    ((sunSplats ⟨fun _ => 1 / 2, fun _ => 0, fun _ => 1⟩ ⟨800, 400⟩
        ["#2c3e50".data, "#34495e".data, "#ecf0f1".data] (1 / 2) (1 / 2) 0).1.length : ℤ)
      = ⌈(15 : ℚ) + (1 / 2) * 20⌉ :=
  (drawSun_disc_and_splats ⟨fun _ => 1 / 2, fun _ => 0, fun _ => 1⟩ ⟨800, 400⟩
    ["#2c3e50".data, "#34495e".data, "#ecf0f1".data] (1 / 2) (1 / 2) 0 (by norm_num)
    (by norm_num) (by norm_num) (by norm_num) (fun _ => by norm_num)).2.1

/-! ## The storm clouds -/

theorem stormBillows_eq (env : MathEnv) (s : Surface) (y cloudHeight : ℚ) (k : ℕ) :
    forLoop 9 (stormBillow env s y cloudHeight) k
      = (((List.range 9).map fun i => (stormBillow env s y cloudHeight i (k + 2 * i)).1).flatten,
          k + 2 * 9) := by
  apply forLoop_step
  intro i k1
  unfold stormBillow
  split <;> rfl

/-- C17, as stated, fails: when the lightning is drawn, the bolt is a path of one
`moveTo` and two `lineTo`, two straight segments and not three. -/
theorem stormLightning_two_segments :
    (stormLightning ⟨fun _ => 4 / 5, fun _ => 0, fun _ => 1⟩ ⟨800, 400⟩ (9 / 10) 40 140 18).1
        = [Op.setStrokeStyle (Style.css "#FFFACD".data), Op.setLineWidth 2, Op.beginPath,
           Op.moveTo 496 82, Op.lineTo 502 124, Op.lineTo 505 180, Op.stroke]
      ∧ (stormLightning ⟨fun _ => 4 / 5, fun _ => 0, fun _ => 1⟩ ⟨800, 400⟩ (9 / 10)
            40 140 18).1.countP
          (fun op => match op with | Op.lineTo _ _ => true | _ => false) = 2
      ∧ (2 : ℕ) ≠ 3 := by
  refine ⟨?_, ?_, by decide⟩ <;> decide!

/-- C17, amended: the billow outline of `drawStormClouds` is built from exactly 8
quadratic-curve segments; the lightning is drawn only when `chaos > 0.8` and the random
number drawn after the 18 numbers of the outline exceeds 0.7, never when
`chaos <= 0.8`; when it is drawn the bolt is one stroked path of one `moveTo` and two
`lineTo`: a jagged line of 2 straight segments through 3 points. -/
theorem drawStormClouds_shape (env : MathEnv) (s : Surface) (chaos : ℚ) (k : ℕ) :
    (stormOutline env s k).1.countP
        (fun op => match op with | Op.quadraticCurveTo _ _ _ _ => true | _ => false) = 8
      ∧ (stormOutline env s k).2 = k + 18
      ∧ (drawStormClouds env s chaos k).1
          = [Op.setFillStyle (Style.linearGradient 0 (s.height * (1 / 10)) 0
                (s.height * (1 / 10) + s.height * (35 / 100))
                [(0, "#4A4A4A".data), (3 / 10, "#696969".data), (8 / 10, "#A9A9A9".data),
                 (1, "#D3D3D3".data)]),
             Op.beginPath]
            ++ (stormOutline env s k).1 ++ [Op.fill]
            ++ (stormLightning env s chaos (s.height * (1 / 10)) (s.height * (35 / 100))
                (k + 18)).1
      ∧ (chaos ≤ 8 / 10 →
          (stormLightning env s chaos (s.height * (1 / 10)) (s.height * (35 / 100))
            (k + 18)).1 = [])
      ∧ ((stormLightning env s chaos (s.height * (1 / 10)) (s.height * (35 / 100))
            (k + 18)).1 ≠ [] →
          chaos > 8 / 10 ∧ env.random (k + 18) > 7 / 10)
      ∧ (chaos > 8 / 10 → env.random (k + 18) > 7 / 10 →
          ∃ x0 y0 x1 y1 x2 y2 : ℚ,
            (stormLightning env s chaos (s.height * (1 / 10)) (s.height * (35 / 100))
              (k + 18)).1
              = [Op.setStrokeStyle (Style.css "#FFFACD".data), Op.setLineWidth 2,
                 Op.beginPath, Op.moveTo x0 y0, Op.lineTo x1 y1, Op.lineTo x2 y2,
                 Op.stroke]) := by
  have ho : (stormOutline env s k).2 = k + 18 := by
    simp only [stormOutline, stormBillows_eq]
  refine ⟨?_, ho, ?_, ?_, ?_, ?_⟩
  · simp only [stormOutline, stormBillows_eq]
    simp [List.range_succ, stormBillow, List.countP_cons]
  · simp only [drawStormClouds, ho]
  · intro h
    have : ¬ chaos > 8 / 10 := not_lt.mpr h
    simp only [stormLightning, this, if_false]
  · intro h
    unfold stormLightning at h
    by_cases h1 : chaos > 8 / 10
    · by_cases h2 : env.random (k + 18) > 7 / 10
      · exact ⟨h1, h2⟩
      · simp only [h1, h2, if_true, if_false] at h
        exact absurd rfl h
    · simp only [h1, if_false] at h
      exact absurd rfl h
  · intro h1 h2
    simp only [stormLightning, h1, h2, if_true]
    exact ⟨_, _, _, _, _, _, rfl⟩

/-- C17 amended, for an 800 by 400 surface at `chaos = 9/10` with every random number
equal to 4/5: the lightning is drawn. -/
theorem drawStormClouds_shape_witness :
    ∃ x0 y0 x1 y1 x2 y2 : ℚ,
      (stormLightning ⟨fun _ => 4 / 5, fun _ => 0, fun _ => 1⟩ ⟨800, 400⟩ (9 / 10)
          (((⟨800, 400⟩ : Surface).height : ℚ) * (1 / 10))
          (((⟨800, 400⟩ : Surface).height : ℚ) * (35 / 100)) (0 + 18)).1
        = [Op.setStrokeStyle (Style.css "#FFFACD".data), Op.setLineWidth 2,
           Op.beginPath, Op.moveTo x0 y0, Op.lineTo x1 y1, Op.lineTo x2 y2, Op.stroke] :=
  (drawStormClouds_shape ⟨fun _ => 4 / 5, fun _ => 0, fun _ => 1⟩ ⟨800, 400⟩ (9 / 10) 0).2.2.2.2.2
    (by norm_num) (by norm_num)

/-! ## The silhouettes and the layers of the scene -/

theorem pointCount_pos {chaos : ℚ} (hc0 : 0 ≤ chaos) : (4 : ℤ) ≤ 4 + ⌊chaos * 4⌋ := by
  have : (0 : ℤ) ≤ ⌊chaos * 4⌋ := Int.floor_nonneg.mpr (by positivity)
  omega

/-- The scene of `drawToledoCityscape` when `chaos` is not negative: no exception, and
the layers made by the drawing methods in turn. -/
theorem drawToledoCityscape_eq (env : MathEnv) (s : Surface) (colors : List (List Char))
    (intensity chaos lineThickness buildingDensity : ℚ) (skylineComplexity : ℤ)
    (textureGrain : ℚ) (k : ℕ) (hc0 : 0 ≤ chaos) :
    (drawToledoCityscape env s colors intensity chaos lineThickness buildingDensity
        skylineComplexity textureGrain k).1
      = { ground := groundOps s colors,
          sky := (drawCloudsOps env s colors intensity chaos k).1,
          sun := (drawSun env s colors intensity chaos
            (drawCloudsOps env s colors intensity chaos k).2).1,
          silhouettes := (forBlocks skylineComplexity.toNat
            (fun _ k1 =>
              silhouetteRound env s colors intensity chaos lineThickness textureGrain k1)
            (drawSun env s colors intensity chaos
              (drawCloudsOps env s colors intensity chaos k).2).2).1,
          buildings := (drawToledoBuildings env s colors intensity chaos buildingDensity
            (forBlocks skylineComplexity.toNat
              (fun _ k1 =>
                silhouetteRound env s colors intensity chaos lineThickness textureGrain k1)
              (drawSun env s colors intensity chaos
                (drawCloudsOps env s colors intensity chaos k).2).2).2).1,
          river := (drawMaumeeRiver env s colors
            (drawToledoBuildings env s colors intensity chaos buildingDensity
              (forBlocks skylineComplexity.toNat
                (fun _ k1 =>
                  silhouetteRound env s colors intensity chaos lineThickness textureGrain k1)
                (drawSun env s colors intensity chaos
                  (drawCloudsOps env s colors intensity chaos k).2).2).2).2).1,
          thrown := none } := by
  have hp := pointCount_pos hc0
  have hne : ¬ (0 < skylineComplexity ∧ (4 + ⌊chaos * 4⌋ : ℤ) ≤ 0) := by
    intro h
    omega
  simp only [drawToledoCityscape, hne, if_false]

theorem silhouetteRound_polygon (env : MathEnv) (s : Surface) (colors : List (List Char))
    (intensity chaos lineThickness textureGrain : ℚ) (k : ℕ) :
    ∃ ink, (silhouetteRound env s colors intensity chaos lineThickness textureGrain k).1
      = silhouettePolygon env s colors (silhouettePoints env s intensity chaos (k + 1)) k
        ++ ink := by
  unfold silhouetteRound
  by_cases h : chaos > 3 / 10
  · simp only [h, if_true]
    exact ⟨_, List.append_assoc _ _ _⟩
  · simp only [h, if_false]
    exact ⟨[], (List.append_nil _).symm⟩

/-- Round `i` of the silhouette loop fills the polygon through the points made from
some random index. -/
theorem drawToledoCityscape_silhouette_get (env : MathEnv) (s : Surface)
    (colors : List (List Char)) (intensity chaos lineThickness buildingDensity : ℚ) (n : ℕ)
    (textureGrain : ℚ) (k : ℕ) (hc0 : 0 ≤ chaos) (i : ℕ) (hi : i < n) :
    ∃ k1 ink,
      (drawToledoCityscape env s colors intensity chaos lineThickness buildingDensity
          (n : ℤ) textureGrain k).1.silhouettes[i]?
        = some (silhouettePolygon env s colors
            (silhouettePoints env s intensity chaos (k1 + 1)) k1 ++ ink) := by
  rw [drawToledoCityscape_eq _ _ _ _ _ _ _ _ _ _ hc0]
  obtain ⟨k1, h1⟩ := forBlocksFrom_get
    (fun _ k1 =>
      silhouetteRound env s colors intensity chaos lineThickness textureGrain k1)
    n 0 (drawSun env s colors intensity chaos
      (drawCloudsOps env s colors intensity chaos k).2).2 i hi
  obtain ⟨ink, h2⟩ := silhouetteRound_polygon env s colors intensity chaos lineThickness
    textureGrain k1
  exact ⟨k1, ink, by simp only [forBlocks, Int.toNat_ofNat, h1, h2]⟩

/-- C12: for a `skylineComplexity` that is a non-negative integer `n` (and a `chaos`
that is not negative), `drawToledoCityscape` raises no exception and runs its silhouette
loop `n` times, each round filling one polygon (followed by its ink splatters); with
`n = 0` no silhouette is drawn, yet the ground fill, the sky, the sun, the buildings and
the river are drawn as for any other `n`: the ground, the sky, the sun and the river
each make at least one call, and the buildings are those of `drawToledoBuildings`. -/
theorem drawToledoCityscape_silhouettes (env : MathEnv) (s : Surface)
    (colors : List (List Char)) (intensity chaos lineThickness buildingDensity : ℚ) (n : ℕ)
    (textureGrain : ℚ) (k : ℕ) (hc0 : 0 ≤ chaos) :
    (drawToledoCityscape env s colors intensity chaos lineThickness buildingDensity
        (n : ℤ) textureGrain k).1.thrown = none
      ∧ (drawToledoCityscape env s colors intensity chaos lineThickness buildingDensity
          (n : ℤ) textureGrain k).1.silhouettes.length = n
      ∧ (∀ i, i < n → ∃ k1 ink,
          (drawToledoCityscape env s colors intensity chaos lineThickness buildingDensity
              (n : ℤ) textureGrain k).1.silhouettes[i]?
            = some (silhouettePolygon env s colors
                (silhouettePoints env s intensity chaos (k1 + 1)) k1 ++ ink)
          ∧ (silhouettePolygon env s colors
                (silhouettePoints env s intensity chaos (k1 + 1)) k1).countP
              (fun op => match op with | Op.fill => true | _ => false) = 1)
      ∧ (drawToledoCityscape env s colors intensity chaos lineThickness buildingDensity
          (0 : ℤ) textureGrain k).1
          = { ground := groundOps s colors,
              sky := (drawCloudsOps env s colors intensity chaos k).1,
              sun := (drawSun env s colors intensity chaos
                (drawCloudsOps env s colors intensity chaos k).2).1,
              silhouettes := [],
              buildings := (drawToledoBuildings env s colors intensity chaos buildingDensity
                (drawSun env s colors intensity chaos
                  (drawCloudsOps env s colors intensity chaos k).2).2).1,
              river := (drawMaumeeRiver env s colors
                (drawToledoBuildings env s colors intensity chaos buildingDensity
                  (drawSun env s colors intensity chaos
                    (drawCloudsOps env s colors intensity chaos k).2).2).2).1,
              thrown := none }
      ∧ groundOps s colors ≠ []
      ∧ (drawCloudsOps env s colors intensity chaos k).1 ≠ []
      ∧ (drawSun env s colors intensity chaos
          (drawCloudsOps env s colors intensity chaos k).2).1 ≠ []
      ∧ (drawMaumeeRiver env s colors
          (drawToledoBuildings env s colors intensity chaos buildingDensity
            (drawSun env s colors intensity chaos
              (drawCloudsOps env s colors intensity chaos k).2).2).2).1 ≠ [] := by
  refine ⟨?_, ?_, ?_, ?_, ?_, ?_, ?_, ?_⟩
  · rw [drawToledoCityscape_eq _ _ _ _ _ _ _ _ _ _ hc0]
  · rw [drawToledoCityscape_eq _ _ _ _ _ _ _ _ _ _ hc0]
    simp only [forBlocks, forBlocksFrom_length, Int.toNat_ofNat]
  · intro i hi
    obtain ⟨k1, ink, h1⟩ := drawToledoCityscape_silhouette_get env s colors intensity chaos
      lineThickness buildingDensity n textureGrain k hc0 i hi
    refine ⟨k1, ink, h1, ?_⟩
    simp [silhouettePolygon, List.countP_cons, List.countP_append, List.countP_map,
      Function.comp_def]
  · rw [drawToledoCityscape_eq _ _ _ _ _ _ _ _ _ _ hc0]
    simp only [Int.toNat_zero, forBlocks, forBlocksFrom]
  · simp [groundOps]
  · simp [drawCloudsOps, drawClouds, seqOps, cloudCallOps, skyGradientOps]
  · simp [drawSun, sunDisc]
  · simp [drawMaumeeRiver]

/-- C12, for an 800 by 400 surface and three silhouettes. -/
theorem drawToledoCityscape_silhouettes_witness :
    (drawToledoCityscape ⟨fun _ => 1 / 2, fun _ => 0, fun _ => 1⟩ ⟨800, 400⟩
        ["#2c3e50".data, "#34495e".data, "#ecf0f1".data, "#3498db".data, "#e74c3c".data,
          "#95a5a6".data] (1 / 2) (1 / 2) 1 1 ((3 : ℕ) : ℤ) 1 0).1.silhouettes.length = 3 :=
  (drawToledoCityscape_silhouettes ⟨fun _ => 1 / 2, fun _ => 0, fun _ => 1⟩ ⟨800, 400⟩
    ["#2c3e50".data, "#34495e".data, "#ecf0f1".data, "#3498db".data, "#e74c3c".data,
      "#95a5a6".data] (1 / 2) (1 / 2) 1 1 3 1 0 (by norm_num)).2.1

/-- C13: for `chaos` and `intensity` in `[0, 1]`, every surface size and random numbers
in `[0, 1)`, the polygon of each silhouette of `drawToledoCityscape` is drawn through the
points of `silhouettePoints`, of which there are exactly `4 + floor(chaos * 4)`; the
`x` of point `j` is within `40 * chaos` of `width * j / (pointCount - 1)` and its `y` is
between `skyHeight = 0.35 * height` and
`skyHeight + 0.6 * intensity * (height - skyHeight)`. -/
theorem silhouettePoints_bounds (env : MathEnv) (s : Surface) (colors : List (List Char))
    (intensity chaos lineThickness buildingDensity : ℚ) (n : ℕ) (textureGrain : ℚ) (k : ℕ)
    (hc0 : 0 ≤ chaos) (_hc1 : chaos ≤ 1) (hi0 : 0 ≤ intensity) (_hi1 : intensity ≤ 1)
    (hr : ∀ m, 0 ≤ env.random m ∧ env.random m < 1) :
    (∀ i, i < n → ∃ k1 ink,
        (drawToledoCityscape env s colors intensity chaos lineThickness buildingDensity
            (n : ℤ) textureGrain k).1.silhouettes[i]?
          = some ([Op.beginPath, Op.moveTo (env.random k1 * s.width) s.height]
              ++ (silhouettePoints env s intensity chaos (k1 + 1)).map
                  (fun p => Op.lineTo p.1 p.2)
              ++ [Op.lineTo s.width s.height, Op.closePath,
                  Op.setFillStyle (colorAtInt colors
                    ⌊env.random (k1 + 1
                      + 2 * (silhouettePoints env s intensity chaos (k1 + 1)).length) * 2⌋),
                  Op.fill]
              ++ ink))
      ∧ ∀ k1 : ℕ,
          ((silhouettePoints env s intensity chaos k1).length : ℤ) = 4 + ⌊chaos * 4⌋
          ∧ ∀ j : ℕ, (j : ℤ) < 4 + ⌊chaos * 4⌋ →
              ∃ p : ℚ × ℚ, (silhouettePoints env s intensity chaos k1)[j]? = some p
                ∧ |p.1 - (s.width * j) / (((4 + ⌊chaos * 4⌋ : ℤ) : ℚ) - 1)| ≤ 40 * chaos
                ∧ (s.height : ℚ) * (35 / 100) ≤ p.2
                ∧ p.2 ≤ (s.height : ℚ) * (35 / 100)
                    + (6 / 10) * intensity * (s.height - (s.height : ℚ) * (35 / 100)) := by
  have hp := pointCount_pos hc0
  constructor
  · intro i hi
    obtain ⟨k1, ink, h4⟩ := drawToledoCityscape_silhouette_get env s colors intensity chaos
      lineThickness buildingDensity n textureGrain k hc0 i hi
    exact ⟨k1, ink, by rw [h4]; rfl⟩
  · intro k1
    have hlen : (silhouettePoints env s intensity chaos k1).length
        = (4 + ⌊chaos * 4⌋ : ℤ).toNat := by
      simp only [silhouettePoints, List.length_map, List.length_range, loopCount_intCast]
    refine ⟨by rw [hlen]; exact Int.toNat_of_nonneg (by omega), ?_⟩
    intro j hj
    have hj2 : j < (4 + ⌊chaos * 4⌋ : ℤ).toNat := by omega
    have h1 := hr (k1 + 2 * j)
    have h2 := hr (k1 + 2 * j + 1)
    have hH : (0 : ℚ) ≤ (s.height : ℚ) - (s.height : ℚ) * (35 / 100) := by
      have : (0 : ℚ) ≤ (s.height : ℚ) := Nat.cast_nonneg _
      linarith
    refine ⟨((s.width * j) / (((4 + ⌊chaos * 4⌋ : ℤ) : ℚ) - 1)
        + (env.random (k1 + 2 * j) - 1 / 2) * 80 * chaos,
      (s.height : ℚ) * (35 / 100)
        + env.random (k1 + 2 * j + 1) * (s.height - (s.height : ℚ) * (35 / 100)) * (6 / 10)
          * intensity), ?_, ?_, ?_, ?_⟩
    · simp only [silhouettePoints, loopCount_intCast, List.getElem?_map,
        List.getElem?_range hj2, Option.map_some']
    · simp only []
      rw [show ∀ a b : ℚ, a + b - a = b from fun a b => by ring, abs_le]
      constructor
      · have : (-(1 / 2) : ℚ) * (80 * chaos) ≤ (env.random (k1 + 2 * j) - 1 / 2) * (80 * chaos) :=
          mul_le_mul_of_nonneg_right (by linarith [h1.1]) (by positivity)
        linarith
      · have : (env.random (k1 + 2 * j) - 1 / 2) * (80 * chaos) ≤ (1 / 2 : ℚ) * (80 * chaos) :=
          mul_le_mul_of_nonneg_right (by linarith [h1.2]) (by positivity)
        linarith
    · simp only []
      have : 0 ≤ env.random (k1 + 2 * j + 1) * ((s.height : ℚ) - (s.height : ℚ) * (35 / 100))
          * (6 / 10) * intensity := by
        have := h2.1
        positivity
      linarith
    · simp only []
      have e1 : env.random (k1 + 2 * j + 1) * ((s.height : ℚ) - (s.height : ℚ) * (35 / 100))
          ≤ 1 * ((s.height : ℚ) - (s.height : ℚ) * (35 / 100)) :=
        mul_le_mul_of_nonneg_right (by linarith [h2.2]) hH
      have e2 : env.random (k1 + 2 * j + 1) * ((s.height : ℚ) - (s.height : ℚ) * (35 / 100))
          * ((6 / 10) * intensity)
          ≤ 1 * ((s.height : ℚ) - (s.height : ℚ) * (35 / 100)) * ((6 / 10) * intensity) :=
        mul_le_mul_of_nonneg_right e1 (by positivity)
      linarith

/-- C13, for an 800 by 400 surface with `chaos = 1/2`: six points. -/
theorem silhouettePoints_bounds_witness :
    ((silhouettePoints ⟨fun _ => 1 / 2, fun _ => 0, fun _ => 1⟩ ⟨800, 400⟩ (1 / 2) (1 / 2)
        0).length : ℤ) = 4 + ⌊(1 / 2 : ℚ) * 4⌋ :=
  ((silhouettePoints_bounds ⟨fun _ => 1 / 2, fun _ => 0, fun _ => 1⟩ ⟨800, 400⟩
    ["#2c3e50".data] (1 / 2) (1 / 2) 1 1 3 1 0 (by norm_num) (by norm_num) (by norm_num)
    (by norm_num) (fun _ => by norm_num)).2 0).1

/-! ## One render -/

theorem updatePreview_ready (env : MathEnv) (dom : ℕ → Dom) (fault : Option ℕ) (w : World)
    (s : Surface) (p : PreviewParams) (hi : w.engine.initialized = true)
    (hx : w.engine.ctx = true) (hs : w.engine.canvas = some s) :
    updatePreview env dom fault w (some p)
      = match withFault fault (renderAttempt env s p) with
        | (ops, some err) => Except.ok (w, Outcome.caught ops err)
        | (ops, none) => Except.ok (w, Outcome.rendered ops) := by
  simp only [updatePreview, hi, hx, hs]

/-- C15: when the engine is ready, the tone yields a working palette `colors` and
`chaos` is not negative, a render in which no call raises makes its calls in the fixed
order: the clearing of the surface; the ground fill, in `colors[5]`, from 35% of the
height down to the bottom; the sky; the sun; the silhouettes; the buildings; the river;
and only then the drawers of the enabled overlays. -/
theorem updatePreview_layer_order (env : MathEnv) (dom : ℕ → Dom) (w : World) (s : Surface)
    (p : PreviewParams) (colors : List (List Char))
    (hi : w.engine.initialized = true) (hx : w.engine.ctx = true)
    (hs : w.engine.canvas = some s)
    (hpal : adjustedColors p.colorTone p.colorIntensity p.hueAdjust = Except.ok colors)
    (hc0 : 0 ≤ p.chaos.parseFloat) :
    (∃ sc : Scene,
      sc = (drawToledoCityscape env s colors p.intensity.parseFloat p.chaos.parseFloat
          p.lineThickness.parseFloat p.buildingDensity.parseFloat
          p.skylineComplexity.parseInt p.textureGrain.parseFloat 0).1
      ∧ updatePreview env dom none w (some p)
          = Except.ok (w, Outcome.rendered
              (Op.clearRect 0 0 s.width s.height
                :: (sc.ground ++ sc.sky ++ sc.sun ++ sc.silhouettes.flatten
                  ++ sc.buildings.flatten ++ sc.river
                  ++ ((overlayCalls p.overlays).map (overlayOps s)).flatten)))
      ∧ sc.ground
          = [Op.setFillStyle (colorAt colors 5),
             Op.fillRect 0 (s.height * (35 / 100)) s.width
               (s.height - s.height * (35 / 100))]
      ∧ sc.sky = (drawCloudsOps env s colors p.intensity.parseFloat p.chaos.parseFloat 0).1
      ∧ (∃ k1, sc.sun
          = (drawSun env s colors p.intensity.parseFloat p.chaos.parseFloat k1).1)
      ∧ (∃ k2, sc.silhouettes
          = (forBlocks p.skylineComplexity.parseInt.toNat
              (fun _ k =>
                silhouetteRound env s colors p.intensity.parseFloat p.chaos.parseFloat
                  p.lineThickness.parseFloat p.textureGrain.parseFloat k) k2).1)
      ∧ (∃ k3, sc.buildings
          = (drawToledoBuildings env s colors p.intensity.parseFloat p.chaos.parseFloat
              p.buildingDensity.parseFloat k3).1)
      ∧ (∃ k4, sc.river = (drawMaumeeRiver env s colors k4).1)) := by
  have hscene := drawToledoCityscape_eq env s colors p.intensity.parseFloat
    p.chaos.parseFloat p.lineThickness.parseFloat p.buildingDensity.parseFloat
    p.skylineComplexity.parseInt p.textureGrain.parseFloat 0 hc0
  refine ⟨_, rfl, ?_, ?_, ?_, ?_, ?_, ?_, ?_⟩
  · rw [updatePreview_ready env dom none w s p hi hx hs]
    simp only [withFault, renderAttempt, hpal, hscene, Scene.ops, overlaysOps,
      List.append_assoc]
  · rw [hscene]; rfl
  · rw [hscene]
  · rw [hscene]; exact ⟨_, rfl⟩
  · rw [hscene]; exact ⟨_, rfl⟩
  · rw [hscene]; exact ⟨_, rfl⟩
  · rw [hscene]; exact ⟨_, rfl⟩

/-- C15, for a ready engine on an 800 by 400 surface and the tone `downtown`. -/
theorem updatePreview_layer_order_witness :
    ∃ sc : Scene,
      sc = (drawToledoCityscape ⟨fun _ => 1 / 2, fun _ => 0, fun _ => 1⟩ ⟨800, 400⟩
          ["#2c3e50".data, "#34495e".data, "#ecf0f1".data, "#3498db".data, "#e74c3c".data,
            "#95a5a6".data] (1 / 2) (1 / 2) 1 1 5 1 0).1
      ∧ updatePreview ⟨fun _ => 1 / 2, fun _ => 0, fun _ => 1⟩
            (fun _ => ⟨none, false, none⟩) none
            ⟨⟨some ⟨800, 400⟩, true, true, 0, 3⟩, 0, 1⟩
            (some ⟨JSVal.str (1 / 2), JSVal.str (1 / 2), "downtown", JSVal.str 1,
              JSVal.str 1, JSVal.str 5, JSVal.str 1, JSVal.num 1, JSVal.num 0,
              ⟨false, false, true, false⟩⟩)
          = Except.ok (⟨⟨some ⟨800, 400⟩, true, true, 0, 3⟩, 0, 1⟩, Outcome.rendered
              (Op.clearRect 0 0 (800 : ℕ) (400 : ℕ)
                :: (sc.ground ++ sc.sky ++ sc.sun ++ sc.silhouettes.flatten
                  ++ sc.buildings.flatten ++ sc.river
                  ++ ((overlayCalls ⟨false, false, true, false⟩).map
                      (overlayOps ⟨800, 400⟩)).flatten))) := by
  obtain ⟨sc, h1, h2, -⟩ := updatePreview_layer_order ⟨fun _ => 1 / 2, fun _ => 0, fun _ => 1⟩
    (fun _ => ⟨none, false, none⟩) ⟨⟨some ⟨800, 400⟩, true, true, 0, 3⟩, 0, 1⟩ ⟨800, 400⟩
    ⟨JSVal.str (1 / 2), JSVal.str (1 / 2), "downtown", JSVal.str 1, JSVal.str 1,
      JSVal.str 5, JSVal.str 1, JSVal.num 1, JSVal.num 0, ⟨false, false, true, false⟩⟩
    ["#2c3e50".data, "#34495e".data, "#ecf0f1".data, "#3498db".data, "#e74c3c".data,
      "#95a5a6".data] rfl rfl rfl (by decide!) (by norm_num [JSVal.parseFloat])
  refine ⟨sc, ?_, h2⟩
  rw [h1]
  simp only [JSVal.parseFloat, JSVal.parseInt]
  norm_num

/-- C19: for a ready engine and every parameter object, whatever exception the `try`
block meets (a `TypeError` of its own code, or an exception raised by any call on the
context), `updatePreview` returns normally: the exception is caught after the calls
made so far, the world with the fields `canvas`, `ctx` and `initialized` is the one
before the call, and every following call of `updatePreview` is again past the guard,
in the drawing pipeline. -/
theorem updatePreview_catches (env : MathEnv) (dom : ℕ → Dom) (fault : Option ℕ)
    (w : World) (s : Surface) (p : PreviewParams) (hi : w.engine.initialized = true)
    (hx : w.engine.ctx = true) (hs : w.engine.canvas = some s) :
    (∃ o, updatePreview env dom fault w (some p) = Except.ok (w, o)
        ∧ ∀ ops, o ≠ Outcome.notReady ops)
      ∧ (∀ ops err, withFault fault (renderAttempt env s p) = (ops, some err) →
          updatePreview env dom fault w (some p) = Except.ok (w, Outcome.caught ops err))
      ∧ (∀ n, n < (renderAttempt env s p).1.length →
          updatePreview env dom (some n) w (some p)
            = Except.ok (w, Outcome.caught ((renderAttempt env s p).1.take n)
                (RenderError.domException n)))
      ∧ (∀ (env2 : MathEnv) (dom2 : ℕ → Dom) (fault2 : Option ℕ) (p2 : PreviewParams),
          ∃ o2, updatePreview env2 dom2 fault2 w (some p2) = Except.ok (w, o2)
            ∧ ∀ ops, o2 ≠ Outcome.notReady ops) := by
  have key : ∀ (env2 : MathEnv) (dom2 : ℕ → Dom) (fault2 : Option ℕ) (p2 : PreviewParams),
      ∃ o2, updatePreview env2 dom2 fault2 w (some p2) = Except.ok (w, o2)
        ∧ ∀ ops, o2 ≠ Outcome.notReady ops := by
    intro env2 dom2 fault2 p2
    rw [updatePreview_ready env2 dom2 fault2 w s p2 hi hx hs]
    rcases h : withFault fault2 (renderAttempt env2 s p2) with ⟨ops, _ | err⟩
    · exact ⟨Outcome.rendered ops, rfl, fun _ hne => Outcome.noConfusion hne⟩
    · exact ⟨Outcome.caught ops err, rfl, fun _ hne => Outcome.noConfusion hne⟩
  refine ⟨key env dom fault p, ?_, ?_, key⟩
  · intro ops err h
    rw [updatePreview_ready env dom fault w s p hi hx hs, h]
  · intro n hn
    rw [updatePreview_ready env dom (some n) w s p hi hx hs]
    simp only [withFault, hn, if_true]

/-- C19, for a ready engine on an 800 by 400 surface whose render is given the tone
`constructor`: the `TypeError` of the missing `map` is caught after the clearing. -/
theorem updatePreview_catches_witness :
    updatePreview ⟨fun _ => 1 / 2, fun _ => 0, fun _ => 1⟩ (fun _ => ⟨none, false, none⟩)
        none ⟨⟨some ⟨800, 400⟩, true, true, 0, 3⟩, 0, 1⟩
        (some ⟨JSVal.str (1 / 2), JSVal.str (1 / 2), "constructor", JSVal.str 1,
          JSVal.str 1, JSVal.str 5, JSVal.str 1, JSVal.num 1, JSVal.num 0,
          ⟨false, false, true, false⟩⟩)
      = Except.ok (⟨⟨some ⟨800, 400⟩, true, true, 0, 3⟩, 0, 1⟩,
          Outcome.caught [Op.clearRect 0 0 (800 : ℕ) (400 : ℕ)]
            (RenderError.typeError "selectedColors.map is not a function")) :=
  (updatePreview_catches ⟨fun _ => 1 / 2, fun _ => 0, fun _ => 1⟩
    (fun _ => ⟨none, false, none⟩) none ⟨⟨some ⟨800, 400⟩, true, true, 0, 3⟩, 0, 1⟩
    ⟨800, 400⟩
    ⟨JSVal.str (1 / 2), JSVal.str (1 / 2), "constructor", JSVal.str 1, JSVal.str 1,
      JSVal.str 5, JSVal.str 1, JSVal.num 1, JSVal.num 0, ⟨false, false, true, false⟩⟩
    rfl rfl rfl).2.1 _ _ (by decide)

/-! ## The overlays and the transform of the context -/

theorem annotate_append (a b : List Op) :
    ∀ c : CtxState, annotate c (a ++ b) = annotate c a ++ annotate (c.run a) b := by
  induction a with
  | nil => intro c; rfl
  | cons op a ih =>
    intro c
    rw [List.cons_append]
    simp only [annotate]
    rw [ih]
    rfl

theorem CtxState.run_append (c : CtxState) (a b : List Op) :
    c.run (a ++ b) = (c.run a).run b := by
  simp only [CtxState.run, List.foldl_append]

/-- Every overlay drawer leaves the state of the context as it found it. -/
theorem overlayOps_frame (s : Surface) (o : Overlay) (c : CtxState) :
    c.run (overlayOps s o) = c := by
  cases o <;> rfl

theorem overlayOps_flatten_frame (s : Surface) (c : CtxState) :
    ∀ os : List Overlay, c.run ((os.map (overlayOps s)).flatten) = c := by
  intro os
  induction os with
  | nil => rfl
  | cons o os ih =>
    simp only [List.map_cons, List.flatten_cons, CtxState.run_append, overlayOps_frame, ih]

/-- C14: for every surface, every state of the context in force when the overlay part
starts and every set of flags that contains `mudHens`, the calls of the Mud Hens drawer
are made under the same transforms as when `mudHens` is the only flag: `save` and
`translate(0.5 * width, 0.8 * height)` under the base transform, `scale(1.4, 1.4)` under
the translated one, and the whole glyph and `restore` under the base transform translated
and then scaled; every overlay drawer leaves the state of the context as it found it, so
every overlay starts in the base state. -/
theorem overlays_independent (s : Surface) (f : OverlayFlags) (c : CtxState)
    (hm : f.mudHens = true) :
    (∃ pre post, annotate c (overlaysOps s f)
        = pre ++ annotate c (overlaysOps s ⟨false, false, true, false⟩) ++ post)
      ∧ annotate c (overlaysOps s ⟨false, false, true, false⟩)
          = (c.current.transform, Op.save)
            :: (c.current.transform, Op.translate (s.width * (5 / 10)) (s.height * (8 / 10)))
            :: (c.current.transform.translate (s.width * (5 / 10)) (s.height * (8 / 10)),
                Op.scale (14 / 10) (14 / 10))
            :: (mudHensGlyph ++ [Op.restore]).map (fun op =>
                (((c.current.transform.translate (s.width * (5 / 10))
                    (s.height * (8 / 10))).scale (14 / 10) (14 / 10)), op))
      ∧ (∀ (o : Overlay) (c0 : CtxState), c0.run (overlayOps s o) = c0)
      ∧ (∀ (before : List Overlay) (o : Overlay) (after : List Overlay),
          overlayCalls f = before ++ o :: after →
            overlaysOps s f
                = (before.map (overlayOps s)).flatten ++ overlayOps s o
                  ++ (after.map (overlayOps s)).flatten
              ∧ c.run ((before.map (overlayOps s)).flatten) = c) := by
  refine ⟨?_, ?_, overlayOps_frame s, ?_⟩
  · refine ⟨annotate c (if f.glassToledo then addGlassToledoOverlay s else []),
      annotate c ((if f.redSculpture then addRedSculptureOverlay s else [])
        ++ (if f.toledoMuseum then addToledoMuseumOverlay s else [])), ?_⟩
    have hsplit : overlaysOps s f
        = (if f.glassToledo then addGlassToledoOverlay s else [])
          ++ (overlaysOps s ⟨false, false, true, false⟩
            ++ ((if f.redSculpture then addRedSculptureOverlay s else [])
              ++ (if f.toledoMuseum then addToledoMuseumOverlay s else []))) := by
      simp only [overlaysOps, overlayCalls, hm, if_true]
      cases f.glassToledo <;> cases f.redSculpture <;> cases f.toledoMuseum <;>
        simp [overlayOps]
    have hpre : c.run (if f.glassToledo then addGlassToledoOverlay s else []) = c := by
      cases f.glassToledo
      · rfl
      · exact overlayOps_frame s Overlay.glassToledo c
    have hmud : c.run (overlaysOps s ⟨false, false, true, false⟩) = c :=
      overlayOps_flatten_frame s c [Overlay.mudHens]
    rw [hsplit, annotate_append, hpre, annotate_append, hmud, List.append_assoc]
  · rfl
  · intro before o after h
    refine ⟨?_, overlayOps_flatten_frame s c before⟩
    simp only [overlaysOps, h, List.map_append, List.map_cons, List.flatten_append,
      List.flatten_cons, List.append_assoc]

/-- C14, for an 800 by 400 surface with all four flags set and the identity as base
transform. -/
theorem overlays_independent_witness :
    ∃ pre post,
      annotate ⟨⟨⟨1, 0, 0, 1, 0, 0⟩, Style.css "#000000".data, Style.css "#000000".data, 1,
          "10px sans-serif", "start"⟩, []⟩ (overlaysOps ⟨800, 400⟩ ⟨true, true, true, true⟩)
        = pre
          ++ annotate ⟨⟨⟨1, 0, 0, 1, 0, 0⟩, Style.css "#000000".data,
              Style.css "#000000".data, 1, "10px sans-serif", "start"⟩, []⟩
            (overlaysOps ⟨800, 400⟩ ⟨false, false, true, false⟩)
          ++ post :=
  (overlays_independent ⟨800, 400⟩ ⟨true, true, true, true⟩
    ⟨⟨⟨1, 0, 0, 1, 0, 0⟩, Style.css "#000000".data, Style.css "#000000".data, 1,
      "10px sans-serif", "start"⟩, []⟩ rfl).1

/-! ## Acquisition of the surface -/

theorem World.acquire_attempts (dom : ℕ → Dom) (w : World) :
    (World.acquire dom w).1.engine.initializationAttempts = w.engine.initializationAttempts
      ∧ (World.acquire dom w).1.engine.maxAttempts = w.engine.maxAttempts := by
  unfold World.acquire
  split
  · exact ⟨rfl, rfl⟩
  · dsimp only
    split
    · exact ⟨rfl, rfl⟩
    · split <;> exact ⟨rfl, rfl⟩

/-- The calls of an acquisition: none, or one clearing of the surface. -/
theorem World.acquire_ops (dom : ℕ → Dom) (w : World) :
    ∀ op ∈ (World.acquire dom w).2, ∃ width height : ℚ, op = Op.clearRect 0 0 width height := by
  unfold World.acquire
  split
  · intro op h; simp at h
  · dsimp only
    split
    · intro op h; simp at h
    · split
      · intro op h
        simp only [List.mem_singleton] at h
        exact ⟨_, _, h⟩
      · intro op h; simp at h

/-- An acquisition made with no timer pending, by an engine that is not initialized and
has made as many acquisitions as it counts retries, leaves a consistent world. -/
theorem World.acquire_consistent (dom : ℕ → Dom) (w : World)
    (hmax : w.engine.maxAttempts = 3) (ht : w.timers = 0)
    (hi : w.engine.initialized = false) (ha : w.engine.initializationAttempts ≤ 3)
    (hq : w.acquisitions = w.engine.initializationAttempts) :
    (World.acquire dom w).1.Consistent := by
  unfold World.acquire
  split
  · rename_i hge
    refine ⟨hmax, Or.inr (Or.inr ⟨ht, hi, ?_, ?_⟩)⟩ <;> dsimp only <;> omega
  · rename_i hlt
    dsimp only
    split
    · refine ⟨hmax, Or.inl ⟨?_, hi, ?_, ?_⟩⟩ <;> dsimp only <;> omega
    · split
      · refine ⟨hmax, Or.inr (Or.inl ⟨ht, rfl, ?_, ?_⟩)⟩ <;> dsimp only <;> omega
      · refine ⟨hmax, Or.inl ⟨?_, hi, ?_, ?_⟩⟩ <;> dsimp only <;> omega

/-- A consistent world stays consistent when its timer fires. -/
theorem World.fireTimer_consistent (dom : ℕ → Dom) (w : World) (h : w.Consistent) :
    (World.fireTimer dom w).1.Consistent := by
  unfold World.fireTimer
  split
  · exact h
  · rename_i hne
    obtain ⟨hmax, ⟨ht, hi, ha, hq⟩ | ⟨ht, -⟩ | ⟨ht, -⟩⟩ := h
    · apply World.acquire_consistent
      · exact hmax
      · dsimp only; omega
      · exact hi
      · dsimp only; omega
      · dsimp only; omega
    · exact absurd ht hne
    · exact absurd ht hne

/-- After enough timers a consistent world has none pending. -/
theorem World.drain_consistent (dom : ℕ → Dom) :
    ∀ (fuel : ℕ) (w : World), w.Consistent →
      3 ≤ fuel + w.engine.initializationAttempts →
        (World.drain dom fuel w).Consistent ∧ (World.drain dom fuel w).timers = 0 := by
  intro fuel
  induction fuel with
  | zero =>
    intro w h hf
    obtain ⟨hmax, ⟨-, -, ha, -⟩ | ⟨-, -, ha, -⟩ | ⟨ht, hr⟩⟩ := h
    · omega
    · omega
    · exact ⟨⟨hmax, Or.inr (Or.inr ⟨ht, hr⟩)⟩, ht⟩
  | succ fuel ih =>
    intro w h hf
    unfold World.drain
    split
    · rename_i ht
      exact ⟨h, ht⟩
    · rename_i hne
      apply ih _ (World.fireTimer_consistent dom w h)
      have hatt : (World.fireTimer dom w).1.engine.initializationAttempts
          = w.engine.initializationAttempts + 1 := by
        unfold World.fireTimer
        rw [if_neg hne]
        exact (World.acquire_attempts dom _).1
      omega

/-- C20: the acquisition of the surface is retried a bounded number of times.  Below
the bound a failed acquisition (no element, or no context) makes no call on the context,
sets exactly one timer and leaves the count of retries and `initialized` as they were;
the timer, when it fires, adds one to the count and calls the acquisition method again.
Once the count has reached `maxAttempts` a call of the acquisition method leaves the
world as it is: no acquisition, no timer, `initialized` unchanged.  From the
construction on, whatever the page answers, after three timers none is pending, at most
three acquisitions have been made, and the engine is not initialized exactly when the
count has reached three.  While the engine is not initialized `updatePreview` returns
without rendering: the only call that can reach the context is the clearing made by an
acquisition that succeeds, and with the count at the bound the world is unchanged. -/
theorem acquisition_bounded (dom : ℕ → Dom) (w : World) :
    (w.engine.initializationAttempts < w.engine.maxAttempts →
        ((dom w.acquisitions).element = none ∨ (dom w.acquisitions).context = false) →
          (World.acquire dom w).1.timers = w.timers + 1
            ∧ (World.acquire dom w).1.acquisitions = w.acquisitions + 1
            ∧ (World.acquire dom w).1.engine.initializationAttempts
                = w.engine.initializationAttempts
            ∧ (World.acquire dom w).1.engine.initialized = w.engine.initialized
            ∧ (World.acquire dom w).2 = [])
      ∧ (0 < w.timers →
          World.fireTimer dom w
              = World.acquire dom
                  { w with
                    engine := { w.engine with
                      initializationAttempts := w.engine.initializationAttempts + 1 },
                    timers := w.timers - 1 }
            ∧ (World.fireTimer dom w).1.engine.initializationAttempts
                = w.engine.initializationAttempts + 1)
      ∧ (w.engine.maxAttempts ≤ w.engine.initializationAttempts →
          World.acquire dom w = (w, []))
      ∧ (∀ fuel, 3 ≤ fuel →
          (World.drain dom fuel (World.construct dom)).timers = 0
            ∧ (World.drain dom fuel (World.construct dom)).acquisitions ≤ 3
            ∧ (World.drain dom fuel (World.construct dom)).engine.initializationAttempts ≤ 3
            ∧ ((World.drain dom fuel (World.construct dom)).engine.initialized = false
                ↔ (World.drain dom fuel (World.construct dom)).engine.initializationAttempts
                    = 3))
      ∧ (w.engine.initialized = false →
          ∀ (env : MathEnv) (fault : Option ℕ) (params : Option PreviewParams),
            ∃ (w2 : World) (ops : List Op),
              updatePreview env dom fault w params = Except.ok (w2, Outcome.notReady ops)
                ∧ (∀ op ∈ ops, ∃ width height : ℚ, op = Op.clearRect 0 0 width height)
                ∧ (w.engine.maxAttempts ≤ w.engine.initializationAttempts →
                    w2 = w ∧ ops = [])) := by
  refine ⟨?_, ?_, ?_, ?_, ?_⟩
  · intro hlt hfail
    have hnge : ¬ w.engine.initializationAttempts ≥ w.engine.maxAttempts := by omega
    unfold World.acquire
    rw [if_neg hnge]
    dsimp only
    rcases hfail with hel | hctx
    · rw [hel]
      exact ⟨rfl, rfl, rfl, rfl, rfl⟩
    · rw [hctx]
      split
      · exact ⟨rfl, rfl, rfl, rfl, rfl⟩
      · exact ⟨rfl, rfl, rfl, rfl, rfl⟩
  · intro ht
    have hne : ¬ w.timers = 0 := by omega
    have h : World.fireTimer dom w
        = World.acquire dom
            { w with
              engine := { w.engine with
                initializationAttempts := w.engine.initializationAttempts + 1 },
              timers := w.timers - 1 } := by
      unfold World.fireTimer
      rw [if_neg hne]
    exact ⟨h, by rw [h]; exact (World.acquire_attempts dom _).1⟩
  · intro hge
    unfold World.acquire
    rw [if_pos hge]
  · intro fuel hfuel
    have h0 : (World.construct dom).Consistent :=
      World.acquire_consistent dom _ rfl rfl rfl (by decide) rfl
    obtain ⟨⟨-, hc⟩, ht⟩ := World.drain_consistent dom fuel _ h0 (by omega)
    rcases hc with ⟨h1, -⟩ | ⟨-, hi, ha, hq⟩ | ⟨-, hi, ha, hq⟩
    · omega
    · refine ⟨ht, by omega, by omega, ?_⟩
      rw [hi]
      constructor
      · intro h; cases h
      · intro h; omega
    · refine ⟨ht, by omega, by omega, ?_⟩
      rw [hi]
      exact ⟨fun _ => ha, fun _ => rfl⟩
  · intro hi env fault params
    by_cases hlt : w.engine.initializationAttempts < w.engine.maxAttempts
    · refine ⟨(World.acquire dom w).1, (World.acquire dom w).2, ?_,
        World.acquire_ops dom w, fun hge => by omega⟩
      simp only [updatePreview, hi, if_pos hlt]
    · refine ⟨w, [], ?_, fun op h => by simp at h, fun _ => ⟨rfl, rfl⟩⟩
      simp only [updatePreview, hi, if_neg hlt]

/-- C20, for a page that never has the element: after three timers the engine has made
three acquisitions and counted three retries, no timer is pending and it is not
initialized. -/
theorem acquisition_bounded_witness :
    (World.drain (fun _ => ⟨none, false, none⟩) 3
        (World.construct (fun _ => ⟨none, false, none⟩))).timers = 0
      ∧ (World.drain (fun _ => ⟨none, false, none⟩) 3
          (World.construct (fun _ => ⟨none, false, none⟩))).acquisitions ≤ 3
      ∧ (World.drain (fun _ => ⟨none, false, none⟩) 3
          (World.construct (fun _ => ⟨none, false, none⟩))).engine.initializationAttempts ≤ 3
      ∧ ((World.drain (fun _ => ⟨none, false, none⟩) 3
            (World.construct (fun _ => ⟨none, false, none⟩))).engine.initialized = false
          ↔ (World.drain (fun _ => ⟨none, false, none⟩) 3
              (World.construct (fun _ => ⟨none, false, none⟩))).engine.initializationAttempts
                = 3) :=
  (acquisition_bounded (fun _ => ⟨none, false, none⟩)
    (World.construct (fun _ => ⟨none, false, none⟩))).2.2.2.1 3 (by decide)

/-! ## Greys under the hue rotation -/

/-- A grey has hue 0, saturation 0 and its channel as lightness. -/
theorem rgbToHsl_grey (x : ℚ) : rgbToHsl x x x = (0, 0, x) := by
  have e : (x + x) / 2 = x := by ring
  simp only [rgbToHsl, max_self, min_self, if_true, e]

/-- Without saturation the conversion back ignores the hue. -/
theorem hslToRgb_grey (h l : ℚ) : hslToRgb h 0 l = (l, l, l) := by
  simp only [hslToRgb, if_true]

/-- On a well-formed grey the conversion path writes the same grey, whatever the
rotation. -/
theorem hueConversionPath_grey {color : List Char} {v : ℕ}
    (hc : colorChannels color = some (v, v, v)) (deg : ℚ) :
    hueConversionPath color deg = hexColor v v v := by
  obtain ⟨-, -, -, hv, -, -⟩ := parse_of_colorChannels hc
  rw [hueConversionPath_eq hc, rgbToHsl_grey, hslToRgb_grey]
  simp only [toHex_channel v hv, hexColor]

/-- C21: the hue rotation leaves greys unchanged.  For every well-formed colour whose
three channels are equal to `v` and every non-zero adjustment (a Number or a numeric
string), `adjustColorHue` returns the text `#vvvvvv` in lower-case digits, the same for
every rotation: a colour with exactly the same three channel values. -/
theorem adjustColorHue_grey (color : List Char) (v : ℕ) (hueAdjust : JSVal)
    (hc : colorChannels color = some (v, v, v)) (hne : hueAdjust.parseFloat ≠ 0) :
    adjustColorHue color hueAdjust = hexColor v v v
      ∧ colorChannels (adjustColorHue color hueAdjust) = some (v, v, v)
      ∧ colorChannels (adjustColorHue color hueAdjust) = colorChannels color := by
  obtain ⟨-, -, -, hv, -, -⟩ := parse_of_colorChannels hc
  have hguard : hueAdjust.strictEqZero = false := by
    cases hueAdjust with
    | num q => simpa [JSVal.strictEqZero, JSVal.parseFloat] using hne
    | str q => rfl
  have ha : adjustColorHue color hueAdjust = hexColor v v v := by
    simp only [adjustColorHue, hguard, hueConversionPath_grey hc]
    rfl
  refine ⟨ha, ?_, ?_⟩
  · rw [ha]; exact colorChannels_hexColor hv hv hv
  · rw [ha, hc]; exact colorChannels_hexColor hv hv hv

/-- C21, at the grey `#808080` and an adjustment of 90 degrees. -/
theorem adjustColorHue_grey_witness :
    adjustColorHue "#808080".data (JSVal.num 90) = hexColor 128 128 128
      ∧ colorChannels (adjustColorHue "#808080".data (JSVal.num 90)) = some (128, 128, 128)
      ∧ colorChannels (adjustColorHue "#808080".data (JSVal.num 90))
          = colorChannels "#808080".data :=
  adjustColorHue_grey "#808080".data 128 (JSVal.num 90) (by decide)
    (by norm_num [JSVal.parseFloat])

/-! ## The windows of a building -/

/-- Every block of a loop is the block of one of its rounds. -/
theorem forBlocksFrom_mem (body : ℕ → ℕ → List Op × ℕ) :
    ∀ (n i k : ℕ) (blk : List Op), blk ∈ (forBlocksFrom body n i k).1 →
      ∃ j k1, j < n ∧ blk = (body (i + j) k1).1 := by
  intro n
  induction n with
  | zero =>
    intro i k blk h
    simp [forBlocksFrom] at h
  | succ n ih =>
    intro i k blk h
    simp only [forBlocksFrom, List.mem_cons] at h
    rcases h with h | h
    · exact ⟨0, k, by omega, by simpa using h⟩
    · obtain ⟨j, k1, hj, e⟩ := ih _ _ _ h
      refine ⟨j + 1, k1, by omega, ?_⟩
      rw [e]
      congr 2
      omega

/-- Every call of a loop is a call of one of its rounds. -/
theorem forLoop_mem (body : ℕ → ℕ → List Op × ℕ) (n k : ℕ) (op : Op)
    (h : op ∈ (forLoop n body k).1) : ∃ j k1, j < n ∧ op ∈ (body j k1).1 := by
  simp only [forLoop, forBlocks, List.mem_flatten] at h
  obtain ⟨blk, hb, ho⟩ := h
  obtain ⟨j, k1, hj, e⟩ := forBlocksFrom_mem body n 0 k blk hb
  rw [Nat.zero_add] at e
  exact ⟨j, k1, hj, e ▸ ho⟩

/-- The only rectangle of a window cell is its 6 by 6 square, centred at
`(winX, winY)`. -/
theorem windowCell_rect (env : MathEnv) (s : Surface) (colors : List (List Char))
    (x width height : ℚ) (windowRows windowCols : ℤ) (row col k : ℕ) (a b c d : ℚ)
    (h : Op.rect a b c d
      ∈ (windowCell env s colors x width height windowRows windowCols row col k).1) :
    a = x - width / 2 + (col + 1 / 2) * (width / windowCols) - 3
      ∧ b = s.height - height + (row + 1 / 2) * (height / windowRows) - 3
      ∧ c = 6 ∧ d = 6 := by
  unfold windowCell at h
  split at h
  · simpa using h
  · simp at h

/-- Every rectangle of the window grid is the square of one of its cells. -/
theorem windowGrid_rect (env : MathEnv) (s : Surface) (colors : List (List Char))
    (x width height : ℚ) (k : ℕ) (a b c d : ℚ)
    (h : Op.rect a b c d ∈ (windowGrid env s colors x width height k).1) :
    ∃ row col : ℕ, row < ⌊height / 20⌋.toNat ∧ col < ⌊width / 15⌋.toNat
      ∧ a = x - width / 2 + (col + 1 / 2) * (width / ⌊width / 15⌋) - 3
      ∧ b = s.height - height + (row + 1 / 2) * (height / ⌊height / 20⌋) - 3
      ∧ c = 6 ∧ d = 6 := by
  unfold windowGrid at h
  simp only [loopCount_intCast] at h
  obtain ⟨row, k1, hrow, h1⟩ := forLoop_mem _ _ _ _ h
  obtain ⟨col, k2, hcol, h2⟩ := forLoop_mem _ _ _ _ h1
  exact ⟨row, col, hrow, hcol, windowCell_rect _ _ _ _ _ _ _ _ _ _ _ _ _ _ _ h2⟩

/-- Cells of size `len / floor(len / unit)` are at least `unit` long, and the first
`floor(len / unit)` of them fit in `len`. -/
theorem floor_cell (len unit : ℚ) (hunit : 0 < unit) (i : ℕ)
    (hi : i < ⌊len / unit⌋.toNat) :
    (1 : ℤ) ≤ ⌊len / unit⌋ ∧ ((⌊len / unit⌋ : ℤ) : ℚ) ≠ 0
      ∧ unit ≤ len / ⌊len / unit⌋
      ∧ ((i : ℚ) + 1) * (len / ⌊len / unit⌋) ≤ len := by
  have hn : (1 : ℤ) ≤ ⌊len / unit⌋ := by omega
  have hnq : (1 : ℚ) ≤ ((⌊len / unit⌋ : ℤ) : ℚ) := by exact_mod_cast hn
  have hfl : ((⌊len / unit⌋ : ℤ) : ℚ) ≤ len / unit := Int.floor_le _
  have h1 : ((⌊len / unit⌋ : ℤ) : ℚ) * unit ≤ len := (le_div_iff₀ hunit).mp hfl
  have hpos : (0 : ℚ) < ((⌊len / unit⌋ : ℤ) : ℚ) := by linarith
  have hlen : 0 ≤ len := le_trans (mul_nonneg hpos.le hunit.le) h1
  have hi2 : (i : ℚ) + 1 ≤ ((⌊len / unit⌋ : ℤ) : ℚ) := by
    have : (i : ℤ) + 1 ≤ ⌊len / unit⌋ := by omega
    exact_mod_cast this
  refine ⟨hn, hpos.ne', ?_, ?_⟩
  · rw [le_div_iff₀ hpos]
    linarith [mul_comm ((⌊len / unit⌋ : ℤ) : ℚ) unit]
  · calc ((i : ℚ) + 1) * (len / ⌊len / unit⌋)
        ≤ ((⌊len / unit⌋ : ℤ) : ℚ) * (len / ⌊len / unit⌋) :=
          mul_le_mul_of_nonneg_right hi2 (div_nonneg hlen hpos.le)
      _ = len := by field_simp

/-- Squares of side 6 centred in two different cells of length at least 6 along one
axis do not meet. -/
theorem cell_centres_apart (cell : ℚ) (hcell : 6 ≤ cell) (i j : ℕ) (hij : i < j) :
    ((i : ℚ) + 1 / 2) * cell - 3 + 6 ≤ ((j : ℚ) + 1 / 2) * cell - 3 := by
  have h : (i : ℚ) + 1 ≤ j := by exact_mod_cast hij
  nlinarith

/-- C22: for every building of width `w` in `[25, 55)` and height `h > 0`, there are
between 1 and 3 columns of windows, and for every cell `(row, col)` of the grid the
divisors `windowRows` and `windowCols` are not zero and the cell is at least 15 wide and
20 tall; hence the rectangle of the cell, when it is drawn, is a 6 by 6 square that lies
inside its cell and inside the rectangle of the building and does not meet the square of
any other cell.  Every rectangle drawn by the window grid lies inside the rectangle of
the building. -/
theorem windows_inside_building (env : MathEnv) (s : Surface) (colors : List (List Char))
    (x width height : ℚ) (hw1 : 25 ≤ width) (hw2 : width < 55) (_hh : 0 < height) :
    (1 ≤ ⌊width / 15⌋ ∧ ⌊width / 15⌋ ≤ 3)
      ∧ (∀ row col : ℕ, row < ⌊height / 20⌋.toNat → col < ⌊width / 15⌋.toNat →
          ⌊height / 20⌋ ≠ 0 ∧ ⌊width / 15⌋ ≠ 0
            ∧ 15 ≤ width / ⌊width / 15⌋ ∧ 20 ≤ height / ⌊height / 20⌋
            ∧ ∀ (k : ℕ) (a b c d : ℚ),
                Op.rect a b c d
                    ∈ (windowCell env s colors x width height ⌊height / 20⌋ ⌊width / 15⌋
                        row col k).1 →
                  c = 6 ∧ d = 6
                    ∧ x - width / 2 + col * (width / ⌊width / 15⌋) ≤ a
                    ∧ a + c ≤ x - width / 2 + (col + 1) * (width / ⌊width / 15⌋)
                    ∧ s.height - height + row * (height / ⌊height / 20⌋) ≤ b
                    ∧ b + d ≤ s.height - height + (row + 1) * (height / ⌊height / 20⌋)
                    ∧ x - width / 2 ≤ a ∧ a + c ≤ x - width / 2 + width
                    ∧ s.height - height ≤ b ∧ b + d ≤ s.height - height + height
                    ∧ ∀ (row2 col2 k2 : ℕ) (a2 b2 c2 d2 : ℚ),
                        (row2, col2) ≠ (row, col) →
                        Op.rect a2 b2 c2 d2
                            ∈ (windowCell env s colors x width height ⌊height / 20⌋
                                ⌊width / 15⌋ row2 col2 k2).1 →
                          a + c ≤ a2 ∨ a2 + c2 ≤ a ∨ b + d ≤ b2 ∨ b2 + d2 ≤ b)
      ∧ (∀ (k : ℕ) (a b c d : ℚ),
          Op.rect a b c d ∈ (windowGrid env s colors x width height k).1 →
            x - width / 2 ≤ a ∧ a + c ≤ x - width / 2 + width
              ∧ s.height - height ≤ b ∧ b + d ≤ s.height - height + height) := by
  have hcols : 1 ≤ ⌊width / 15⌋ ∧ ⌊width / 15⌋ ≤ 3 := by
    constructor
    · rw [Int.le_floor]
      push_cast
      rw [le_div_iff₀ (by norm_num)]
      linarith
    · have h : ⌊width / 15⌋ < 4 := by
        rw [Int.floor_lt]
        push_cast
        rw [div_lt_iff₀ (by norm_num)]
        linarith
      omega
  have inside : ∀ (row col : ℕ) (a b c d : ℚ), row < ⌊height / 20⌋.toNat →
      col < ⌊width / 15⌋.toNat →
      a = x - width / 2 + (col + 1 / 2) * (width / ⌊width / 15⌋) - 3 →
      b = s.height - height + (row + 1 / 2) * (height / ⌊height / 20⌋) - 3 →
      c = 6 → d = 6 →
        x - width / 2 + col * (width / ⌊width / 15⌋) ≤ a
          ∧ a + c ≤ x - width / 2 + (col + 1) * (width / ⌊width / 15⌋)
          ∧ s.height - height + row * (height / ⌊height / 20⌋) ≤ b
          ∧ b + d ≤ s.height - height + (row + 1) * (height / ⌊height / 20⌋)
          ∧ x - width / 2 ≤ a ∧ a + c ≤ x - width / 2 + width
          ∧ s.height - height ≤ b ∧ b + d ≤ s.height - height + height := by
    intro row col a b c d hrow hcol ha hb hc hd
    obtain ⟨-, -, hcw, hcfit⟩ := floor_cell width 15 (by norm_num) col hcol
    obtain ⟨-, -, hch, hrfit⟩ := floor_cell height 20 (by norm_num) row hrow
    have hc0 : (0 : ℚ) ≤ (col : ℚ) * (width / ⌊width / 15⌋) :=
      mul_nonneg (Nat.cast_nonneg col) (by linarith)
    have hr0 : (0 : ℚ) ≤ (row : ℚ) * (height / ⌊height / 20⌋) :=
      mul_nonneg (Nat.cast_nonneg row) (by linarith)
    subst ha hb hc hd
    refine ⟨?_, ?_, ?_, ?_, ?_, ?_, ?_, ?_⟩ <;> linarith
  refine ⟨hcols, ?_, ?_⟩
  · intro row col hrow hcol
    obtain ⟨hc1, -, hcw, -⟩ := floor_cell width 15 (by norm_num) col hcol
    obtain ⟨hr1, -, hch, -⟩ := floor_cell height 20 (by norm_num) row hrow
    refine ⟨by omega, by omega, hcw, hch, ?_⟩
    intro k a b c d hmem
    obtain ⟨ha, hb, hc, hd⟩ := windowCell_rect _ _ _ _ _ _ _ _ _ _ _ _ _ _ _ hmem
    obtain ⟨i1, i2, i3, i4, i5, i6, i7, i8⟩ := inside row col a b c d hrow hcol ha hb hc hd
    refine ⟨hc, hd, i1, i2, i3, i4, i5, i6, i7, i8, ?_⟩
    intro row2 col2 k2 a2 b2 c2 d2 hne hmem2
    obtain ⟨ha2, hb2, hc2, hd2⟩ := windowCell_rect _ _ _ _ _ _ _ _ _ _ _ _ _ _ _ hmem2
    have hcw6 : (6 : ℚ) ≤ width / ⌊width / 15⌋ := by linarith
    have hch6 : (6 : ℚ) ≤ height / ⌊height / 20⌋ := by linarith
    rcases Nat.lt_trichotomy col col2 with hlt | heq | hgt
    · left
      have := cell_centres_apart _ hcw6 col col2 hlt
      rw [ha, ha2, hc]
      linarith
    · rcases Nat.lt_trichotomy row row2 with hlt | heq2 | hgt
      · right; right; left
        have := cell_centres_apart _ hch6 row row2 hlt
        rw [hb, hb2, hd]
        linarith
      · exact absurd (by rw [heq, heq2]) hne
      · right; right; right
        have := cell_centres_apart _ hch6 row2 row hgt
        rw [hb, hb2, hd2]
        linarith
    · right; left
      have := cell_centres_apart _ hcw6 col2 col hgt
      rw [ha, ha2, hc2]
      linarith
  · intro k a b c d hmem
    obtain ⟨row, col, hrow, hcol, ha, hb, hc, hd⟩ := windowGrid_rect _ _ _ _ _ _ _ _ _ _ _ hmem
    obtain ⟨-, -, -, -, i5, i6, i7, i8⟩ := inside row col a b c d hrow hcol ha hb hc hd
    exact ⟨i5, i6, i7, i8⟩

/-- C22, for a building of width 40 and height 50 centred at `x = 400` on an 800 by 400
surface: the window of the cell in row 1 and column 1 is the square at `(407, 384.5)`,
inside the rectangle of the building. -/
theorem windows_inside_building_witness :
    Op.rect 407 (769 / 2) 6 6
        ∈ (windowCell ⟨fun _ => 1 / 2, fun _ => 0, fun _ => 1⟩ ⟨800, 400⟩
            ["#2c3e50".data, "#34495e".data, "#ecf0f1".data, "#3498db".data] 400 40 50
            ⌊(50 : ℚ) / 20⌋ ⌊(40 : ℚ) / 15⌋ 1 1 0).1
      ∧ (400 : ℚ) - 40 / 2 ≤ 407 ∧ (407 : ℚ) + 6 ≤ 400 - 40 / 2 + 40
      ∧ ((400 : ℕ) : ℚ) - 50 ≤ 769 / 2 ∧ (769 / 2 : ℚ) + 6 ≤ ((400 : ℕ) : ℚ) - 50 + 50 := by
  have hmem : Op.rect 407 (769 / 2) 6 6
      ∈ (windowCell ⟨fun _ => 1 / 2, fun _ => 0, fun _ => 1⟩ ⟨800, 400⟩
          ["#2c3e50".data, "#34495e".data, "#ecf0f1".data, "#3498db".data] 400 40 50
          ⌊(50 : ℚ) / 20⌋ ⌊(40 : ℚ) / 15⌋ 1 1 0).1 := by decide!
  obtain ⟨-, hcell, -⟩ := windows_inside_building ⟨fun _ => 1 / 2, fun _ => 0, fun _ => 1⟩
    ⟨800, 400⟩ ["#2c3e50".data, "#34495e".data, "#ecf0f1".data, "#3498db".data] 400 40 50
    (by norm_num) (by norm_num) (by norm_num)
  obtain ⟨-, -, -, -, hwin⟩ := hcell 1 1 (by decide!) (by decide!)
  obtain ⟨-, -, -, -, -, -, i5, i6, i7, i8, -⟩ := hwin 0 407 (769 / 2) 6 6 hmem
  exact ⟨hmem, i5, i6, i7, i8⟩

end ToledoArt
